import Mathlib

/-!
Formal model of the s390 guest-address-space (gmap) translation and shadow
paging engine of arch/s390/mm/gmap.c, with theorems checking the
natural-language specification against it.

Machine words are `Nat` with explicit truncation modulo `2 ^ 64`.  Table
memory is a function from byte addresses to entry words; the radix trees
(`guest_to_host`, `host_to_guest`, `host_to_rmap`) are functions from keys to
optional stored values (a `radix_tree_lookup` result of NULL is the stored
value 0 or an absent key, exactly as in C).  External collaborators (host mm
walk, page allocator, pte-level primitives of pgtable.c) enter as explicit
oracle arguments.  Architectural constants come from the s390 headers
(asm/pgtable.h, asm/gmap.h), which are not part of the scoped source.
-/

namespace Gmap

/-- Modulus of the 64-bit machine words (unsigned long). -/
def U64 : Nat := 2 ^ 64

/-- Truncation to a 64-bit machine word. -/
def t64 (x : Nat) : Nat := x % U64

/-- Bitwise complement within 64 bits (C `~m` on unsigned long). -/
def cpl (m : Nat) : Nat := (U64 - 1) ^^^ m

def PAGE_SHIFT : Nat := 12
def PAGE_SIZE : Nat := 2 ^ 12
def PMD_SHIFT : Nat := 20
def PMD_SIZE : Nat := 2 ^ 20
def PMD_MASK : Nat := U64 - PMD_SIZE
def HPAGE_SIZE : Nat := 2 ^ 20
def HPAGE_MASK : Nat := U64 - HPAGE_SIZE

def SEGMENT_SHIFT : Nat := 20
def REGION3_SHIFT : Nat := 31
def REGION2_SHIFT : Nat := 42
def REGION1_SHIFT : Nat := 53
def SEGMENT_SIZE : Nat := 2 ^ 20
def REGION3_SIZE : Nat := 2 ^ 31
def REGION2_SIZE : Nat := 2 ^ 42
def REGION1_SIZE : Nat := 2 ^ 53
def SEGMENT_MASK : Nat := U64 - SEGMENT_SIZE
def REGION3_MASK : Nat := U64 - REGION3_SIZE
def REGION2_MASK : Nat := U64 - REGION2_SIZE
def REGION1_MASK : Nat := U64 - REGION1_SIZE

def CRST_ENTRIES : Nat := 2048
def PAGE_ENTRIES : Nat := 256

/-- Index masks: 2048 entries at each crst level, 256 at the page level. -/
def SEGMENT_INDEX : Nat := 0x7ff <<< 20
def REGION3_INDEX : Nat := 0x7ff <<< 31
def REGION2_INDEX : Nat := 0x7ff <<< 42
def REGION1_INDEX : Nat := 0x7ff <<< 53
def PAGE_INDEX : Nat := 0xff <<< 12

def ASCE_TYPE_MASK : Nat := 0x0c
def ASCE_TYPE_SEGMENT : Nat := 0x00
def ASCE_TYPE_REGION3 : Nat := 0x04
def ASCE_TYPE_REGION2 : Nat := 0x08
def ASCE_TYPE_REGION1 : Nat := 0x0c
def ASCE_ORIGIN : Nat := U64 - PAGE_SIZE
def ASCE_TABLE_LENGTH : Nat := 0x03
def ASCE_USER_BITS : Nat := 0x1c0
def ASCE_REAL_SPACE : Nat := 0x20

def REGION_ENTRY_ORIGIN : Nat := U64 - PAGE_SIZE
def REGION_ENTRY_INVALID : Nat := 0x20
def REGION_ENTRY_PROTECT : Nat := 0x200
def REGION_ENTRY_TYPE_MASK : Nat := 0x0c
def REGION_ENTRY_TYPE_R1 : Nat := 0x0c
def REGION_ENTRY_TYPE_R2 : Nat := 0x08
def REGION_ENTRY_TYPE_R3 : Nat := 0x04
def REGION_ENTRY_LENGTH : Nat := 0x03
def REGION_ENTRY_OFFSET : Nat := 0xc0
def REGION1_ENTRY_EMPTY : Nat := REGION_ENTRY_TYPE_R1 ||| REGION_ENTRY_INVALID
def REGION2_ENTRY_EMPTY : Nat := REGION_ENTRY_TYPE_R2 ||| REGION_ENTRY_INVALID
def REGION3_ENTRY_EMPTY : Nat := REGION_ENTRY_TYPE_R3 ||| REGION_ENTRY_INVALID
def REGION3_ENTRY_LARGE : Nat := 0x400

def SEGMENT_ENTRY_ORIGIN : Nat := U64 - 0x800
def SEGMENT_ENTRY_INVALID : Nat := 0x20
def SEGMENT_ENTRY_EMPTY : Nat := SEGMENT_ENTRY_INVALID
def SEGMENT_ENTRY_PROTECT : Nat := 0x200
def SEGMENT_ENTRY_LARGE : Nat := 0x400
def SEGMENT_ENTRY : Nat := 0
def SEGMENT_ENTRY_HARDWARE_BITS : Nat := 0xfffffffffffffe30
def SEGMENT_ENTRY_HARDWARE_BITS_LARGE : Nat := 0xfffffffffff1fc30
def SEGMENT_ENTRY_GMAP_IN : Nat := 0x8000
def SEGMENT_ENTRY_GMAP_UC : Nat := 0x4000

def PAGE_INVALID : Nat := 0x400
def PAGE_PROTECT : Nat := 0x200

def GMAP_NOTIFY_SHADOW : Nat := 0x2
def GMAP_NOTIFY_MPROT : Nat := 0x1

def SHADOW_RMAP_MASK : Nat := 0x7
def SHADOW_RMAP_REGION1 : Nat := 0x5
def SHADOW_RMAP_REGION2 : Nat := 0x4
def SHADOW_RMAP_REGION3 : Nat := 0x3
def SHADOW_RMAP_SEGMENT : Nat := 0x2
def SHADOW_RMAP_PGTABLE : Nat := 0x1

def GMAP_SHADOW_FAKE_TABLE : Nat := 1

def PROT_NONE : Nat := 0
def PROT_READ : Nat := 1
def PROT_WRITE : Nat := 2

def EAGAIN : Int := 11
def ENOMEM : Int := 12
def EFAULT : Int := 14
def EEXIST : Int := 17
def EINVAL : Int := 22

/-- The unsigned-long encoding of -EFAULT returned by __gmap_translate. -/
def EFAULT_UL : Nat := U64 - 14

/-- C macro IS_ERR_VALUE on an unsigned long. -/
def IS_ERR_VALUE (x : Nat) : Prop := U64 - 4095 ≤ x

instance (x : Nat) : Decidable (IS_ERR_VALUE x) := by
  unfold IS_ERR_VALUE; infer_instance

def VALID_GADDR_FLAG : Nat := 1

/-- C macro IS_GADDR_VALID. -/
def IS_GADDR_VALID (gaddr : Nat) : Prop := gaddr &&& VALID_GADDR_FLAG ≠ 0

instance (gaddr : Nat) : Decidable (IS_GADDR_VALID gaddr) := by
  unfold IS_GADDR_VALID; infer_instance

/-- C macro MAKE_VALID_GADDR. -/
def MAKE_VALID_GADDR (gaddr : Nat) : Nat :=
  (t64 gaddr &&& HPAGE_MASK) ||| VALID_GADDR_FLAG

/-- One guest address space (struct gmap), with its table memory, radix trees
and an allocation ledger folded in.  `mem` maps byte addresses of table
entries to 64-bit entry words; `live` records which table pages are currently
allocated; `log` records the (start, end) ranges passed to
gmap_call_notifier, newest first. -/
structure GmapS where
  table : Nat
  asce : Nat
  asce_end : Nat
  is_shadow : Bool
  removed : Bool
  edat_level : Nat
  ref_count : Nat
  mem : Nat → Nat
  guest_to_host : Nat → Option Nat
  host_to_guest : Nat → Option Nat
  host_to_rmap : Nat → Option (List Nat)
  live : Nat → Bool
  log : List (Nat × Nat)

/-- Write one table entry. -/
def setMem (s : GmapS) (a v : Nat) : GmapS :=
  { s with mem := fun x => if x = a then t64 v else s.mem x }

/-- crst_table_init: fill a 2048-entry (16KB) region or segment table with an
empty-entry value. -/
def crstInit (s : GmapS) (t v : Nat) : GmapS :=
  { s with mem := fun x => if t ≤ x ∧ x < t + 8 * CRST_ENTRIES then t64 v else s.mem x }

/-- Mark a freshly allocated table page live (gmap_alloc_crst /
page_table_alloc_pgste succeeded). -/
def allocPage (s : GmapS) (p : Nat) : GmapS :=
  { s with live := fun x => if x = p then true else s.live x }

/-- Release a table page (__free_pages / page_table_free_pgste). -/
def freePage (s : GmapS) (p : Nat) : GmapS :=
  { s with live := fun x => if x = p then false else s.live x }

/-- Record a gmap_call_notifier dispatch for a guest address range. -/
def notifyRange (s : GmapS) (a b : Nat) : GmapS :=
  { s with log := (a, b) :: s.log }

/-! ### Table walker (gmap_table_walk) -/

/-- Segment-table step of gmap_table_walk: the _ASCE_TYPE_SEGMENT arm of the
switch, including the final descent to the page table when `level = 0`.
Returns the byte address of the entry. -/
def walkSeg (s : GmapS) (t gaddr level : Nat) : Option Nat :=
  let p := t + 8 * ((gaddr &&& SEGMENT_INDEX) >>> SEGMENT_SHIFT)
  if level = 1 then some p
  else if s.mem p &&& REGION_ENTRY_INVALID ≠ 0 then none
  else some ((s.mem p &&& SEGMENT_ENTRY_ORIGIN) + 8 * ((gaddr &&& PAGE_INDEX) >>> PAGE_SHIFT))

/-- Region-3 step of gmap_table_walk (falls through to the segment step). -/
def walkR3 (s : GmapS) (t gaddr level : Nat) : Option Nat :=
  let p := t + 8 * ((gaddr &&& REGION3_INDEX) >>> REGION3_SHIFT)
  if level = 2 then some p
  else if s.mem p &&& REGION_ENTRY_INVALID ≠ 0 then none
  else walkSeg s (s.mem p &&& REGION_ENTRY_ORIGIN) gaddr level

/-- Region-2 step of gmap_table_walk (falls through to the region-3 step). -/
def walkR2 (s : GmapS) (t gaddr level : Nat) : Option Nat :=
  let p := t + 8 * ((gaddr &&& REGION2_INDEX) >>> REGION2_SHIFT)
  if level = 3 then some p
  else if s.mem p &&& REGION_ENTRY_INVALID ≠ 0 then none
  else walkR3 s (s.mem p &&& REGION_ENTRY_ORIGIN) gaddr level

/-- Region-1 step of gmap_table_walk (falls through to the region-2 step). -/
def walkR1 (s : GmapS) (t gaddr level : Nat) : Option Nat :=
  let p := t + 8 * ((gaddr &&& REGION1_INDEX) >>> REGION1_SHIFT)
  if level = 4 then some p
  else if s.mem p &&& REGION_ENTRY_INVALID ≠ 0 then none
  else walkR2 s (s.mem p &&& REGION_ENTRY_ORIGIN) gaddr level

/-- gmap_table_walk: walk the gmap page tables to the entry for `gaddr` at
`level` (0 = page-table entry, 1 = segment entry, 2/3/4 = region 3/2/1
entry), or `none` if the tables cannot be walked to that level. -/
def gmap_table_walk (s : GmapS) (gaddr0 : Nat) (level : Nat) : Option Nat :=
  let gaddr := t64 gaddr0
  let asce_type := s.asce &&& ASCE_TYPE_MASK
  if s.is_shadow && s.removed then none
  else if level > (asce_type >>> 2) + 1 then none
  else if asce_type ≠ ASCE_TYPE_REGION1 ∧
      gaddr &&& (U64 - 2 ^ (31 + (asce_type >>> 2) * 11)) ≠ 0 then none
  else if asce_type = ASCE_TYPE_REGION1 then walkR1 s s.table gaddr level
  else if asce_type = ASCE_TYPE_REGION2 then walkR2 s s.table gaddr level
  else if asce_type = ASCE_TYPE_REGION3 then walkR3 s s.table gaddr level
  else walkSeg s s.table gaddr level

/-! ### Forward and reverse maps, linking and unlinking -/

/-- host_to_guest_lookup: a radix_tree_lookup on the reverse map; a NULL
result is represented as 0, exactly as in C. -/
def host_to_guest_lookup (s : GmapS) (vmaddr : Nat) : Nat :=
  (s.host_to_guest (t64 vmaddr >>> PMD_SHIFT)).getD 0

/-- host_to_guest_delete: radix_tree_delete on the reverse map, returning the
old stored value (0 if the key was absent). -/
def host_to_guest_delete (s : GmapS) (vmaddr : Nat) : Nat × GmapS :=
  ((s.host_to_guest (t64 vmaddr >>> PMD_SHIFT)).getD 0,
   { s with host_to_guest := fun k =>
      if k = t64 vmaddr >>> PMD_SHIFT then none else s.host_to_guest k })

/-- host_to_guest_pmd_delete: delete the reverse-map entry for `vmaddr` and,
when the recorded value carries the valid-address flag, walk to the recorded
segment entry; otherwise report not-found (NULL). -/
def host_to_guest_pmd_delete (s : GmapS) (vmaddr : Nat) : Option Nat × Nat × GmapS :=
  let r := host_to_guest_delete s vmaddr
  if IS_GADDR_VALID r.1 then (gmap_table_walk r.2 r.1 1, r.1, r.2)
  else (none, r.1, r.2)

/-- Offset computation at the top of ptep_notify: position of the pte within
its page table, scaled to a guest-address offset. -/
def pteNotifyOffset (ptr : Nat) : Nat :=
  ((ptr &&& (255 * 8)) * (PAGE_SIZE / 8))

/-- Per-gmap body of the ptep_notify loop: look up the reverse map and skip
the gmap (`none`) unless the value recovered with the pte offset added
carries the valid-address flag. -/
def ptep_notify_gaddr (s : GmapS) (vmaddr ptr : Nat) : Option Nat :=
  let gaddr := t64 (host_to_guest_lookup s vmaddr + pteNotifyOffset ptr)
  if IS_GADDR_VALID gaddr then some gaddr else none

/-- pmdp_notify_gmap: clear the IN notification bit on the segment entry and
dispatch the invalidation notifiers for the large page range. -/
def pmdp_notify_gmap (s : GmapS) (p gaddr : Nat) : GmapS :=
  notifyRange (setMem s p (s.mem p &&& cpl SEGMENT_ENTRY_GMAP_IN))
    gaddr (t64 (gaddr + HPAGE_SIZE - 1))

/-- gmap_pmdp_xchg: break-before-make exchange of a segment entry.  The
hardware invalidate (idte/csp) is external; the state effect is the notifier
dispatch and the final install of `new` with the IN bit cleared. -/
def gmap_pmdp_xchg (s : GmapS) (p new gaddr : Nat) : GmapS :=
  let gaddr := gaddr &&& HPAGE_MASK
  let s1 := pmdp_notify_gmap s p gaddr
  setMem s1 p (new &&& cpl SEGMENT_ENTRY_GMAP_IN)

/-- Source name: __gmap_unlink_by_vmaddr.  Delete the reverse-map entry for a
host address and clear the recorded guest segment entry; returns whether a
TLB flush is required (the entry held something other than empty). -/
def gmap_unlink_by_vmaddr (s : GmapS) (vmaddr : Nat) : Bool × GmapS :=
  match host_to_guest_pmd_delete s vmaddr with
  | (some p, _, s1) =>
      (decide (s1.mem p ≠ SEGMENT_ENTRY_EMPTY), setMem s1 p SEGMENT_ENTRY_EMPTY)
  | (none, _, s1) => (false, s1)

/-- Source name: __gmap_unmap_by_gaddr.  Delete the forward-map entry for a
guest address and unlink the corresponding host segment. -/
def gmap_unmap_by_gaddr (s : GmapS) (gaddr : Nat) : Bool × GmapS :=
  let key := t64 gaddr >>> PMD_SHIFT
  let vmaddr := (s.guest_to_host key).getD 0
  let s1 := { s with guest_to_host := fun k => if k = key then none else s.guest_to_host k }
  if vmaddr ≠ 0 then gmap_unlink_by_vmaddr s1 vmaddr else (false, s1)

/-- Segment offsets 0, PMD_SIZE, 2*PMD_SIZE, … visited by the map and unmap
loops (the guards have ensured len is a multiple of PMD_SIZE). -/
def segOffsets (len : Nat) : List Nat :=
  (List.range (len / PMD_SIZE)).map (fun i => i * PMD_SIZE)

/-- Loop of gmap_unmap_segment, accumulating the flush flag. -/
def unmapLoop (s : GmapS) (dst : Nat) : List Nat → Bool × GmapS
  | [] => (false, s)
  | off :: rest =>
    let r1 := gmap_unmap_by_gaddr s (dst + off)
    let r2 := unmapLoop r1.2 dst rest
    (r1.1 || r2.1, r2.2)

/-- gmap_unmap_segment: unmap a segment range from the guest address space. -/
def gmap_unmap_segment (s : GmapS) (to0 len0 : Nat) : Int × GmapS :=
  let dst := t64 to0
  let len := t64 len0
  if (dst ||| len) &&& (PMD_SIZE - 1) ≠ 0 then (-EINVAL, s)
  else if len = 0 ∨ t64 (dst + len) < dst then (-EINVAL, s)
  else (0, (unmapLoop s dst (segOffsets len)).2)

/-- Loop of gmap_map_segment; `insOk off` tells whether the radix-tree insert
for the segment at offset `off` finds memory (a failing radix_tree_insert
breaks out of the loop).  Returns whether the loop completed. -/
def mapLoop (frm dst : Nat) (insOk : Nat → Bool) : GmapS → List Nat → Bool × GmapS
  | s, [] => (true, s)
  | s, off :: rest =>
    let s1 := (gmap_unmap_by_gaddr s (dst + off)).2
    if insOk off then
      mapLoop frm dst insOk
        { s1 with guest_to_host := fun k =>
            if k = t64 (dst + off) >>> PMD_SHIFT then some (t64 (frm + off))
            else s1.guest_to_host k } rest
    else (false, s1)

/-- s390 TASK_SIZE_MAX (= -PAGE_SIZE). -/
def TASK_SIZE_MAX : Nat := U64 - PAGE_SIZE

/-- gmap_map_segment: map a host segment range into the guest address space,
replacing any old translations. -/
def gmap_map_segment (s : GmapS) (frm0 to0 len0 : Nat) (insOk : Nat → Bool) :
    Int × GmapS :=
  let frm := t64 frm0
  let dst := t64 to0
  let len := t64 len0
  if (frm ||| dst ||| len) &&& (PMD_SIZE - 1) ≠ 0 then (-EINVAL, s)
  else if len = 0 ∨ t64 (frm + len) < frm ∨ t64 (dst + len) < dst ∨
      t64 (frm + len) - 1 > TASK_SIZE_MAX ∨ t64 (dst + len) - 1 > s.asce_end then
    (-EINVAL, s)
  else
    let r := mapLoop frm dst insOk s (segOffsets len)
    if r.1 then (0, r.2)
    else (-ENOMEM, (gmap_unmap_segment r.2 dst len).2)

/-- Source name: __gmap_translate.  Look up the host address for a guest
address in the forward map; EFAULT_UL (the unsigned encoding of -EFAULT) if
no mapping exists. -/
def gmap_translate (s : GmapS) (gaddr : Nat) : Nat :=
  let vmaddr := (s.guest_to_host (t64 gaddr >>> PMD_SHIFT)).getD 0
  if vmaddr ≠ 0 then vmaddr ||| (t64 gaddr &&& cpl PMD_MASK) else EFAULT_UL

/-! ### Linking a host segment (__gmap_link) -/

/-- The slice of the host mm consulted by __gmap_link: the pud and pmd values
found by walking the host page table at a host address, and the configuration
bit allowing 1M host hugepages in the gmap. -/
structure HostMM where
  allow_gmap_hpage_1m : Bool
  pud : Nat → Nat
  pmd : Nat → Nat

/-- s390 pud_leaf: large bit of a region-3 (pud) entry. -/
def pud_leaf (v : Nat) : Bool := v &&& REGION3_ENTRY_LARGE != 0

/-- s390 pmd_leaf: large bit of a segment (pmd) entry. -/
def pmd_leaf (v : Nat) : Bool := v &&& SEGMENT_ENTRY_LARGE != 0

/-- gmap_alloc_table: install a freshly initialized lower-level table at an
invalid region entry (sequential rendering of the locked re-check: the entry
is re-tested and the new page freed if it became valid). -/
def gmap_alloc_table (s : GmapS) (p page init : Nat) : GmapS :=
  let s1 := crstInit (allocPage s page) page init
  if s1.mem p &&& REGION_ENTRY_INVALID ≠ 0 then
    setMem s1 p (page ||| REGION_ENTRY_LENGTH ||| (s1.mem p &&& REGION_ENTRY_TYPE_MASK))
  else freePage s1 page

/-- One region-level block of __gmap_link: descend through the entry at `p`,
allocating a lower-level table from `fresh` if the entry is invalid.
Returns the lower table origin (`none` for -ENOMEM), the new state and the
remaining fresh pages. -/
def linkLevel (s : GmapS) (p init : Nat) (fresh : List Nat) :
    Option Nat × GmapS × List Nat :=
  if s.mem p &&& REGION_ENTRY_INVALID ≠ 0 then
    match fresh with
    | [] => (none, s, [])
    | page :: rest =>
      let s1 := gmap_alloc_table s p page init
      (some (s1.mem p &&& REGION_ENTRY_ORIGIN), s1, rest)
  else (some (s.mem p &&& REGION_ENTRY_ORIGIN), s, fresh)

/-- Region-table-creation prefix of __gmap_link: the three "create higher
level tables in the gmap page table" blocks.  Returns the byte address of the
guest segment entry for `gaddr` (`none` for -ENOMEM) and the updated state;
`fresh` supplies pages for gmap_alloc_table. -/
def linkTables (s0 : GmapS) (gaddr : Nat) (fresh : List Nat) : Option Nat × GmapS :=
  let aty := s0.asce &&& ASCE_TYPE_MASK
  let r1 :=
    if ASCE_TYPE_REGION1 ≤ aty then
      linkLevel s0 (s0.table + 8 * ((gaddr &&& REGION1_INDEX) >>> REGION1_SHIFT))
        REGION2_ENTRY_EMPTY fresh
    else (some s0.table, s0, fresh)
  match r1.1 with
  | none => (none, r1.2.1)
  | some t1 =>
    let r2 :=
      if ASCE_TYPE_REGION2 ≤ aty then
        linkLevel r1.2.1 (t1 + 8 * ((gaddr &&& REGION2_INDEX) >>> REGION2_SHIFT))
          REGION3_ENTRY_EMPTY r1.2.2
      else (some t1, r1.2.1, r1.2.2)
    match r2.1 with
    | none => (none, r2.2.1)
    | some t2 =>
      let r3 :=
        if ASCE_TYPE_REGION3 ≤ aty then
          linkLevel r2.2.1 (t2 + 8 * ((gaddr &&& REGION3_INDEX) >>> REGION3_SHIFT))
            SEGMENT_ENTRY_EMPTY r2.2.2
        else (some t2, r2.2.1, r2.2.2)
      match r3.1 with
      | none => (none, r3.2.1)
      | some t3 =>
        (some (t3 + 8 * ((gaddr &&& SEGMENT_INDEX) >>> SEGMENT_SHIFT)), r3.2.1)

/-- Source name: __gmap_link.  Create the intermediate guest tables down to
the segment level (linkTables), walk the host page table at `vmaddr` (given
by the `host` oracle), and link the guest segment entry to the host one;
`preloadOk` is the radix_tree_preload outcome. -/
def gmap_link (s0 : GmapS) (host : HostMM) (gaddr0 vmaddr0 : Nat)
    (fresh : List Nat) (preloadOk : Bool) : Int × GmapS :=
  let gaddr := t64 gaddr0
  let vmaddr := t64 vmaddr0
  let r := linkTables s0 gaddr fresh
  match r.1 with
  | none => (-ENOMEM, r.2)
  | some p =>
    let s3 := r.2
    if pud_leaf (host.pud vmaddr) then (-EFAULT, s3)
    else if pmd_leaf (host.pmd vmaddr) && !host.allow_gmap_hpage_1m then
      (-EFAULT, s3)
    else if !preloadOk then (-ENOMEM, s3)
    else
      let pmdv := host.pmd vmaddr
      let e := s3.mem p
      if e = SEGMENT_ENTRY_EMPTY then
        if (s3.host_to_guest (vmaddr >>> PMD_SHIFT)).isSome then (-EEXIST, s3)
        else
          let s4 := { s3 with host_to_guest := fun k =>
              if k = vmaddr >>> PMD_SHIFT then some (MAKE_VALID_GADDR gaddr)
              else s3.host_to_guest k }
          let v := if pmd_leaf pmdv then
              (pmdv &&& SEGMENT_ENTRY_HARDWARE_BITS_LARGE) |||
                SEGMENT_ENTRY_GMAP_UC ||| SEGMENT_ENTRY
            else pmdv &&& SEGMENT_ENTRY_HARDWARE_BITS
          (0, setMem s4 p v)
      else if e &&& SEGMENT_ENTRY_PROTECT ≠ 0 ∧ pmdv &&& SEGMENT_ENTRY_PROTECT = 0 then
        let unprot := (e &&& cpl SEGMENT_ENTRY_PROTECT) ||| SEGMENT_ENTRY_GMAP_UC
        (0, gmap_pmdp_xchg s3 p unprot gaddr)
      else (0, s3)

/-! ### Address space creation (gmap_alloc) -/

/-- gmap_alloc: allocate and initialize a guest address space for a requested
limit; `page` is the root table page provided by gmap_alloc_crst. -/
def gmap_alloc (limit0 page : Nat) : GmapS :=
  let limit := t64 limit0
  let lae :=
    if limit < REGION3_SIZE then (REGION3_SIZE - 1, ASCE_TYPE_SEGMENT, SEGMENT_ENTRY_EMPTY)
    else if limit < REGION2_SIZE then (REGION2_SIZE - 1, ASCE_TYPE_REGION3, REGION3_ENTRY_EMPTY)
    else if limit < REGION1_SIZE then (REGION1_SIZE - 1, ASCE_TYPE_REGION2, REGION2_ENTRY_EMPTY)
    else (U64 - 1, ASCE_TYPE_REGION1, REGION1_ENTRY_EMPTY)
  { table := page
    asce := lae.2.1 ||| ASCE_TABLE_LENGTH ||| ASCE_USER_BITS ||| page
    asce_end := lae.1
    is_shadow := false
    removed := false
    edat_level := 0
    ref_count := 1
    mem := fun x => if page ≤ x ∧ x < page + 8 * CRST_ENTRIES then lae.2.2 else 0
    guest_to_host := fun _ => none
    host_to_guest := fun _ => none
    host_to_rmap := fun _ => none
    live := fun x => decide (x = page)
    log := [] }

/-! ### Notifier bus -/

/-- A registered pte-invalidation callback, identified by a tag. -/
structure GmapNotifier where
  id : Nat
deriving DecidableEq

/-- gmap_register_pte_notifier: list_add_rcu inserts at the head of the
process-wide notifier list. -/
def gmap_register_pte_notifier (nb : GmapNotifier) (l : List GmapNotifier) :
    List GmapNotifier :=
  nb :: l

/-- gmap_unregister_pte_notifier: list_del_rcu removes the block. -/
def gmap_unregister_pte_notifier (nb : GmapNotifier) (l : List GmapNotifier) :
    List GmapNotifier :=
  l.erase nb

/-- gmap_call_notifier: the (callback id, start, end) invocations performed,
in invocation order (list_for_each_entry from the list head). -/
def gmap_call_notifier (l : List GmapNotifier) (a b : Nat) : List (Nat × Nat × Nat) :=
  l.map (fun nb => (nb.id, a, b))

/-- Register a sequence of notifier blocks in the given order. -/
def registerAll (regs : List GmapNotifier) : List GmapNotifier :=
  regs.foldl (fun l nb => gmap_register_pte_notifier nb l) []

/-! ### Frame lemmas for the state helpers -/

@[simp] lemma setMem_host_to_guest (s : GmapS) (a v : Nat) :
    (setMem s a v).host_to_guest = s.host_to_guest := rfl

@[simp] lemma setMem_guest_to_host (s : GmapS) (a v : Nat) :
    (setMem s a v).guest_to_host = s.guest_to_host := rfl

@[simp] lemma setMem_host_to_rmap (s : GmapS) (a v : Nat) :
    (setMem s a v).host_to_rmap = s.host_to_rmap := rfl

@[simp] lemma setMem_asce (s : GmapS) (a v : Nat) : (setMem s a v).asce = s.asce := rfl

@[simp] lemma setMem_table (s : GmapS) (a v : Nat) : (setMem s a v).table = s.table := rfl

@[simp] lemma setMem_is_shadow (s : GmapS) (a v : Nat) :
    (setMem s a v).is_shadow = s.is_shadow := rfl

@[simp] lemma setMem_removed (s : GmapS) (a v : Nat) :
    (setMem s a v).removed = s.removed := rfl

@[simp] lemma setMem_live (s : GmapS) (a v : Nat) : (setMem s a v).live = s.live := rfl

@[simp] lemma setMem_mem_self (s : GmapS) (a v : Nat) :
    (setMem s a v).mem a = t64 v := by simp [setMem]

lemma setMem_mem_other (s : GmapS) (a v x : Nat) (h : x ≠ a) :
    (setMem s a v).mem x = s.mem x := by simp [setMem, h]

@[simp] lemma crstInit_host_to_guest (s : GmapS) (t v : Nat) :
    (crstInit s t v).host_to_guest = s.host_to_guest := rfl

@[simp] lemma crstInit_guest_to_host (s : GmapS) (t v : Nat) :
    (crstInit s t v).guest_to_host = s.guest_to_host := rfl

@[simp] lemma crstInit_host_to_rmap (s : GmapS) (t v : Nat) :
    (crstInit s t v).host_to_rmap = s.host_to_rmap := rfl

@[simp] lemma crstInit_asce (s : GmapS) (t v : Nat) : (crstInit s t v).asce = s.asce := rfl

@[simp] lemma crstInit_table (s : GmapS) (t v : Nat) : (crstInit s t v).table = s.table := rfl

@[simp] lemma crstInit_is_shadow (s : GmapS) (t v : Nat) :
    (crstInit s t v).is_shadow = s.is_shadow := rfl

@[simp] lemma crstInit_removed (s : GmapS) (t v : Nat) :
    (crstInit s t v).removed = s.removed := rfl

@[simp] lemma crstInit_live (s : GmapS) (t v : Nat) : (crstInit s t v).live = s.live := rfl

lemma crstInit_mem_out (s : GmapS) (t v x : Nat) (h : ¬ (t ≤ x ∧ x < t + 8 * CRST_ENTRIES)) :
    (crstInit s t v).mem x = s.mem x := by simp [crstInit, h]

@[simp] lemma allocPage_mem (s : GmapS) (p : Nat) : (allocPage s p).mem = s.mem := rfl

@[simp] lemma allocPage_host_to_guest (s : GmapS) (p : Nat) :
    (allocPage s p).host_to_guest = s.host_to_guest := rfl

@[simp] lemma allocPage_guest_to_host (s : GmapS) (p : Nat) :
    (allocPage s p).guest_to_host = s.guest_to_host := rfl

@[simp] lemma allocPage_host_to_rmap (s : GmapS) (p : Nat) :
    (allocPage s p).host_to_rmap = s.host_to_rmap := rfl

@[simp] lemma freePage_mem (s : GmapS) (p : Nat) : (freePage s p).mem = s.mem := rfl

@[simp] lemma freePage_host_to_guest (s : GmapS) (p : Nat) :
    (freePage s p).host_to_guest = s.host_to_guest := rfl

@[simp] lemma freePage_guest_to_host (s : GmapS) (p : Nat) :
    (freePage s p).guest_to_host = s.guest_to_host := rfl

@[simp] lemma freePage_host_to_rmap (s : GmapS) (p : Nat) :
    (freePage s p).host_to_rmap = s.host_to_rmap := rfl

@[simp] lemma notifyRange_mem (s : GmapS) (a b : Nat) : (notifyRange s a b).mem = s.mem := rfl

@[simp] lemma notifyRange_host_to_guest (s : GmapS) (a b : Nat) :
    (notifyRange s a b).host_to_guest = s.host_to_guest := rfl

@[simp] lemma notifyRange_guest_to_host (s : GmapS) (a b : Nat) :
    (notifyRange s a b).guest_to_host = s.guest_to_host := rfl

@[simp] lemma notifyRange_host_to_rmap (s : GmapS) (a b : Nat) :
    (notifyRange s a b).host_to_rmap = s.host_to_rmap := rfl

lemma gmap_pmdp_xchg_host_to_guest (s : GmapS) (p new gaddr : Nat) :
    (gmap_pmdp_xchg s p new gaddr).host_to_guest = s.host_to_guest := by
  simp [gmap_pmdp_xchg, pmdp_notify_gmap]

lemma gmap_pmdp_xchg_guest_to_host (s : GmapS) (p new gaddr : Nat) :
    (gmap_pmdp_xchg s p new gaddr).guest_to_host = s.guest_to_host := by
  simp [gmap_pmdp_xchg, pmdp_notify_gmap]

/-- Control fields and lookup trees of the gmap left untouched by the
table-creation helpers (they only write table memory and the allocation
ledger). -/
def SameCtl (s s' : GmapS) : Prop :=
  s'.table = s.table ∧ s'.asce = s.asce ∧ s'.asce_end = s.asce_end ∧
  s'.is_shadow = s.is_shadow ∧ s'.removed = s.removed ∧
  s'.guest_to_host = s.guest_to_host ∧ s'.host_to_guest = s.host_to_guest ∧
  s'.host_to_rmap = s.host_to_rmap

lemma sameCtl_refl (s : GmapS) : SameCtl s s :=
  ⟨rfl, rfl, rfl, rfl, rfl, rfl, rfl, rfl⟩

lemma sameCtl_trans {s1 s2 s3 : GmapS} (h1 : SameCtl s1 s2) (h2 : SameCtl s2 s3) :
    SameCtl s1 s3 := by
  obtain ⟨a1, b1, c1, d1, e1, f1, g1, i1⟩ := h1
  obtain ⟨a2, b2, c2, d2, e2, f2, g2, i2⟩ := h2
  exact ⟨a2.trans a1, b2.trans b1, c2.trans c1, d2.trans d1, e2.trans e1,
    f2.trans f1, g2.trans g1, i2.trans i1⟩

lemma gmap_alloc_table_sameCtl (s : GmapS) (p page init : Nat) :
    SameCtl s (gmap_alloc_table s p page init) := by
  unfold gmap_alloc_table
  dsimp only
  split
  · exact ⟨rfl, rfl, rfl, rfl, rfl, rfl, rfl, rfl⟩
  · exact ⟨rfl, rfl, rfl, rfl, rfl, rfl, rfl, rfl⟩

lemma linkLevel_sameCtl (s : GmapS) (p init : Nat) (fresh : List Nat) :
    SameCtl s (linkLevel s p init fresh).2.1 := by
  unfold linkLevel
  split
  · cases fresh with
    | nil => exact sameCtl_refl s
    | cons a l =>
      dsimp only
      exact gmap_alloc_table_sameCtl s p a init
  · exact sameCtl_refl s

lemma linkTables_sameCtl (s : GmapS) (gaddr : Nat) (fresh : List Nat) :
    SameCtl s (linkTables s gaddr fresh).2 := by
  unfold linkTables
  dsimp only
  have h1 : SameCtl s (if ASCE_TYPE_REGION1 ≤ s.asce &&& ASCE_TYPE_MASK then
      linkLevel s (s.table + 8 * ((gaddr &&& REGION1_INDEX) >>> REGION1_SHIFT))
        REGION2_ENTRY_EMPTY fresh
    else (some s.table, s, fresh)).2.1 := by
    split
    · exact linkLevel_sameCtl _ _ _ _
    · exact sameCtl_refl s
  generalize hr1 : (if ASCE_TYPE_REGION1 ≤ s.asce &&& ASCE_TYPE_MASK then
      linkLevel s (s.table + 8 * ((gaddr &&& REGION1_INDEX) >>> REGION1_SHIFT))
        REGION2_ENTRY_EMPTY fresh
    else (some s.table, s, fresh)) = r1 at h1 ⊢
  cases hr : r1.1 with
  | none => simpa [hr] using h1
  | some t1 =>
    simp only [hr]
    have h2 : SameCtl s (if ASCE_TYPE_REGION2 ≤ s.asce &&& ASCE_TYPE_MASK then
        linkLevel r1.2.1 (t1 + 8 * ((gaddr &&& REGION2_INDEX) >>> REGION2_SHIFT))
          REGION3_ENTRY_EMPTY r1.2.2
      else (some t1, r1.2.1, r1.2.2)).2.1 := by
      split
      · exact sameCtl_trans h1 (linkLevel_sameCtl _ _ _ _)
      · exact h1
    generalize hr2 : (if ASCE_TYPE_REGION2 ≤ s.asce &&& ASCE_TYPE_MASK then
        linkLevel r1.2.1 (t1 + 8 * ((gaddr &&& REGION2_INDEX) >>> REGION2_SHIFT))
          REGION3_ENTRY_EMPTY r1.2.2
      else (some t1, r1.2.1, r1.2.2)) = r2 at h2 ⊢
    cases hr2v : r2.1 with
    | none => simpa [hr2v] using h2
    | some t2 =>
      simp only [hr2v]
      have h3 : SameCtl s (if ASCE_TYPE_REGION3 ≤ s.asce &&& ASCE_TYPE_MASK then
          linkLevel r2.2.1 (t2 + 8 * ((gaddr &&& REGION3_INDEX) >>> REGION3_SHIFT))
            SEGMENT_ENTRY_EMPTY r2.2.2
        else (some t2, r2.2.1, r2.2.2)).2.1 := by
        split
        · exact sameCtl_trans h2 (linkLevel_sameCtl _ _ _ _)
        · exact h2
      generalize hr3 : (if ASCE_TYPE_REGION3 ≤ s.asce &&& ASCE_TYPE_MASK then
          linkLevel r2.2.1 (t2 + 8 * ((gaddr &&& REGION3_INDEX) >>> REGION3_SHIFT))
            SEGMENT_ENTRY_EMPTY r2.2.2
        else (some t2, r2.2.1, r2.2.2)) = r3 at h3 ⊢
      cases hr3v : r3.1 with
      | none => simpa [hr3v] using h3
      | some t3 => simpa [hr3v] using h3

/-! ### C8: the four hierarchy depths of gmap_alloc -/

/-- C8: for every requested limit, gmap_alloc chooses among exactly four
hierarchy depths and rounds the maximum address up to the chosen depth's
coverage: a segment root covering _REGION3_SIZE - 1 when limit < _REGION3_SIZE,
a region-3 root covering _REGION2_SIZE - 1 when limit < _REGION2_SIZE, a
region-2 root covering _REGION1_SIZE - 1 when limit < _REGION1_SIZE, and a
region-1 root covering 2^64 - 1 otherwise; the root table is filled with the
matching empty-entry value and the reference count is one. -/
theorem gmap_alloc_four_depths (limit page : Nat) (h : limit < U64) :
    (gmap_alloc limit page).ref_count = 1 ∧
    (∀ i, i < CRST_ENTRIES → (gmap_alloc limit page).mem (page + 8 * i) =
      (if limit < REGION3_SIZE then SEGMENT_ENTRY_EMPTY
       else if limit < REGION2_SIZE then REGION3_ENTRY_EMPTY
       else if limit < REGION1_SIZE then REGION2_ENTRY_EMPTY
       else REGION1_ENTRY_EMPTY)) ∧
    (gmap_alloc limit page).asce_end =
      (if limit < REGION3_SIZE then REGION3_SIZE - 1
       else if limit < REGION2_SIZE then REGION2_SIZE - 1
       else if limit < REGION1_SIZE then REGION1_SIZE - 1
       else U64 - 1) ∧
    (gmap_alloc limit page).asce =
      (if limit < REGION3_SIZE then ASCE_TYPE_SEGMENT
       else if limit < REGION2_SIZE then ASCE_TYPE_REGION3
       else if limit < REGION1_SIZE then ASCE_TYPE_REGION2
       else ASCE_TYPE_REGION1) ||| ASCE_TABLE_LENGTH ||| ASCE_USER_BITS ||| page := by
  have ht : t64 limit = limit := by
    unfold t64 U64 at *
    omega
  unfold gmap_alloc
  rw [ht]
  dsimp only
  refine ⟨rfl, ?_, by split_ifs <;> rfl, by split_ifs <;> rfl⟩
  intro i hi
  have hin : page ≤ page + 8 * i ∧ page + 8 * i < page + 8 * CRST_ENTRIES := by
    unfold CRST_ENTRIES at *
    omega
  split_ifs <;> simp [hin]

/-- Witness for gmap_alloc_four_depths at limit 2^42 (spec scenario A's
limit): a region-2 rooted space covering 2^53 - 1, reference count one. -/
theorem gmap_alloc_four_depths_witness :
    (gmap_alloc (2 ^ 42) 16384).ref_count = 1 ∧
    (gmap_alloc (2 ^ 42) 16384).asce_end = REGION1_SIZE - 1 := by
  have h := gmap_alloc_four_depths (2 ^ 42) 16384 (by norm_num [U64])
  refine ⟨h.1, ?_⟩
  rw [h.2.2.1]
  norm_num [REGION3_SIZE, REGION2_SIZE, REGION1_SIZE]

/-! ### C9: notifier dispatch order -/

/-- C9 counterexample: callback 1 is registered before callback 2 and neither
is unregistered, yet a notification dispatch invokes callback 2 first — the
registration-order claim fails at this input. -/
theorem gmap_call_notifier_order_counterexample :
    gmap_call_notifier (registerAll [⟨1⟩, ⟨2⟩]) 0 0 = [(2, 0, 0), (1, 0, 0)] ∧
    ¬ List.indexOf (1, 0, 0) (gmap_call_notifier (registerAll [⟨1⟩, ⟨2⟩]) 0 0) <
        List.indexOf (2, 0, 0) (gmap_call_notifier (registerAll [⟨1⟩, ⟨2⟩]) 0 0) := by
  constructor
  · rfl
  · decide

/-- C9 (amended): gmap_call_notifier invokes every registered callback
synchronously in reverse registration order — list_add_rcu prepends to the
list head and dispatch traverses from the head, so the most recently
registered callback runs first. -/
theorem gmap_call_notifier_reverse_order (regs : List GmapNotifier) (a b : Nat) :
    gmap_call_notifier (registerAll regs) a b =
      (regs.reverse).map (fun nb => (nb.id, a, b)) := by
  have haux : ∀ (l acc : List GmapNotifier),
      l.foldl (fun l2 nb => gmap_register_pte_notifier nb l2) acc = l.reverse ++ acc := by
    intro l
    induction l with
    | nil => simp
    | cons x xs ih => intro acc; simp [gmap_register_pte_notifier, ih]
  unfold registerAll gmap_call_notifier
  rw [haux]
  simp

/-! ### C10: the valid-address flag of the reverse map -/

/-- Parity of a 64-bit truncation. -/
lemma t64_mod_two (x : Nat) : t64 x % 2 = x % 2 := by
  unfold t64 U64
  omega

/-- A value produced by MAKE_VALID_GADDR is odd. -/
lemma make_valid_gaddr_odd (g : Nat) : MAKE_VALID_GADDR g % 2 = 1 := by
  unfold MAKE_VALID_GADDR VALID_GADDR_FLAG
  rw [← Nat.and_one_is_mod]
  simp [Nat.and_distrib_right]

/-- C10: every entry stored in the host-to-guest reverse map carries the low
valid-address flag bit: MAKE_VALID_GADDR sets the flag on the segment-aligned
guest address, masking the flag back off recovers the segment-aligned
address, __gmap_link only ever stores flagged values, and
host_to_guest_pmd_delete and the ptep_notify lookup treat a value without the
flag (in particular an absent entry, read back as 0) as not-found. -/
theorem valid_gaddr_flag_invariant :
    (∀ g, IS_GADDR_VALID (MAKE_VALID_GADDR g)) ∧
    (∀ g, MAKE_VALID_GADDR g &&& HPAGE_MASK = t64 g &&& HPAGE_MASK) ∧
    (∀ s host gaddr vmaddr fresh pok k,
      (gmap_link s host gaddr vmaddr fresh pok).2.host_to_guest k = s.host_to_guest k ∨
      (k = t64 vmaddr >>> PMD_SHIFT ∧
        (gmap_link s host gaddr vmaddr fresh pok).2.host_to_guest k =
          some (MAKE_VALID_GADDR (t64 gaddr)))) ∧
    (∀ s vmaddr, ¬ IS_GADDR_VALID ((s.host_to_guest (t64 vmaddr >>> PMD_SHIFT)).getD 0) →
      (host_to_guest_pmd_delete s vmaddr).1 = none) ∧
    (∀ s vmaddr ptr, s.host_to_guest (t64 vmaddr >>> PMD_SHIFT) = none →
      ptep_notify_gaddr s vmaddr ptr = none) ∧
    (∀ s vmaddr ptr v, s.host_to_guest (t64 vmaddr >>> PMD_SHIFT) = some (MAKE_VALID_GADDR v) →
      ptep_notify_gaddr s vmaddr ptr = some (t64 (MAKE_VALID_GADDR v + pteNotifyOffset ptr))) := by
  have hodd : ∀ g, IS_GADDR_VALID (MAKE_VALID_GADDR g) := by
    intro g
    unfold IS_GADDR_VALID VALID_GADDR_FLAG
    rw [Nat.and_one_is_mod, make_valid_gaddr_odd]
    omega
  have hoff : ∀ ptr, pteNotifyOffset ptr % 2 = 0 := by
    intro ptr
    unfold pteNotifyOffset PAGE_SIZE
    omega
  refine ⟨hodd, ?_, ?_, ?_, ?_, ?_⟩
  · intro g
    unfold MAKE_VALID_GADDR VALID_GADDR_FLAG
    rw [Nat.and_distrib_right]
    have h1 : 1 &&& HPAGE_MASK = 0 := by
      rw [Nat.land_comm, Nat.and_one_is_mod]
      unfold HPAGE_MASK U64 HPAGE_SIZE
      norm_num
    rw [h1, Nat.and_assoc, Nat.and_self]
    simp
  · intro s host gaddr vmaddr fresh pok k
    have hctl : (linkTables s (t64 gaddr) fresh).2.host_to_guest = s.host_to_guest :=
      (linkTables_sameCtl s (t64 gaddr) fresh).2.2.2.2.2.2.1
    unfold gmap_link
    dsimp only
    cases hres : (linkTables s (t64 gaddr) fresh).1 with
    | none =>
      left
      rw [hctl]
    | some p =>
      by_cases hc1 : pud_leaf (host.pud (t64 vmaddr)) = true
      · left
        simp only [hc1, if_true]
        rw [hctl]
      · simp only [hc1, if_false, Bool.false_eq_true]
        by_cases hc2 : (pmd_leaf (host.pmd (t64 vmaddr)) && !host.allow_gmap_hpage_1m) = true
        · left
          simp only [hc2, if_true]
          rw [hctl]
        · simp only [hc2, if_false, Bool.false_eq_true]
          by_cases hc3 : (!pok) = true
          · left
            simp only [hc3, if_true]
            rw [hctl]
          · simp only [hc3, if_false, Bool.false_eq_true]
            by_cases hc4 : (linkTables s (t64 gaddr) fresh).2.mem p = SEGMENT_ENTRY_EMPTY
            · simp only [hc4, if_true]
              by_cases hc5 :
                  ((linkTables s (t64 gaddr) fresh).2.host_to_guest
                    (t64 vmaddr >>> PMD_SHIFT)).isSome = true
              · left
                simp only [hc5, if_true]
                rw [hctl]
              · simp only [hc5, if_false, Bool.false_eq_true]
                by_cases hk : k = t64 vmaddr >>> PMD_SHIFT
                · right
                  refine ⟨hk, ?_⟩
                  simp [hk]
                · left
                  simp only [setMem_host_to_guest]
                  simp only [← hctl]
                  simp [hk]
            · simp only [hc4, if_false]
              by_cases hc6 : (linkTables s (t64 gaddr) fresh).2.mem p &&&
                  SEGMENT_ENTRY_PROTECT ≠ 0 ∧ host.pmd (t64 vmaddr) &&& SEGMENT_ENTRY_PROTECT = 0
              · left
                rw [if_pos hc6]
                dsimp only
                rw [gmap_pmdp_xchg_host_to_guest, hctl]
              · left
                rw [if_neg hc6]
                dsimp only
                rw [hctl]
  · intro s vmaddr hval
    unfold host_to_guest_pmd_delete host_to_guest_delete
    simp [hval]
  · intro s vmaddr ptr habs
    unfold ptep_notify_gaddr host_to_guest_lookup
    rw [habs]
    simp only [Option.getD_none]
    have hnv : ¬ IS_GADDR_VALID (t64 (pteNotifyOffset ptr)) := by
      unfold IS_GADDR_VALID VALID_GADDR_FLAG
      rw [Nat.and_one_is_mod, t64_mod_two]
      simp [hoff ptr]
    simp [hnv]
  · intro s vmaddr ptr v hsome
    unfold ptep_notify_gaddr host_to_guest_lookup
    rw [hsome]
    simp only [Option.getD_some]
    have : IS_GADDR_VALID (t64 (MAKE_VALID_GADDR v + pteNotifyOffset ptr)) := by
      unfold IS_GADDR_VALID VALID_GADDR_FLAG
      rw [Nat.and_one_is_mod, t64_mod_two]
      rw [Nat.add_mod, make_valid_gaddr_odd, hoff ptr]
      omega
    simp [this]

/-- Minimal empty state used by concrete witnesses. -/
def s0 : GmapS :=
  { table := 0, asce := 0, asce_end := 0, is_shadow := false, removed := false,
    edat_level := 0, ref_count := 1, mem := fun _ => 0,
    guest_to_host := fun _ => none, host_to_guest := fun _ => none,
    host_to_rmap := fun _ => none, live := fun _ => false, log := [] }

/-- Witness for valid_gaddr_flag_invariant: deleting an absent reverse-map
entry reports not-found, and MAKE_VALID_GADDR 0 carries the flag. -/
theorem valid_gaddr_flag_invariant_witness :
    (host_to_guest_pmd_delete s0 (2 ^ 20)).1 = none ∧
    IS_GADDR_VALID (MAKE_VALID_GADDR 0) := by
  constructor
  · exact valid_gaddr_flag_invariant.2.2.2.1 s0 (2 ^ 20) (by decide)
  · exact valid_gaddr_flag_invariant.1 0

/-! ### C1: link / translate / unlink round trip -/

/-- Disjoint or is addition: an n-aligned value or-ed with a value below 2^n. -/
lemma lor_eq_add_of_aligned {n a b : Nat} (ha : a % 2 ^ n = 0) (hb : b < 2 ^ n) :
    a ||| b = a + b := by
  have hlow : (a ||| b) % 2 ^ n = b := by
    rw [← Nat.and_pow_two_sub_one_eq_mod, Nat.and_distrib_right,
      Nat.and_pow_two_sub_one_eq_mod, Nat.and_pow_two_sub_one_eq_mod, ha,
      Nat.mod_eq_of_lt hb]
    simp
  have hhigh : (a ||| b) / 2 ^ n = a / 2 ^ n := by
    rw [← Nat.shiftRight_eq_div_pow, ← Nat.shiftRight_eq_div_pow]
    apply Nat.eq_of_testBit_eq
    intro i
    rw [Nat.testBit_shiftRight, Nat.testBit_shiftRight, Nat.testBit_lor]
    have hbb : b.testBit (n + i) = false :=
      Nat.testBit_lt_two_pow (lt_of_lt_of_le hb (Nat.pow_le_pow_right (by norm_num) (by omega)))
    simp [hbb]
  have h1 := Nat.div_add_mod (a ||| b) (2 ^ n)
  have h2 := Nat.div_add_mod a (2 ^ n)
  rw [hlow, hhigh] at h1
  omega

/-- The complement of PMD_MASK is the sub-segment offset mask. -/
lemma cpl_PMD_MASK : cpl PMD_MASK = PMD_SIZE - 1 := by decide

/-- Truncation is the identity below 2^64. -/
lemma t64_eq_of_lt {x : Nat} (h : x < U64) : t64 x = x := Nat.mod_eq_of_lt h

/-- gmap_unlink_by_vmaddr does not touch the forward map. -/
lemma gmap_unlink_by_vmaddr_g2h (s : GmapS) (vmaddr : Nat) :
    (gmap_unlink_by_vmaddr s vmaddr).2.guest_to_host = s.guest_to_host := by
  unfold gmap_unlink_by_vmaddr host_to_guest_pmd_delete host_to_guest_delete
  dsimp only
  by_cases hv : IS_GADDR_VALID ((s.host_to_guest (t64 vmaddr >>> PMD_SHIFT)).getD 0)
  · simp only [hv, if_true]
    cases hw : gmap_table_walk
        { s with host_to_guest := fun k =>
            if k = t64 vmaddr >>> PMD_SHIFT then none else s.host_to_guest k }
        ((s.host_to_guest (t64 vmaddr >>> PMD_SHIFT)).getD 0) 1 with
    | none => simp [hw]
    | some p => simp [hw]
  · simp only [hv, if_false]

/-- gmap_unmap_by_gaddr clears the forward map at its own key. -/
lemma gmap_unmap_by_gaddr_g2h_self (s : GmapS) (gaddr : Nat) :
    (gmap_unmap_by_gaddr s gaddr).2.guest_to_host (t64 gaddr >>> PMD_SHIFT) = none := by
  unfold gmap_unmap_by_gaddr
  dsimp only
  split
  · rw [gmap_unlink_by_vmaddr_g2h]
    simp
  · simp

/-- gmap_unmap_by_gaddr leaves other forward-map keys alone. -/
lemma gmap_unmap_by_gaddr_g2h_other (s : GmapS) (gaddr k : Nat)
    (h : k ≠ t64 gaddr >>> PMD_SHIFT) :
    (gmap_unmap_by_gaddr s gaddr).2.guest_to_host k = s.guest_to_host k := by
  unfold gmap_unmap_by_gaddr
  dsimp only
  split
  · rw [gmap_unlink_by_vmaddr_g2h]
    simp [h]
  · simp [h]

/-- The map loop completes when every radix-tree insert finds memory. -/
lemma mapLoop_completes (frm dst : Nat) (insOk : Nat → Bool) :
    ∀ (offs : List Nat) (s : GmapS), (∀ off ∈ offs, insOk off = true) →
      (mapLoop frm dst insOk s offs).1 = true := by
  intro offs
  induction offs with
  | nil => intro s _; rfl
  | cons o rest ih =>
    intro s h
    unfold mapLoop
    dsimp only
    rw [h o (by simp)]
    simp only [if_true]
    exact ih _ (fun off hoff => h off (by simp [hoff]))

/-- The map loop leaves forward-map keys outside its range alone. -/
lemma mapLoop_g2h_other (frm dst : Nat) (insOk : Nat → Bool) :
    ∀ (offs : List Nat) (s : GmapS) (k : Nat),
      (∀ off ∈ offs, k ≠ t64 (dst + off) >>> PMD_SHIFT) →
      (mapLoop frm dst insOk s offs).2.guest_to_host k = s.guest_to_host k := by
  intro offs
  induction offs with
  | nil => intro s k _; rfl
  | cons o rest ih =>
    intro s k h
    unfold mapLoop
    dsimp only
    split
    · rw [ih _ _ (fun off hoff => h off (by simp [hoff]))]
      have hk := h o (by simp)
      simp only [hk, if_false]
      exact gmap_unmap_by_gaddr_g2h_other s (dst + o) k hk
    · exact gmap_unmap_by_gaddr_g2h_other s (dst + o) k (h o (by simp))

/-- After a completed map loop, every visited key holds its new translation. -/
lemma mapLoop_g2h_mem (frm dst : Nat) (insOk : Nat → Bool) :
    ∀ (offs : List Nat) (s : GmapS) (off : Nat),
      off ∈ offs →
      (mapLoop frm dst insOk s offs).1 = true →
      (∀ o1 ∈ offs, ∀ o2 ∈ offs,
        t64 (dst + o1) >>> PMD_SHIFT = t64 (dst + o2) >>> PMD_SHIFT → o1 = o2) →
      (mapLoop frm dst insOk s offs).2.guest_to_host (t64 (dst + off) >>> PMD_SHIFT) =
        some (t64 (frm + off)) := by
  intro offs
  induction offs with
  | nil => intro s off h; cases h
  | cons o rest ih =>
    intro s off hmem hdone hinj
    unfold mapLoop at hdone ⊢
    dsimp only at hdone ⊢
    by_cases hio : insOk o = true
    · simp only [hio, if_true] at hdone ⊢
      rcases List.mem_cons.mp hmem with hoe | hmem'
      · subst hoe
        by_cases hor : off ∈ rest
        · exact ih _ off hor hdone
            (fun o1 h1 o2 h2 he => hinj o1 (by simp [h1]) o2 (by simp [h2]) he)
        · rw [mapLoop_g2h_other]
          · simp
          · intro o2 ho2 hke
            have heq : off = o2 := hinj off (by simp) o2 (by simp [ho2]) hke
            exact hor (heq ▸ ho2)
      · exact ih _ off hmem' hdone
          (fun o1 h1 o2 h2 he => hinj o1 (by simp [h1]) o2 (by simp [h2]) he)
    · simp only [hio, if_false] at hdone
      cases hdone

/-- The unmap loop only ever removes forward-map entries. -/
lemma unmapLoop_g2h_cases (dst : Nat) :
    ∀ (offs : List Nat) (s : GmapS) (k : Nat),
      (unmapLoop s dst offs).2.guest_to_host k = s.guest_to_host k ∨
      (unmapLoop s dst offs).2.guest_to_host k = none := by
  intro offs
  induction offs with
  | nil => intro s k; left; rfl
  | cons o rest ih =>
    intro s k
    unfold unmapLoop
    dsimp only
    by_cases hk : k = t64 (dst + o) >>> PMD_SHIFT
    · rcases ih (gmap_unmap_by_gaddr s (dst + o)).2 k with h | h
      · right
        rw [h, hk]
        exact gmap_unmap_by_gaddr_g2h_self s (dst + o)
      · right; exact h
    · rcases ih (gmap_unmap_by_gaddr s (dst + o)).2 k with h | h
      · left
        rw [h]
        exact gmap_unmap_by_gaddr_g2h_other s (dst + o) k hk
      · right; exact h

/-- The unmap loop removes every visited key from the forward map. -/
lemma unmapLoop_g2h_mem (dst : Nat) :
    ∀ (offs : List Nat) (s : GmapS) (off : Nat), off ∈ offs →
      (unmapLoop s dst offs).2.guest_to_host (t64 (dst + off) >>> PMD_SHIFT) = none := by
  intro offs
  induction offs with
  | nil => intro s off h; cases h
  | cons o rest ih =>
    intro s off hmem
    unfold unmapLoop
    dsimp only
    rcases List.mem_cons.mp hmem with hoe | hmem'
    · subst hoe
      rcases unmapLoop_g2h_cases dst rest (gmap_unmap_by_gaddr s (dst + off)).2
          (t64 (dst + off) >>> PMD_SHIFT) with h | h
      · rw [h]
        exact gmap_unmap_by_gaddr_g2h_self s (dst + off)
      · exact h
    · exact ih _ off hmem'

/-- The unmap loop leaves forward-map keys outside its range alone. -/
lemma unmapLoop_g2h_other (dst : Nat) :
    ∀ (offs : List Nat) (s : GmapS) (k : Nat),
      (∀ off ∈ offs, k ≠ t64 (dst + off) >>> PMD_SHIFT) →
      (unmapLoop s dst offs).2.guest_to_host k = s.guest_to_host k := by
  intro offs
  induction offs with
  | nil => intro s k _; rfl
  | cons o rest ih =>
    intro s k h
    unfold unmapLoop
    dsimp only
    rw [ih _ _ (fun off hoff => h off (by simp [hoff]))]
    exact gmap_unmap_by_gaddr_g2h_other s (dst + o) k (h o (by simp))

/-- Membership in the visited segment offsets. -/
lemma segOffsets_mem {len off : Nat} :
    off ∈ segOffsets len ↔ ∃ i, i < len / PMD_SIZE ∧ off = i * PMD_SIZE := by
  unfold segOffsets
  simp [List.mem_map, List.mem_range, eq_comm]

/-- C1 counterexample: the claim fails at host address 0.  gmap_map_segment
of host address 0 succeeds, but __gmap_translate then returns -EFAULT rather
than host address 0 combined with the offset bits, because the stored value 0
reads back as a NULL radix-tree lookup. -/
theorem translate_after_link_counterexample :
    (gmap_map_segment (gmap_alloc 0 16384) 0 (2 ^ 20) (2 ^ 20) (fun _ => true)).1 = 0 ∧
    gmap_translate
      (gmap_map_segment (gmap_alloc 0 16384) 0 (2 ^ 20) (2 ^ 20) (fun _ => true)).2
      (2 ^ 20) = EFAULT_UL ∧
    EFAULT_UL ≠ 0 ||| (2 ^ 20 &&& cpl PMD_MASK) := by
  refine ⟨by decide, by decide, by decide⟩

/-- C1 (amended): on a non-shadow space, after a successful
gmap_map_segment of guest range [dst, dst+len) to host range [frm, frm+len),
__gmap_translate of any addr in the range returns the linked host address
frm + (addr - dst) — provided the linked segment's host address is nonzero
(host address 0 is stored as a NULL radix-tree entry and reads back as
NotMapped); the translation persists across gmap_unmap_segment calls whose
segment keys avoid addr's segment, and after gmap_unmap_segment of the range
__gmap_translate returns the unsigned encoding of -EFAULT. -/
theorem translate_after_map_segment (s : GmapS) (frm dst len addr : Nat)
    (insOk : Nat → Bool)
    (hfa : frm % PMD_SIZE = 0) (hda : dst % PMD_SIZE = 0) (hla : len % PMD_SIZE = 0)
    (hl0 : len ≠ 0)
    (hfl : frm + len - 1 ≤ TASK_SIZE_MAX)
    (hdl : dst + len - 1 ≤ s.asce_end)
    (hdu : dst + len < U64)
    (hins : ∀ off, insOk off = true)
    (ha1 : dst ≤ addr) (ha2 : addr < dst + len)
    (hnz : frm + ((addr - dst) / PMD_SIZE) * PMD_SIZE ≠ 0) :
    (gmap_map_segment s frm dst len insOk).1 = 0 ∧
    gmap_translate (gmap_map_segment s frm dst len insOk).2 addr = frm + (addr - dst) ∧
    (∀ dst2 len2,
      (∀ i, i < t64 len2 / PMD_SIZE →
        t64 addr >>> PMD_SHIFT ≠ t64 (t64 dst2 + i * PMD_SIZE) >>> PMD_SHIFT) →
      gmap_translate
        (gmap_unmap_segment (gmap_map_segment s frm dst len insOk).2 dst2 len2).2 addr =
        frm + (addr - dst)) ∧
    gmap_translate
      (gmap_unmap_segment (gmap_map_segment s frm dst len insOk).2 dst len).2 addr =
      EFAULT_UL := by
  have hP : (0:Nat) < PMD_SIZE := by norm_num [PMD_SIZE]
  have hPe : PMD_SIZE = 2 ^ 20 := rfl
  have hSh : PMD_SHIFT = 20 := rfl
  have hU : TASK_SIZE_MAX = U64 - PAGE_SIZE := rfl
  have hflU : frm + len < U64 := by
    have h := hfl
    unfold TASK_SIZE_MAX U64 PAGE_SIZE at h
    unfold U64
    omega
  have hfu : frm < U64 := by omega
  have hdu1 : dst < U64 := by omega
  have hlu : len < U64 := by omega
  have htf : t64 frm = frm := Nat.mod_eq_of_lt hfu
  have htd : t64 dst = dst := Nat.mod_eq_of_lt hdu1
  have htl : t64 len = len := Nat.mod_eq_of_lt hlu
  -- alignment guard evaluates to 0
  have hmod : ∀ x : Nat, x &&& (PMD_SIZE - 1) = x % PMD_SIZE := by
    intro x
    rw [hPe]
    exact Nat.and_pow_two_sub_one_eq_mod x 20
  have hguard1 : (frm ||| dst ||| len) &&& (PMD_SIZE - 1) = 0 := by
    rw [Nat.and_distrib_right, Nat.and_distrib_right, hmod, hmod, hmod, hfa, hda, hla]
    simp
  -- the bounds guard is false
  have hguard2 : ¬ (len = 0 ∨ t64 (frm + len) < frm ∨ t64 (dst + len) < dst ∨
      t64 (frm + len) - 1 > TASK_SIZE_MAX ∨ t64 (dst + len) - 1 > s.asce_end) := by
    have h1 : t64 (frm + len) = frm + len := Nat.mod_eq_of_lt hflU
    have h2 : t64 (dst + len) = dst + len := Nat.mod_eq_of_lt hdu
    rw [h1, h2]
    push_neg
    refine ⟨hl0, by omega, by omega, by omega, by omega⟩
  -- the successful run is the completed map loop
  have hcomp : (mapLoop frm dst insOk s (segOffsets len)).1 = true :=
    mapLoop_completes frm dst insOk _ s (fun off _ => hins off)
  have hms : gmap_map_segment s frm dst len insOk =
      (0, (mapLoop frm dst insOk s (segOffsets len)).2) := by
    unfold gmap_map_segment
    dsimp only
    rw [htf, htd, htl, if_neg (by rw [hguard1]; simp), if_neg hguard2]
    simp [hcomp]
  -- the covering segment offset of addr
  obtain ⟨d, hd⟩ : PMD_SIZE ∣ dst := Nat.dvd_of_mod_eq_zero hda
  obtain ⟨q, hq⟩ : PMD_SIZE ∣ len := Nat.dvd_of_mod_eq_zero hla
  obtain ⟨f, hf⟩ : PMD_SIZE ∣ frm := Nat.dvd_of_mod_eq_zero hfa
  set i0 := (addr - dst) / PMD_SIZE with hi0
  set off0 := i0 * PMD_SIZE with hoff0
  have hδ := Nat.div_add_mod (addr - dst) PMD_SIZE
  have hδlt : (addr - dst) % PMD_SIZE < PMD_SIZE := Nat.mod_lt _ hP
  have hlq : len / PMD_SIZE = q := by rw [hq]; exact Nat.mul_div_cancel_left q hP
  have hi0q : i0 < q := by
    rw [hi0, Nat.div_lt_iff_lt_mul hP]
    have hlt : addr - dst < len := by omega
    rw [hq, Nat.mul_comm PMD_SIZE q] at hlt
    omega
  have hmem0 : off0 ∈ segOffsets len := by
    rw [segOffsets_mem]
    exact ⟨i0, by rw [hlq]; exact hi0q, hoff0⟩
  -- keys of visited offsets
  have hkey : ∀ i, i < q → t64 (dst + i * PMD_SIZE) >>> PMD_SHIFT = d + i := by
    intro i hi
    have hlt : dst + i * PMD_SIZE < U64 := by
      have h1 : i * PMD_SIZE < q * PMD_SIZE := Nat.mul_lt_mul_of_pos_right hi hP
      have h2 : q * PMD_SIZE = PMD_SIZE * q := Nat.mul_comm _ _
      omega
    rw [t64_eq_of_lt hlt, hSh, Nat.shiftRight_eq_div_pow, ← hPe, hd]
    rw [Nat.mul_comm PMD_SIZE d, Nat.add_mul_div_right _ _ hP, Nat.mul_div_cancel _ hP]
  have hinj : ∀ o1 ∈ segOffsets len, ∀ o2 ∈ segOffsets len,
      t64 (dst + o1) >>> PMD_SHIFT = t64 (dst + o2) >>> PMD_SHIFT → o1 = o2 := by
    intro o1 h1 o2 h2 he
    obtain ⟨i1, hi1, rfl⟩ := segOffsets_mem.mp h1
    obtain ⟨i2, hi2, rfl⟩ := segOffsets_mem.mp h2
    rw [hlq] at hi1 hi2
    rw [hkey i1 hi1, hkey i2 hi2] at he
    have h12 : i1 = i2 := by omega
    rw [h12]
  -- the stored value at addr's key
  have hg2h : (mapLoop frm dst insOk s (segOffsets len)).2.guest_to_host
      (t64 (dst + off0) >>> PMD_SHIFT) = some (t64 (frm + off0)) :=
    mapLoop_g2h_mem frm dst insOk _ s off0 hmem0 hcomp hinj
  have hvalU : frm + off0 < U64 := by
    have : off0 < len := by
      rw [hoff0, hq]
      calc i0 * PMD_SIZE < q * PMD_SIZE := (Nat.mul_lt_mul_right hP).mpr hi0q
      _ = PMD_SIZE * q := Nat.mul_comm _ _
    omega
  have hval : t64 (frm + off0) = frm + off0 := Nat.mod_eq_of_lt hvalU
  rw [hval] at hg2h
  -- addr's key is the key of off0
  have haU : addr < U64 := by omega
  have hδ2 : PMD_SIZE * i0 + (addr - dst) % PMD_SIZE = addr - dst := by
    rw [← hi0] at hδ
    exact hδ
  have haddrkey : t64 addr >>> PMD_SHIFT = t64 (dst + off0) >>> PMD_SHIFT := by
    rw [t64_eq_of_lt haU, hkey i0 hi0q, hSh, Nat.shiftRight_eq_div_pow, ← hPe]
    have haddr : addr = (addr - dst) % PMD_SIZE + (d + i0) * PMD_SIZE := by
      have h3 : (d + i0) * PMD_SIZE = PMD_SIZE * d + PMD_SIZE * i0 := by ring
      omega
    rw [haddr, Nat.add_mul_div_right _ _ hP, Nat.div_eq_of_lt hδlt]
    omega
  -- translate in any state holding the stored value
  have htrans : ∀ s' : GmapS,
      s'.guest_to_host (t64 addr >>> PMD_SHIFT) = some (frm + off0) →
      gmap_translate s' addr = frm + (addr - dst) := by
    intro s' hs'
    unfold gmap_translate
    rw [hs']
    simp only [Option.getD_some]
    rw [if_pos (by rw [hoff0] at hnz; exact hnz)]
    rw [cpl_PMD_MASK, t64_eq_of_lt haU, hmod]
    have haP : addr % PMD_SIZE = (addr - dst) % PMD_SIZE := by
      rw [hPe]
      have hd20 : dst % 2 ^ 20 = 0 := by rw [← hPe]; exact hda
      omega
    rw [haP]
    have hfrm20 : frm % 2 ^ 20 = 0 := by rw [← hPe]; exact hfa
    have hoff20 : off0 = i0 * 2 ^ 20 := by rw [hoff0, hPe]
    rw [lor_eq_add_of_aligned (n := 20) (by omega) (by rw [← hPe]; exact hδlt)]
    have hδ20 : 2 ^ 20 * i0 + (addr - dst) % PMD_SIZE = addr - dst := by
      rw [← hPe]
      exact hδ2
    omega
  refine ⟨by rw [hms], ?_, ?_, ?_⟩
  · exact htrans _ (by rw [hms, haddrkey]; exact hg2h)
  · -- persistence across unmaps of disjoint segment ranges
    intro dst2 len2 hdisj
    unfold gmap_unmap_segment
    dsimp only
    split
    · exact htrans _ (by rw [hms, haddrkey]; exact hg2h)
    · split
      · exact htrans _ (by rw [hms, haddrkey]; exact hg2h)
      · apply htrans
        rw [unmapLoop_g2h_other]
        · rw [hms, haddrkey]
          exact hg2h
        · intro off hoff
          obtain ⟨i, hi, rfl⟩ := segOffsets_mem.mp hoff
          exact hdisj i hi
  · -- unmapping the linked range reports NotMapped again
    have hguard2u : ¬ (len = 0 ∨ t64 (dst + len) < dst) := by
      have h2 : t64 (dst + len) = dst + len := Nat.mod_eq_of_lt hdu
      rw [h2]
      push_neg
      exact ⟨hl0, by omega⟩
    have hnone : (unmapLoop (gmap_map_segment s frm dst len insOk).2 dst
        (segOffsets len)).2.guest_to_host (t64 addr >>> PMD_SHIFT) = none := by
      rw [haddrkey]
      exact unmapLoop_g2h_mem dst _ _ off0 hmem0
    have hguard1u : (dst ||| len) &&& (PMD_SIZE - 1) = 0 := by
      rw [Nat.and_distrib_right, hmod, hmod, hda, hla]
      simp
    unfold gmap_unmap_segment
    dsimp only
    rw [htd, htl, if_neg (by rw [hguard1u]; simp), if_neg hguard2u]
    unfold gmap_translate
    rw [hnone]
    simp

/-- Witness for translate_after_map_segment: linking guest segment 0x100000
to host segment 0x100000 on a fresh segment-rooted space makes
__gmap_translate return host address 0x100005 for guest address 0x100005. -/
theorem translate_after_map_segment_witness :
    gmap_translate
      (gmap_map_segment (gmap_alloc 0 16384) (2 ^ 20) (2 ^ 20) (2 ^ 20)
        (fun _ => true)).2 (2 ^ 20 + 5) = 2 ^ 20 + 5 := by
  have h := translate_after_map_segment (gmap_alloc 0 16384) (2 ^ 20) (2 ^ 20) (2 ^ 20)
    (2 ^ 20 + 5) (fun _ => true) (by decide) (by decide) (by decide) (by decide)
    (by decide) (by decide) (by decide) (fun _ => rfl) (by decide) (by decide) (by decide)
  exact h.2.1.trans (by norm_num)

/-! ### C7: the table walker against the specification's reading -/

/-- Index extracted from the guest address at one hierarchy level
(4 = region 1 … 1 = segment, 0 = page). -/
def idxAt (gaddr l : Nat) : Nat :=
  match l with
  | 4 => (gaddr &&& REGION1_INDEX) >>> REGION1_SHIFT
  | 3 => (gaddr &&& REGION2_INDEX) >>> REGION2_SHIFT
  | 2 => (gaddr &&& REGION3_INDEX) >>> REGION3_SHIFT
  | 1 => (gaddr &&& SEGMENT_INDEX) >>> SEGMENT_SHIFT
  | _ => (gaddr &&& PAGE_INDEX) >>> PAGE_SHIFT

/-- Origin mask applied when descending from an entry at level `l`. -/
def originOf (l e : Nat) : Nat :=
  if l = 1 then e &&& SEGMENT_ENTRY_ORIGIN else e &&& REGION_ENTRY_ORIGIN

/-- Modelled from the spec: level-by-level reading of the table walk ("for
each hierarchy level present above target_level, advance by the index
extracted from the address, validating that the entry is not the invalid
marker before dereferencing its target-table pointer"), with no large-leaf
check.  `cur` is the current level, `t` the current table origin. -/
def walkSpecAux (s : GmapS) (gaddr level : Nat) : Nat → Nat → Option Nat
  | 0, t => some (t + 8 * idxAt gaddr 0)
  | cur + 1, t =>
    let p := t + 8 * idxAt gaddr (cur + 1)
    if level = cur + 1 then some p
    else if s.mem p &&& REGION_ENTRY_INVALID ≠ 0 then none
    else walkSpecAux s gaddr level cur (originOf (cur + 1) (s.mem p))

/-- Modelled from the spec: the walk returns not-found when the shadow space
is removed, when the requested level lies above the hierarchy's root, or when
the address exceeds what the configured depth can represent; otherwise it
walks level by level from the root. -/
def walkSpec (s : GmapS) (gaddr0 level : Nat) : Option Nat :=
  let gaddr := t64 gaddr0
  let rootLevel := ((s.asce &&& ASCE_TYPE_MASK) >>> 2) + 1
  if s.is_shadow && s.removed then none
  else if level > rootLevel then none
  else if rootLevel < 4 ∧ 2 ^ (31 + (rootLevel - 1) * 11) ≤ gaddr then none
  else walkSpecAux s gaddr level rootLevel s.table

/-- Masking with the high bits from n upward keeps the n-aligned part. -/
lemma land_himask (x n : Nat) (hx : x < 2 ^ 64) (hn : n ≤ 64) :
    x &&& (2 ^ 64 - 2 ^ n) = x / 2 ^ n * 2 ^ n := by
  have hM : (2 ^ 64 - 2 ^ n : Nat) = (2 ^ (64 - n) - 1) <<< n := by
    rw [Nat.shiftLeft_eq, Nat.sub_mul, one_mul, ← Nat.pow_add]
    congr 2
    omega
  have hR : x / 2 ^ n * 2 ^ n = (x >>> n) <<< n := by
    rw [Nat.shiftRight_eq_div_pow, Nat.shiftLeft_eq]
  rw [hM, hR]
  apply Nat.eq_of_testBit_eq
  intro i
  rw [Nat.testBit_land, Nat.testBit_shiftLeft, Nat.testBit_shiftLeft, Nat.testBit_shiftRight]
  by_cases hni : n ≤ i
  · simp only [hni, decide_True, Bool.true_and]
    rw [Nat.testBit_two_pow_sub_one, Nat.add_sub_cancel' hni]
    by_cases h64 : i < 64
    · simp [show i - n < 64 - n by omega]
    · have : x.testBit i = false :=
        Nat.testBit_lt_two_pow (lt_of_lt_of_le hx (Nat.pow_le_pow_right (by norm_num) (by omega)))
      simp [this]
  · simp [hni]

/-- The code's high-mask test is the specification's coverage test. -/
lemma land_himask_ne_zero_iff (x n : Nat) (hx : x < 2 ^ 64) (hn : n ≤ 64) :
    x &&& (2 ^ 64 - 2 ^ n) ≠ 0 ↔ 2 ^ n ≤ x := by
  rw [land_himask x n hx hn]
  constructor
  · intro h
    by_contra hc
    push_neg at hc
    rw [Nat.div_eq_of_lt hc] at h
    simp at h
  · intro h hz
    have hpos : 0 < x / 2 ^ n := Nat.div_pos h (by positivity)
    have hmul : 0 < x / 2 ^ n * 2 ^ n := Nat.mul_pos hpos (by positivity)
    omega

/-- The segment chain of the walker agrees with the specification's reading. -/
lemma walkSpecAux_eq_walkSeg (s : GmapS) (gaddr level t : Nat) :
    walkSpecAux s gaddr level 1 t = walkSeg s t gaddr level := by
  show (let p := t + 8 * idxAt gaddr 1;
    if level = 1 then some p
    else if s.mem p &&& REGION_ENTRY_INVALID ≠ 0 then none
    else walkSpecAux s gaddr level 0 (originOf 1 (s.mem p))) = walkSeg s t gaddr level
  unfold walkSeg
  dsimp only
  simp only [idxAt, originOf]
  by_cases h1 : level = 1
  · simp [h1]
  · simp only [h1, if_false]
    split
    · rfl
    · show some _ = _
      simp [walkSpecAux, idxAt]

/-- The region-3 chain of the walker agrees with the specification. -/
lemma walkSpecAux_eq_walkR3 (s : GmapS) (gaddr level t : Nat) :
    walkSpecAux s gaddr level 2 t = walkR3 s t gaddr level := by
  show (let p := t + 8 * idxAt gaddr 2;
    if level = 2 then some p
    else if s.mem p &&& REGION_ENTRY_INVALID ≠ 0 then none
    else walkSpecAux s gaddr level 1 (originOf 2 (s.mem p))) = walkR3 s t gaddr level
  unfold walkR3
  dsimp only
  simp only [idxAt, originOf]
  by_cases h1 : level = 2
  · simp [h1]
  · simp only [h1, if_false]
    split
    · rfl
    · rw [walkSpecAux_eq_walkSeg]
      simp [idxAt, originOf]

/-- The region-2 chain of the walker agrees with the specification. -/
lemma walkSpecAux_eq_walkR2 (s : GmapS) (gaddr level t : Nat) :
    walkSpecAux s gaddr level 3 t = walkR2 s t gaddr level := by
  show (let p := t + 8 * idxAt gaddr 3;
    if level = 3 then some p
    else if s.mem p &&& REGION_ENTRY_INVALID ≠ 0 then none
    else walkSpecAux s gaddr level 2 (originOf 3 (s.mem p))) = walkR2 s t gaddr level
  unfold walkR2
  dsimp only
  simp only [idxAt, originOf]
  by_cases h1 : level = 3
  · simp [h1]
  · simp only [h1, if_false]
    split
    · rfl
    · rw [walkSpecAux_eq_walkR3]
      simp [idxAt, originOf]

/-- The region-1 chain of the walker agrees with the specification. -/
lemma walkSpecAux_eq_walkR1 (s : GmapS) (gaddr level t : Nat) :
    walkSpecAux s gaddr level 4 t = walkR1 s t gaddr level := by
  show (let p := t + 8 * idxAt gaddr 4;
    if level = 4 then some p
    else if s.mem p &&& REGION_ENTRY_INVALID ≠ 0 then none
    else walkSpecAux s gaddr level 3 (originOf 4 (s.mem p))) = walkR1 s t gaddr level
  unfold walkR1
  dsimp only
  simp only [idxAt, originOf]
  by_cases h1 : level = 4
  · simp [h1]
  · simp only [h1, if_false]
    split
    · rfl
    · rw [walkSpecAux_eq_walkR2]
      simp [idxAt, originOf]

/-- The four possible ASCE types. -/
lemma asce_type_cases (s : GmapS) :
    s.asce &&& ASCE_TYPE_MASK = 0 ∨ s.asce &&& ASCE_TYPE_MASK = 4 ∨
    s.asce &&& ASCE_TYPE_MASK = 8 ∨ s.asce &&& ASCE_TYPE_MASK = 12 := by
  have h1 : s.asce &&& ASCE_TYPE_MASK ≤ 12 := by
    have := Nat.and_le_right (n := s.asce) (m := ASCE_TYPE_MASK)
    unfold ASCE_TYPE_MASK at *
    omega
  have h2 : (s.asce &&& ASCE_TYPE_MASK) % 4 = 0 := by
    have hh : s.asce &&& ASCE_TYPE_MASK &&& 3 = 0 := by
      have h3 : ASCE_TYPE_MASK &&& 3 = 0 := by decide
      rw [Nat.and_assoc, h3, Nat.and_zero]
    rw [← Nat.and_pow_two_sub_one_eq_mod _ 2]
    exact hh
  omega

/-- C7 (amended): gmap_table_walk returns exactly what the specification's
level-by-level reading computes — not-found when the shadow space is removed,
the requested level lies above the configured root, the address exceeds the
configured depth's coverage, or a traversed higher-level entry has its invalid
bit set; otherwise the entry pointer at the requested level.  No large-leaf
early stop is performed: a valid leaf entry above the requested level is
descended through via its origin bits. -/
theorem gmap_table_walk_eq_walkSpec (s : GmapS) (gaddr level : Nat) :
    gmap_table_walk s gaddr level = walkSpec s gaddr level := by
  unfold gmap_table_walk walkSpec
  dsimp only
  have hg : t64 gaddr < 2 ^ 64 := Nat.mod_lt _ (by norm_num [U64])
  rcases asce_type_cases s with h | h | h | h <;> rw [h]
  · -- segment root
    have hcov : (0 ≠ ASCE_TYPE_REGION1 ∧ t64 gaddr &&& (U64 - 2 ^ (31 + 0 >>> 2 * 11)) ≠ 0)
        ↔ ((0 >>> 2) + 1 < 4 ∧ 2 ^ (31 + ((0 >>> 2) + 1 - 1) * 11) ≤ t64 gaddr) := by
      have he := land_himask_ne_zero_iff (t64 gaddr) 31 hg (by norm_num)
      have hn : (U64 : Nat) - 2 ^ (31 + 0 >>> 2 * 11) = 2 ^ 64 - 2 ^ 31 := by
        norm_num [U64]
      have hm : (31 + ((0 >>> 2) + 1 - 1) * 11) = 31 := by decide
      rw [hn, hm]
      constructor
      · intro hx
        exact ⟨by decide, he.mp hx.2⟩
      · intro hx
        exact ⟨by decide, he.mpr hx.2⟩
    split
    · rfl
    · rw [if_congr hcov rfl rfl]
      split
      · rfl
      · split
        · rfl
        · norm_num [ASCE_TYPE_REGION1, ASCE_TYPE_REGION2, ASCE_TYPE_REGION3]
          exact (walkSpecAux_eq_walkSeg s (t64 gaddr) level s.table).symm
  · -- region-3 root
    have hcov : (4 ≠ ASCE_TYPE_REGION1 ∧ t64 gaddr &&& (U64 - 2 ^ (31 + 4 >>> 2 * 11)) ≠ 0)
        ↔ ((4 >>> 2) + 1 < 4 ∧ 2 ^ (31 + ((4 >>> 2) + 1 - 1) * 11) ≤ t64 gaddr) := by
      have he := land_himask_ne_zero_iff (t64 gaddr) 42 hg (by norm_num)
      have hn : (U64 : Nat) - 2 ^ (31 + 4 >>> 2 * 11) = 2 ^ 64 - 2 ^ 42 := by decide
      have hm : (31 + ((4 >>> 2) + 1 - 1) * 11) = 42 := by decide
      rw [hn, hm]
      constructor
      · intro hx
        exact ⟨by decide, he.mp hx.2⟩
      · intro hx
        exact ⟨by decide, he.mpr hx.2⟩
    split
    · rfl
    · rw [if_congr hcov rfl rfl]
      split
      · rfl
      · split
        · rfl
        · norm_num [ASCE_TYPE_REGION1, ASCE_TYPE_REGION2, ASCE_TYPE_REGION3]
          exact (walkSpecAux_eq_walkR3 s (t64 gaddr) level s.table).symm
  · -- region-2 root
    have hcov : (8 ≠ ASCE_TYPE_REGION1 ∧ t64 gaddr &&& (U64 - 2 ^ (31 + 8 >>> 2 * 11)) ≠ 0)
        ↔ ((8 >>> 2) + 1 < 4 ∧ 2 ^ (31 + ((8 >>> 2) + 1 - 1) * 11) ≤ t64 gaddr) := by
      have he := land_himask_ne_zero_iff (t64 gaddr) 53 hg (by norm_num)
      have hn : (U64 : Nat) - 2 ^ (31 + 8 >>> 2 * 11) = 2 ^ 64 - 2 ^ 53 := by decide
      have hm : (31 + ((8 >>> 2) + 1 - 1) * 11) = 53 := by decide
      rw [hn, hm]
      constructor
      · intro hx
        exact ⟨by decide, he.mp hx.2⟩
      · intro hx
        exact ⟨by decide, he.mpr hx.2⟩
    split
    · rfl
    · rw [if_congr hcov rfl rfl]
      split
      · rfl
      · split
        · rfl
        · norm_num [ASCE_TYPE_REGION1, ASCE_TYPE_REGION2, ASCE_TYPE_REGION3]
          exact (walkSpecAux_eq_walkR2 s (t64 gaddr) level s.table).symm
  · -- region-1 root
    split
    · rfl
    · split
      · rfl
      · have hcov : ¬ (12 ≠ ASCE_TYPE_REGION1 ∧
            t64 gaddr &&& (U64 - 2 ^ (31 + 12 >>> 2 * 11)) ≠ 0) := by
          norm_num [ASCE_TYPE_REGION1]
        have hcov2 : ¬ ((12 >>> 2) + 1 < 4 ∧ 2 ^ (31 + ((12 >>> 2) + 1 - 1) * 11) ≤ t64 gaddr) := by
          intro hx
          exact absurd hx.1 (by decide)
        rw [if_neg hcov, if_neg hcov2]
        norm_num [ASCE_TYPE_REGION1, ASCE_TYPE_REGION2, ASCE_TYPE_REGION3]
        exact walkSpecAux_eq_walkR1 s (t64 gaddr) level s.table

/-- A one-segment state whose sole segment entry is a valid large leaf. -/
def sLeaf : GmapS :=
  { s0 with
    asce := ASCE_TYPE_SEGMENT ||| ASCE_TABLE_LENGTH ||| ASCE_USER_BITS ||| 0x1000
    table := 0x1000
    mem := fun a => if a = 0x1000 then 0x5000 ||| SEGMENT_ENTRY_LARGE else 0 }

/-- C7 counterexample: with a valid large segment leaf installed, a level-0
walk does not stop at the leaf — it dereferences the leaf's origin bits as if
they pointed to a page table and returns a pointer inside the mapped block
(0x5000), not the leaf entry pointer (0x1000) and not NULL. -/
theorem gmap_table_walk_leaf_counterexample :
    sLeaf.mem 0x1000 &&& SEGMENT_ENTRY_LARGE ≠ 0 ∧
    sLeaf.mem 0x1000 &&& SEGMENT_ENTRY_INVALID = 0 ∧
    gmap_table_walk sLeaf 0 0 = some 0x5000 ∧
    (some (0x5000 : Nat) ≠ some 0x1000 ∧ some (0x5000 : Nat) ≠ none) := by
  refine ⟨by decide, by decide, by decide, by decide, by decide⟩

/-! ### C5: the protection engine (gmap_protect_pmd / pte / one) -/

/-- s390 pmd_none: the segment entry is completely empty. -/
def pmd_none (v : Nat) : Bool := v == SEGMENT_ENTRY_EMPTY

/-- gmap_pmd_op_walk: walk to the segment entry; NULL if the walk fails or
the entry is empty (the lock-taking is external). -/
def gmap_pmd_op_walk (s : GmapS) (gaddr : Nat) : Option Nat :=
  match gmap_table_walk s gaddr 1 with
  | none => none
  | some p => if pmd_none (s.mem p) then none else some p

/-- gmap_protect_pmd: remove access rights on a large segment entry and set
the notification bits; -EAGAIN when a fixup is needed, -EINVAL for the
unsupported shadow-notification bits. -/
def gmap_protect_pmd (s : GmapS) (gaddr p prot bits : Nat) : Int × GmapS :=
  let pmd_i := s.mem p &&& SEGMENT_ENTRY_INVALID
  let pmd_p := s.mem p &&& SEGMENT_ENTRY_PROTECT
  let new := s.mem p
  if (pmd_i ≠ 0 ∧ prot ≠ PROT_NONE) ∨ (pmd_p ≠ 0 ∧ prot = PROT_WRITE) then (-EAGAIN, s)
  else
    let s1 := if prot = PROT_NONE ∧ pmd_i = 0 then
        gmap_pmdp_xchg s p (new ||| SEGMENT_ENTRY_INVALID) gaddr
      else s
    let s2 := if prot = PROT_READ ∧ pmd_p = 0 then
        gmap_pmdp_xchg s1 p ((new &&& cpl SEGMENT_ENTRY_INVALID) ||| SEGMENT_ENTRY_PROTECT) gaddr
      else s1
    let s3 := if bits &&& GMAP_NOTIFY_MPROT ≠ 0 then
        setMem s2 p (s2.mem p ||| SEGMENT_ENTRY_GMAP_IN)
      else s2
    if bits &&& GMAP_NOTIFY_SHADOW ≠ 0 then (-EINVAL, s3)
    else (0, s3)

/-- Outcomes of the external pte primitives used by gmap_protect_pte:
whether pte_alloc_map_lock finds or creates the page table, and the
ptep_force_prot return value. -/
structure PteOps where
  alloc_ok : Bool
  force_prot : Int

/-- gmap_protect_pte: protect the 4K page under a non-leaf segment entry;
the pte itself lives in the host page table (external), so only the return
code is modelled. -/
def gmap_protect_pte (s : GmapS) (p : Nat) (ops : PteOps) : Int :=
  if s.mem p &&& SEGMENT_ENTRY_INVALID ≠ 0 then -EAGAIN
  else if !ops.alloc_ok then -ENOMEM
  else ops.force_prot

/-- Source name: gmap_protect_one.  Protect one translation unit: the large
page under a leaf segment entry, or the 4K page under a normal one; returns
the protected size on success. -/
def gmap_protect_one (s : GmapS) (gaddr prot bits : Nat) (ops : PteOps) : Int × GmapS :=
  match gmap_pmd_op_walk s gaddr with
  | none => (-EAGAIN, s)
  | some p =>
    if !pmd_leaf (s.mem p) then
      let rc := gmap_protect_pte s p ops
      (if rc = 0 then (PAGE_SIZE : Int) else rc, s)
    else
      let r := gmap_protect_pmd s gaddr p prot bits
      (if r.1 = 0 then (HPAGE_SIZE : Int) else r.1, r.2)

/-- C5: on a non-shadow space with supported notification bits,
gmap_protect_one on a segment-level large leaf returns -EAGAIN exactly when
the leaf is invalid and some access is requested, or write-protected and
write access is requested; otherwise it returns HPAGE_SIZE; on a normal
(non-leaf) segment entry with the external pte operations succeeding it
returns PAGE_SIZE. -/
theorem gmap_protect_one_sizes (s : GmapS) (gaddr prot bits : Nat) (ops : PteOps)
    (hsh : s.is_shadow = false) :
    (∀ p, gmap_pmd_op_walk s gaddr = some p → pmd_leaf (s.mem p) = true →
      bits &&& GMAP_NOTIFY_SHADOW = 0 →
      (((gmap_protect_one s gaddr prot bits ops).1 = -EAGAIN) ↔
        ((s.mem p &&& SEGMENT_ENTRY_INVALID ≠ 0 ∧ prot ≠ PROT_NONE) ∨
         (s.mem p &&& SEGMENT_ENTRY_PROTECT ≠ 0 ∧ prot = PROT_WRITE))) ∧
      (¬ ((s.mem p &&& SEGMENT_ENTRY_INVALID ≠ 0 ∧ prot ≠ PROT_NONE) ∨
          (s.mem p &&& SEGMENT_ENTRY_PROTECT ≠ 0 ∧ prot = PROT_WRITE)) →
        (gmap_protect_one s gaddr prot bits ops).1 = HPAGE_SIZE)) ∧
    (∀ p, gmap_pmd_op_walk s gaddr = some p → pmd_leaf (s.mem p) = false →
      s.mem p &&& SEGMENT_ENTRY_INVALID = 0 → ops.alloc_ok = true → ops.force_prot = 0 →
      (gmap_protect_one s gaddr prot bits ops).1 = PAGE_SIZE) := by
  constructor
  · intro p hw hleaf hbits
    unfold gmap_protect_one
    rw [hw]
    dsimp only
    rw [hleaf]
    simp only [Bool.not_true, if_false, Bool.false_eq_true]
    unfold gmap_protect_pmd
    dsimp only
    by_cases hc : (s.mem p &&& SEGMENT_ENTRY_INVALID ≠ 0 ∧ prot ≠ PROT_NONE) ∨
        (s.mem p &&& SEGMENT_ENTRY_PROTECT ≠ 0 ∧ prot = PROT_WRITE)
    · rw [if_pos hc]
      refine ⟨⟨fun _ => hc, fun _ => ?_⟩, fun hnc => absurd hc hnc⟩
      norm_num [EAGAIN]
    · rw [if_neg hc, hbits]
      rw [if_neg (show ¬ ((0:Nat) ≠ 0) by simp)]
      refine ⟨⟨fun hh => ?_, fun hh => absurd hh hc⟩, fun _ => ?_⟩
      · norm_num [HPAGE_SIZE, EAGAIN] at hh
      · norm_num
  · intro p hw hleaf hinv halloc hfp
    unfold gmap_protect_one
    rw [hw]
    dsimp only
    rw [hleaf]
    have hrc : gmap_protect_pte s p ops = 0 := by
      unfold gmap_protect_pte
      rw [if_neg (by rw [hinv]; simp), halloc]
      simp [hfp]
    simp [hrc]

/-- Witness for gmap_protect_one_sizes: protecting the valid unprotected
large leaf of sLeaf for read succeeds and returns the large page size. -/
theorem gmap_protect_one_sizes_witness :
    (gmap_protect_one sLeaf 0 PROT_READ 0 ⟨true, 0⟩).1 = HPAGE_SIZE := by
  have h := (gmap_protect_one_sizes sLeaf 0 PROT_READ 0 ⟨true, 0⟩ (by decide)).1
    0x1000 (by decide) (by decide) (by decide)
  exact h.2 (by decide)

/-! ### C2: shadow teardown (gmap_unshadow family, gmap_free) -/

def SEGMENT_ENTRY_TYPE_MASK : Nat := 0x0c

def PAGE_MASK : Nat := U64 - PAGE_SIZE

/-- Source name: __gmap_unshadow_pgt.  Clear all 256 entries of a shadow
page table. -/
def gmap_unshadow_pgt_table (s : GmapS) (pgt : Nat) : GmapS :=
  (List.range PAGE_ENTRIES).foldl (fun st i => setMem st (pgt + 8 * i) PAGE_INVALID) s

/-- gmap_unshadow_pgt: remove a shadow page table from a segment entry
(notifier dispatch, hardware invalidate external, clear, free). -/
def gmap_unshadow_pgt (s : GmapS) (raddr : Nat) : GmapS :=
  match gmap_table_walk s raddr 1 with
  | none => s
  | some ste =>
    if s.mem ste &&& SEGMENT_ENTRY_ORIGIN = 0 then s
    else
      let s1 := notifyRange s raddr (t64 (raddr + SEGMENT_SIZE - 1))
      let pgt := s1.mem ste &&& SEGMENT_ENTRY_ORIGIN
      let s2 := setMem s1 ste SEGMENT_ENTRY_EMPTY
      freePage (gmap_unshadow_pgt_table s2 pgt) pgt

/-- Source name: __gmap_unshadow_sgt.  Remove all entries from a shadow
segment table, freeing the child page tables. -/
def gmap_unshadow_sgt_table (s : GmapS) (raddr sgt : Nat) : GmapS :=
  (List.range CRST_ENTRIES).foldl (fun st i =>
    if st.mem (sgt + 8 * i) &&& SEGMENT_ENTRY_ORIGIN = 0 then st
    else
      let pgt := st.mem (sgt + 8 * i) &&& REGION_ENTRY_ORIGIN
      let st1 := setMem st (sgt + 8 * i) SEGMENT_ENTRY_EMPTY
      freePage (gmap_unshadow_pgt_table st1 pgt) pgt) s

/-- gmap_unshadow_sgt: remove a shadow segment table from a region-3 entry. -/
def gmap_unshadow_sgt (s : GmapS) (raddr : Nat) : GmapS :=
  match gmap_table_walk s raddr 2 with
  | none => s
  | some r3e =>
    if s.mem r3e &&& REGION_ENTRY_ORIGIN = 0 then s
    else
      let s1 := notifyRange s raddr (t64 (raddr + REGION3_SIZE - 1))
      let sgt := s1.mem r3e &&& REGION_ENTRY_ORIGIN
      let s2 := setMem s1 r3e REGION3_ENTRY_EMPTY
      freePage (gmap_unshadow_sgt_table s2 raddr sgt) sgt

/-- Source name: __gmap_unshadow_r3t.  Remove all entries from a shadow
region-3 table, recursing into the segment tables. -/
def gmap_unshadow_r3t_table (s : GmapS) (raddr r3t : Nat) : GmapS :=
  (List.range CRST_ENTRIES).foldl (fun st i =>
    if st.mem (r3t + 8 * i) &&& REGION_ENTRY_ORIGIN = 0 then st
    else
      let sgt := st.mem (r3t + 8 * i) &&& REGION_ENTRY_ORIGIN
      let st1 := setMem st (r3t + 8 * i) REGION3_ENTRY_EMPTY
      freePage (gmap_unshadow_sgt_table st1 (t64 (raddr + i * REGION3_SIZE)) sgt) sgt) s

/-- gmap_unshadow_r3t: remove a shadow region-3 table from a region-2 entry. -/
def gmap_unshadow_r3t (s : GmapS) (raddr : Nat) : GmapS :=
  match gmap_table_walk s raddr 3 with
  | none => s
  | some r2e =>
    if s.mem r2e &&& REGION_ENTRY_ORIGIN = 0 then s
    else
      let s1 := notifyRange s raddr (t64 (raddr + REGION2_SIZE - 1))
      let r3t := s1.mem r2e &&& REGION_ENTRY_ORIGIN
      let s2 := setMem s1 r2e REGION2_ENTRY_EMPTY
      freePage (gmap_unshadow_r3t_table s2 raddr r3t) r3t

/-- Source name: __gmap_unshadow_r2t.  Remove all entries from a shadow
region-2 table, recursing into the region-3 tables. -/
def gmap_unshadow_r2t_table (s : GmapS) (raddr r2t : Nat) : GmapS :=
  (List.range CRST_ENTRIES).foldl (fun st i =>
    if st.mem (r2t + 8 * i) &&& REGION_ENTRY_ORIGIN = 0 then st
    else
      let r3t := st.mem (r2t + 8 * i) &&& REGION_ENTRY_ORIGIN
      let st1 := setMem st (r2t + 8 * i) REGION2_ENTRY_EMPTY
      freePage (gmap_unshadow_r3t_table st1 (t64 (raddr + i * REGION2_SIZE)) r3t) r3t) s

/-- gmap_unshadow_r2t: remove a shadow region-2 table from a region-1 entry. -/
def gmap_unshadow_r2t (s : GmapS) (raddr : Nat) : GmapS :=
  match gmap_table_walk s raddr 4 with
  | none => s
  | some r1e =>
    if s.mem r1e &&& REGION_ENTRY_ORIGIN = 0 then s
    else
      let s1 := notifyRange s raddr (t64 (raddr + REGION1_SIZE - 1))
      let r2t := s1.mem r1e &&& REGION_ENTRY_ORIGIN
      let s2 := setMem s1 r1e REGION1_ENTRY_EMPTY
      freePage (gmap_unshadow_r2t_table s2 raddr r2t) r2t

/-- Source name: __gmap_unshadow_r1t.  Remove all entries from a shadow
region-1 table (recursion before clearing, as in the source). -/
def gmap_unshadow_r1t_table (s : GmapS) (raddr r1t : Nat) : GmapS :=
  (List.range CRST_ENTRIES).foldl (fun st i =>
    if st.mem (r1t + 8 * i) &&& REGION_ENTRY_ORIGIN = 0 then st
    else
      let r2t := st.mem (r1t + 8 * i) &&& REGION_ENTRY_ORIGIN
      let st1 := gmap_unshadow_r2t_table st (t64 (raddr + i * REGION1_SIZE)) r2t
      freePage (setMem st1 (r1t + 8 * i) REGION1_ENTRY_EMPTY) r2t) s

/-- gmap_unshadow: remove a shadow table hierarchy completely, marking the
space removed and notifying consumers of the full address range. -/
def gmap_unshadow (s : GmapS) : GmapS :=
  if s.removed then s
  else
    let s1 := notifyRange { s with removed := true } 0 (U64 - 1)
    let table := s1.asce &&& ASCE_ORIGIN
    if s1.asce &&& ASCE_TYPE_MASK = ASCE_TYPE_REGION1 then
      gmap_unshadow_r1t_table s1 0 table
    else if s1.asce &&& ASCE_TYPE_MASK = ASCE_TYPE_REGION2 then
      gmap_unshadow_r2t_table s1 0 table
    else if s1.asce &&& ASCE_TYPE_MASK = ASCE_TYPE_REGION3 then
      gmap_unshadow_r3t_table s1 0 table
    else
      gmap_unshadow_sgt_table s1 0 table

/-- gmap_free_crst: recursively free all region and segment tables of the
hierarchy; `fuel` bounds the recursion at the four hierarchy levels (the
source recursion terminates because the type bits strictly decrease). -/
def gmap_free_crst (fuel : Nat) (s : GmapS) (t : Nat) (free_ptes : Bool) : GmapS :=
  match fuel with
  | 0 => s
  | f + 1 =>
    if s.mem t &&& SEGMENT_ENTRY_TYPE_MASK = 0 then
      let s1 :=
        if free_ptes then
          (List.range CRST_ENTRIES).foldl (fun st i =>
            if st.mem (t + 8 * i) &&& SEGMENT_ENTRY_INVALID = 0 then
              freePage st (st.mem (t + 8 * i) &&& PAGE_MASK)
            else st) s
        else s
      freePage s1 t
    else
      let s1 := (List.range CRST_ENTRIES).foldl (fun st i =>
        if st.mem (t + 8 * i) &&& REGION_ENTRY_INVALID = 0 then
          gmap_free_crst f st (st.mem (t + 8 * i) &&& PAGE_MASK) free_ptes
        else st) s
      freePage s1 t

/-- gmap_free: free a guest address space at reference count zero — flush
(unless an already-removed shadow), free the table hierarchy, empty the
forward and reverse radix trees, and for a shadow also release every
reverse-mapping record (the batchwise gmap_rmap_radix_tree_free deletes every
entry and kfrees each rmap chain, so the tree ends empty). -/
def gmap_free (s : GmapS) : GmapS :=
  let s1 := gmap_free_crst 5 s s.table s.is_shadow
  let s2 := { s1 with
    guest_to_host := fun _ => none
    host_to_guest := fun _ => none }
  if s.is_shadow then { s2 with host_to_rmap := fun _ => none } else s2

/-- Teardown and free helpers change only table memory, the allocation
ledger and the notifier log. -/
lemma foldl_sameCtl {α : Type} (f : GmapS → α → GmapS)
    (h : ∀ st x, SameCtl st (f st x)) :
    ∀ (l : List α) (s : GmapS), SameCtl s (l.foldl f s) := by
  intro l
  induction l with
  | nil => intro s; exact sameCtl_refl s
  | cons a rest ih =>
    intro s
    exact sameCtl_trans (h s a) (ih (f s a))

lemma setMem_sameCtl (s : GmapS) (a v : Nat) : SameCtl s (setMem s a v) :=
  ⟨rfl, rfl, rfl, rfl, rfl, rfl, rfl, rfl⟩

lemma freePage_sameCtl (s : GmapS) (p : Nat) : SameCtl s (freePage s p) :=
  ⟨rfl, rfl, rfl, rfl, rfl, rfl, rfl, rfl⟩

lemma notifyRange_sameCtl (s : GmapS) (a b : Nat) : SameCtl s (notifyRange s a b) :=
  ⟨rfl, rfl, rfl, rfl, rfl, rfl, rfl, rfl⟩

lemma gmap_unshadow_pgt_table_sameCtl (s : GmapS) (pgt : Nat) :
    SameCtl s (gmap_unshadow_pgt_table s pgt) :=
  foldl_sameCtl _ (fun st i => setMem_sameCtl st (pgt + 8 * i) PAGE_INVALID) _ s

lemma gmap_unshadow_sgt_table_sameCtl (s : GmapS) (raddr sgt : Nat) :
    SameCtl s (gmap_unshadow_sgt_table s raddr sgt) := by
  apply foldl_sameCtl
  intro st i
  dsimp only
  split
  · exact sameCtl_refl st
  · exact sameCtl_trans (setMem_sameCtl st _ _)
      (sameCtl_trans (gmap_unshadow_pgt_table_sameCtl _ _) (freePage_sameCtl _ _))

lemma gmap_unshadow_r3t_table_sameCtl (s : GmapS) (raddr r3t : Nat) :
    SameCtl s (gmap_unshadow_r3t_table s raddr r3t) := by
  apply foldl_sameCtl
  intro st i
  dsimp only
  split
  · exact sameCtl_refl st
  · exact sameCtl_trans (setMem_sameCtl st _ _)
      (sameCtl_trans (gmap_unshadow_sgt_table_sameCtl _ _ _) (freePage_sameCtl _ _))

lemma gmap_unshadow_r2t_table_sameCtl (s : GmapS) (raddr r2t : Nat) :
    SameCtl s (gmap_unshadow_r2t_table s raddr r2t) := by
  apply foldl_sameCtl
  intro st i
  dsimp only
  split
  · exact sameCtl_refl st
  · exact sameCtl_trans (setMem_sameCtl st _ _)
      (sameCtl_trans (gmap_unshadow_r3t_table_sameCtl _ _ _) (freePage_sameCtl _ _))

lemma gmap_unshadow_r1t_table_sameCtl (s : GmapS) (raddr r1t : Nat) :
    SameCtl s (gmap_unshadow_r1t_table s raddr r1t) := by
  apply foldl_sameCtl
  intro st i
  dsimp only
  split
  · exact sameCtl_refl st
  · exact sameCtl_trans (gmap_unshadow_r2t_table_sameCtl _ _ _)
      (sameCtl_trans (setMem_sameCtl _ _ _) (freePage_sameCtl _ _))

lemma gmap_free_crst_sameCtl (fuel : Nat) :
    ∀ (s : GmapS) (t : Nat) (b : Bool), SameCtl s (gmap_free_crst fuel s t b) := by
  induction fuel with
  | zero => intro s t b; exact sameCtl_refl s
  | succ f ih =>
    intro s t b
    unfold gmap_free_crst
    dsimp only
    split
    · split
      · exact sameCtl_trans
          (foldl_sameCtl _ (fun st i => by
            split
            · exact freePage_sameCtl st _
            · exact sameCtl_refl st) _ s)
          (freePage_sameCtl _ _)
      · exact freePage_sameCtl s t
    · exact sameCtl_trans
        (foldl_sameCtl _ (fun st i => by
          split
          · exact ih st _ b
          · exact sameCtl_refl st) _ s)
        (freePage_sameCtl _ _)

/-- gmap_unshadow flips the removed flag and otherwise only tears down table
memory. -/
lemma gmap_unshadow_state (s : GmapS) (h : s.removed = false) :
    SameCtl { s with removed := true } (gmap_unshadow s) := by
  unfold gmap_unshadow
  rw [h]
  simp only [Bool.false_eq_true, if_false]
  have hbase : SameCtl { s with removed := true }
      (notifyRange { s with removed := true } 0 (U64 - 1)) := notifyRange_sameCtl _ _ _
  split
  · exact sameCtl_trans hbase (gmap_unshadow_r1t_table_sameCtl _ _ _)
  · split
    · exact sameCtl_trans hbase (gmap_unshadow_r2t_table_sameCtl _ _ _)
    · split
      · exact sameCtl_trans hbase (gmap_unshadow_r3t_table_sameCtl _ _ _)
      · exact sameCtl_trans hbase (gmap_unshadow_sgt_table_sameCtl _ _ _)

/-- C2: after gmap_unshadow completes on a shadow space, the removed flag is
set, every subsequent gmap_table_walk on any address and level returns NULL,
__gmap_translate reports NotMapped for every address (the forward map of a
shadow is empty, per the source's invariant), and after the free path
(gmap_free) every reverse-mapping record the shadow owned has been
released — the host_to_rmap tree is empty. -/
theorem gmap_unshadow_removes (s : GmapS) (hsh : s.is_shadow = true) :
    (gmap_unshadow s).removed = true ∧
    (∀ gaddr level, gmap_table_walk (gmap_unshadow s) gaddr level = none) ∧
    (∀ gaddr, s.guest_to_host (t64 gaddr >>> PMD_SHIFT) = none →
      gmap_translate (gmap_unshadow s) gaddr = EFAULT_UL) ∧
    (∀ k, (gmap_free (gmap_unshadow s)).host_to_rmap k = none) := by
  by_cases hr : s.removed = true
  · -- already removed: gmap_unshadow is the identity
    have hid : gmap_unshadow s = s := by
      unfold gmap_unshadow
      rw [hr]
      simp
    refine ⟨by rw [hid]; exact hr, ?_, ?_, ?_⟩
    · intro gaddr level
      rw [hid]
      unfold gmap_table_walk
      rw [hsh, hr]
      simp
    · intro gaddr hg
      rw [hid]
      unfold gmap_translate
      rw [hg]
      simp
    · intro k
      rw [hid]
      unfold gmap_free
      rw [hsh]
      simp
  · have hr' : s.removed = false := by
      cases hcc : s.removed
      · rfl
      · exact absurd hcc hr
    have hctl := gmap_unshadow_state s hr'
    obtain ⟨ht, ha, he, hi, hrm, hg2h, hh2g, hrmap⟩ := hctl
    refine ⟨by rw [hrm], ?_, ?_, ?_⟩
    · intro gaddr level
      unfold gmap_table_walk
      rw [hi, hrm, hsh]
      simp
    · intro gaddr hg
      unfold gmap_translate
      rw [hg2h]
      dsimp only
      rw [hg]
      simp
    · intro k
      unfold gmap_free
      have hsh2 : (gmap_unshadow s).is_shadow = true := by rw [hi]; exact hsh
      rw [hsh2]
      simp

/-- A minimal shadow space (segment-rooted, empty tables). -/
def sgC : GmapS :=
  { s0 with
    is_shadow := true
    asce := ASCE_TYPE_SEGMENT ||| ASCE_TABLE_LENGTH ||| ASCE_USER_BITS ||| 0x1000
    table := 0x1000
    mem := fun _ => SEGMENT_ENTRY_EMPTY }

/-- Witness for gmap_unshadow_removes on the minimal shadow space sgC. -/
theorem gmap_unshadow_removes_witness :
    (gmap_unshadow sgC).removed = true ∧
    gmap_table_walk (gmap_unshadow sgC) 0 1 = none ∧
    gmap_translate (gmap_unshadow sgC) 0 = EFAULT_UL ∧
    (gmap_free (gmap_unshadow sgC)).host_to_rmap 0 = none := by
  have h := gmap_unshadow_removes sgC (by decide)
  exact ⟨h.1, h.2.1 0 1, h.2.2.1 0 (by decide), h.2.2.2 0⟩

/-! ### C6: failure modes of __gmap_link -/

/-- A segment-rooted space whose guest segment slot 0 is already linked to
host segment 3 (guest_to_host records host address 0x300000, the slot holds
an installed pmd copy). -/
def sC6 : GmapS :=
  { s0 with
    asce := ASCE_TYPE_SEGMENT ||| ASCE_TABLE_LENGTH ||| ASCE_USER_BITS ||| 0x1000
    table := 0x1000
    mem := fun a => if a = 0x1000 then 0x7000 else SEGMENT_ENTRY_EMPTY
    guest_to_host := fun k => if k = 0 then some 0x300000 else none }

/-- A host mm with ordinary (non-leaf) pud and pmd entries. -/
def hostC6 : HostMM :=
  { allow_gmap_hpage_1m := false, pud := fun _ => 0, pmd := fun _ => 0 }

/-- Counterexample for C6: guest segment slot 0 of sC6 is already linked to
host segment 3 (host address 0x300000), yet __gmap_link of guest address 0
to the different host address 0x500000 returns 0, not a Conflict error: the
non-empty-slot path never consults which host unit the slot is linked to. -/
theorem gmap_link_conflict_counterexample :
    sC6.guest_to_host (t64 0 >>> PMD_SHIFT) = some 0x300000 ∧
    sC6.mem 0x1000 ≠ SEGMENT_ENTRY_EMPTY ∧
    (0x300000 : Nat) ≠ 0x500000 ∧
    (gmap_link sC6 hostC6 0 0x500000 [] true).1 = 0 := by
  refine ⟨by decide, by decide, by decide, by decide⟩

/-- C6 (amended): once __gmap_link has reached the guest segment entry `p`
(the intermediate-table prefix succeeded), it fails with -EFAULT exactly for
the unusable host mappings — a large pud, or a large pmd when 1M gmap
hugepages are not allowed; with a usable host mapping it fails with -EEXIST
(Conflict) when the guest slot is still empty but the host_to_guest reverse
map already has an entry for vmaddr's host segment; and a guest slot that is
already linked (to any host unit) makes the call return 0, not an error.
-EFAULT and -EEXIST are distinct results. -/
theorem gmap_link_error_codes (s : GmapS) (host : HostMM) (gaddr vmaddr : Nat)
    (fresh : List Nat) (p : Nat)
    (hp : (linkTables s (t64 gaddr) fresh).1 = some p) :
    ((pud_leaf (host.pud (t64 vmaddr)) = true ∨
      (pmd_leaf (host.pmd (t64 vmaddr)) = true ∧ host.allow_gmap_hpage_1m = false)) →
      (gmap_link s host gaddr vmaddr fresh true).1 = -EFAULT) ∧
    (pud_leaf (host.pud (t64 vmaddr)) = false →
      (pmd_leaf (host.pmd (t64 vmaddr)) && !host.allow_gmap_hpage_1m) = false →
      (linkTables s (t64 gaddr) fresh).2.mem p = SEGMENT_ENTRY_EMPTY →
      (s.host_to_guest (t64 vmaddr >>> PMD_SHIFT)).isSome = true →
      (gmap_link s host gaddr vmaddr fresh true).1 = -EEXIST) ∧
    (pud_leaf (host.pud (t64 vmaddr)) = false →
      (pmd_leaf (host.pmd (t64 vmaddr)) && !host.allow_gmap_hpage_1m) = false →
      (linkTables s (t64 gaddr) fresh).2.mem p ≠ SEGMENT_ENTRY_EMPTY →
      (gmap_link s host gaddr vmaddr fresh true).1 = 0) ∧
    -EFAULT ≠ -EEXIST := by
  have hctl : (linkTables s (t64 gaddr) fresh).2.host_to_guest = s.host_to_guest :=
    (linkTables_sameCtl s (t64 gaddr) fresh).2.2.2.2.2.2.1
  unfold gmap_link
  dsimp only
  rw [hp]
  dsimp only
  refine ⟨?_, ?_, ?_, by decide⟩
  · intro hcase
    by_cases hc1 : pud_leaf (host.pud (t64 vmaddr)) = true
    · simp only [hc1, if_true]
    · rcases hcase with h | ⟨h1, h2⟩
      · exact absurd h hc1
      · simp only [hc1, if_false, Bool.false_eq_true]
        have hc2 : (pmd_leaf (host.pmd (t64 vmaddr)) && !host.allow_gmap_hpage_1m) = true := by
          rw [h1, h2]
          decide
        simp only [hc2, if_true]
  · intro h1 h2 h3 h4
    simp only [h1, h2, Bool.false_eq_true, if_false]
    simp only [Bool.not_true, Bool.false_eq_true, if_false]
    rw [if_pos h3]
    rw [hctl] at *
    rw [if_pos h4]
  · intro h1 h2 h3
    simp only [h1, h2, Bool.false_eq_true, if_false]
    simp only [Bool.not_true, Bool.false_eq_true, if_false]
    rw [if_neg h3]
    split
    · rfl
    · rfl

/-- A segment-rooted space with an empty guest slot whose host segment 5 is
already recorded in the reverse map. -/
def sC6w : GmapS :=
  { s0 with
    asce := ASCE_TYPE_SEGMENT ||| ASCE_TABLE_LENGTH ||| ASCE_USER_BITS ||| 0x1000
    table := 0x1000
    mem := fun _ => SEGMENT_ENTRY_EMPTY
    host_to_guest := fun k => if k = 5 then some 1 else none }

/-- Witness for gmap_link_error_codes: on sC6w, linking guest 0 to host
0x500000 hits the occupied reverse-map entry and reports -EEXIST. -/
theorem gmap_link_error_codes_witness :
    (gmap_link sC6w hostC6 0 0x500000 [] true).1 = -EEXIST :=
  (gmap_link_error_codes sC6w hostC6 0 0x500000 [] 0x1000 (by decide)).2.1
    (by decide) (by decide) (by decide) (by decide)

/-! ### C3/C4: shadow-level creation (gmap_shadow_r2t/r3t/sgt/pgt) -/

/-- Modelled from the spec: PGSTE_ST2_MASK from the s390 pgtable.h header
(not part of the scoped source) — bits 16..31 of a pgste. -/
def PGSTE_ST2_MASK : Nat := 0x0000ffff00000000

/-- gmap_insert_rmap: record a reverse mapping from a host page to a shadow
rmap address, prepending to the existing chain unless the same raddr is
already recorded. -/
def gmap_insert_rmap (s : GmapS) (vmaddr raddr : Nat) : GmapS :=
  match s.host_to_rmap (vmaddr >>> PAGE_SHIFT) with
  | some chain =>
    if raddr ∈ chain then s
    else { s with host_to_rmap := fun k =>
        if k = vmaddr >>> PAGE_SHIFT then some (raddr :: chain) else s.host_to_rmap k }
  | none =>
    { s with host_to_rmap := fun k =>
        if k = vmaddr >>> PAGE_SHIFT then some [raddr] else s.host_to_rmap k }

/-- One loop iteration's external outcomes in gmap_protect_rmap: the rmap
kzalloc, the radix_tree_preload, whether gmap_pte_op_walk found a mapped
pte, the ptep_force_prot result and the gmap_pte_op_fixup result. -/
structure PteAttempt where
  alloc_ok : Bool
  preload_ok : Bool
  walk_ok : Bool
  prot_rc : Int
  fixup_rc : Int

/-- gmap_protect_rmap: make the parent pages of [paddr, paddr+len) read-only
and record an rmap for each under `raddr`; the attempt stream supplies the
outcome of each loop iteration's external calls (`none` if it runs out — the
loop would keep retrying). -/
def gmap_protect_rmap (parent : GmapS) (raddr : Nat) :
    GmapS → List PteAttempt → Nat → Nat → Option Int × GmapS
  | s, _, _, 0 => (some 0, s)
  | s, [], _, _ => (none, s)
  | s, a :: rest, paddr, len =>
    let vmaddr := gmap_translate parent paddr
    if IS_ERR_VALUE vmaddr then (some ((vmaddr : Int) - (U64 : Int)), s)
    else if !a.alloc_ok then (some (-ENOMEM), s)
    else if !a.preload_ok then (some (-ENOMEM), s)
    else if a.walk_ok then
      if a.prot_rc = 0 then
        gmap_protect_rmap parent raddr (gmap_insert_rmap s vmaddr raddr) rest
          (paddr + PAGE_SIZE) (len - PAGE_SIZE)
      else if a.fixup_rc ≠ 0 then (some a.fixup_rc, s)
      else gmap_protect_rmap parent raddr s rest paddr len
    else
      if a.fixup_rc ≠ 0 then (some a.fixup_rc, s)
      else gmap_protect_rmap parent raddr s rest paddr len

/-- gmap_pgste_set_pgt_addr: stamp the parent page-table origin into the
ST2 fields of the first four pgstes of the shadow page table at `pg`. -/
def gmap_pgste_set_pgt_addr (s : GmapS) (pg pgt_addr : Nat) : GmapS :=
  let base := pg + 8 * PAGE_ENTRIES
  let s0 := setMem s base
    ((s.mem base &&& cpl PGSTE_ST2_MASK) ||| ((pgt_addr >>> 16) &&& PGSTE_ST2_MASK))
  let s1 := setMem s0 (base + 8)
    ((s0.mem (base + 8) &&& cpl PGSTE_ST2_MASK) ||| (pgt_addr &&& PGSTE_ST2_MASK))
  let s2 := setMem s1 (base + 16)
    ((s1.mem (base + 16) &&& cpl PGSTE_ST2_MASK) ||| (t64 (pgt_addr <<< 16) &&& PGSTE_ST2_MASK))
  setMem s2 (base + 24)
    ((s2.mem (base + 24) &&& cpl PGSTE_ST2_MASK) ||| (t64 (pgt_addr <<< 32) &&& PGSTE_ST2_MASK))

/-- The pre-walk preparation of gmap_shadow_pgt: allocate the shadow page
table and stamp the parent origin (plus the fake-table flag) into its
pgstes. -/
def pgtPrep (s : GmapS) (pg pgt : Nat) (fake : Bool) : GmapS :=
  let origin0 := pgt &&& SEGMENT_ENTRY_ORIGIN
  let origin := if fake then origin0 ||| GMAP_SHADOW_FAKE_TABLE else origin0
  gmap_pgste_set_pgt_addr (allocPage s pg) pg origin

/-- gmap_shadow_r2t: create a shadow region-2 table for the region-1 entry
covering saddr; `fresh` is the page from gmap_alloc_crst, `attempts` drives
gmap_protect_rmap. -/
def gmap_shadow_r2t (s parent : GmapS) (saddr r2t : Nat) (fake : Bool)
    (fresh : Option Nat) (attempts : List PteAttempt) : Option Int × GmapS :=
  match fresh with
  | none => (some (-ENOMEM), s)
  | some s_r2t =>
    let s0 := allocPage s s_r2t
    match gmap_table_walk s0 saddr 4 with
    | none => (some (-EAGAIN), freePage s0 s_r2t)
    | some table =>
      if s0.mem table &&& REGION_ENTRY_INVALID = 0 then (some 0, freePage s0 s_r2t)
      else if s0.mem table &&& REGION_ENTRY_ORIGIN ≠ 0 then
        (some (-EAGAIN), freePage s0 s_r2t)
      else
        let s1 := crstInit s0 s_r2t REGION2_ENTRY_EMPTY
        let v0 := s_r2t ||| REGION_ENTRY_LENGTH ||| REGION_ENTRY_TYPE_R1 ||| REGION_ENTRY_INVALID
        let v1 := if 1 ≤ s1.edat_level then v0 ||| (r2t &&& REGION_ENTRY_PROTECT) else v0
        let s2 := setMem s1 table v1
        if fake then (some 0, setMem s2 table (s2.mem table &&& cpl REGION_ENTRY_INVALID))
        else
          let raddr := (saddr &&& REGION1_MASK) ||| SHADOW_RMAP_REGION1
          let origin := r2t &&& REGION_ENTRY_ORIGIN
          let offset := ((r2t &&& REGION_ENTRY_OFFSET) >>> 6) * PAGE_SIZE
          let len := ((r2t &&& REGION_ENTRY_LENGTH) + 1) * PAGE_SIZE - offset
          match gmap_protect_rmap parent raddr s2 attempts (origin + offset) len with
          | (none, s3) => (none, s3)
          | (some rc, s3) =>
            if rc = 0 then
              match gmap_table_walk s3 saddr 4 with
              | none => (some (-EAGAIN), s3)
              | some t2 =>
                if s3.mem t2 &&& REGION_ENTRY_ORIGIN ≠ s_r2t then (some (-EAGAIN), s3)
                else (some 0, setMem s3 t2 (s3.mem t2 &&& cpl REGION_ENTRY_INVALID))
            else (some rc, gmap_unshadow_r2t s3 raddr)

/-- gmap_shadow_r3t: create a shadow region-3 table for the region-2 entry
covering saddr. -/
def gmap_shadow_r3t (s parent : GmapS) (saddr r3t : Nat) (fake : Bool)
    (fresh : Option Nat) (attempts : List PteAttempt) : Option Int × GmapS :=
  match fresh with
  | none => (some (-ENOMEM), s)
  | some s_r3t =>
    let s0 := allocPage s s_r3t
    match gmap_table_walk s0 saddr 3 with
    | none => (some (-EAGAIN), freePage s0 s_r3t)
    | some table =>
      if s0.mem table &&& REGION_ENTRY_INVALID = 0 then (some 0, freePage s0 s_r3t)
      else if s0.mem table &&& REGION_ENTRY_ORIGIN ≠ 0 then
        (some (-EAGAIN), freePage s0 s_r3t)
      else
        let s1 := crstInit s0 s_r3t REGION3_ENTRY_EMPTY
        let v0 := s_r3t ||| REGION_ENTRY_LENGTH ||| REGION_ENTRY_TYPE_R2 ||| REGION_ENTRY_INVALID
        let v1 := if 1 ≤ s1.edat_level then v0 ||| (r3t &&& REGION_ENTRY_PROTECT) else v0
        let s2 := setMem s1 table v1
        if fake then (some 0, setMem s2 table (s2.mem table &&& cpl REGION_ENTRY_INVALID))
        else
          let raddr := (saddr &&& REGION2_MASK) ||| SHADOW_RMAP_REGION2
          let origin := r3t &&& REGION_ENTRY_ORIGIN
          let offset := ((r3t &&& REGION_ENTRY_OFFSET) >>> 6) * PAGE_SIZE
          let len := ((r3t &&& REGION_ENTRY_LENGTH) + 1) * PAGE_SIZE - offset
          match gmap_protect_rmap parent raddr s2 attempts (origin + offset) len with
          | (none, s3) => (none, s3)
          | (some rc, s3) =>
            if rc = 0 then
              match gmap_table_walk s3 saddr 3 with
              | none => (some (-EAGAIN), s3)
              | some t2 =>
                if s3.mem t2 &&& REGION_ENTRY_ORIGIN ≠ s_r3t then (some (-EAGAIN), s3)
                else (some 0, setMem s3 t2 (s3.mem t2 &&& cpl REGION_ENTRY_INVALID))
            else (some rc, gmap_unshadow_r3t s3 raddr)

/-- gmap_shadow_sgt: create a shadow segment table for the region-3 entry
covering saddr. -/
def gmap_shadow_sgt (s parent : GmapS) (saddr sgt : Nat) (fake : Bool)
    (fresh : Option Nat) (attempts : List PteAttempt) : Option Int × GmapS :=
  match fresh with
  | none => (some (-ENOMEM), s)
  | some s_sgt =>
    let s0 := allocPage s s_sgt
    match gmap_table_walk s0 saddr 2 with
    | none => (some (-EAGAIN), freePage s0 s_sgt)
    | some table =>
      if s0.mem table &&& REGION_ENTRY_INVALID = 0 then (some 0, freePage s0 s_sgt)
      else if s0.mem table &&& REGION_ENTRY_ORIGIN ≠ 0 then
        (some (-EAGAIN), freePage s0 s_sgt)
      else
        let s1 := crstInit s0 s_sgt SEGMENT_ENTRY_EMPTY
        let v0 := s_sgt ||| REGION_ENTRY_LENGTH ||| REGION_ENTRY_TYPE_R3 ||| REGION_ENTRY_INVALID
        let v1 := if 1 ≤ s1.edat_level then v0 ||| (sgt &&& REGION_ENTRY_PROTECT) else v0
        let s2 := setMem s1 table v1
        if fake then (some 0, setMem s2 table (s2.mem table &&& cpl REGION_ENTRY_INVALID))
        else
          let raddr := (saddr &&& REGION3_MASK) ||| SHADOW_RMAP_REGION3
          let origin := sgt &&& REGION_ENTRY_ORIGIN
          let offset := ((sgt &&& REGION_ENTRY_OFFSET) >>> 6) * PAGE_SIZE
          let len := ((sgt &&& REGION_ENTRY_LENGTH) + 1) * PAGE_SIZE - offset
          match gmap_protect_rmap parent raddr s2 attempts (origin + offset) len with
          | (none, s3) => (none, s3)
          | (some rc, s3) =>
            if rc = 0 then
              match gmap_table_walk s3 saddr 2 with
              | none => (some (-EAGAIN), s3)
              | some t2 =>
                if s3.mem t2 &&& REGION_ENTRY_ORIGIN ≠ s_sgt then (some (-EAGAIN), s3)
                else (some 0, setMem s3 t2 (s3.mem t2 &&& cpl REGION_ENTRY_INVALID))
            else (some rc, gmap_unshadow_sgt s3 raddr)

/-- gmap_shadow_pgt: instantiate a shadow page table for the segment entry
covering saddr; `fresh` is the ptdesc from page_table_alloc_pgste. -/
def gmap_shadow_pgt (s parent : GmapS) (saddr pgt : Nat) (fake : Bool)
    (fresh : Option Nat) (attempts : List PteAttempt) : Option Int × GmapS :=
  match fresh with
  | none => (some (-ENOMEM), s)
  | some s_pgt =>
    let s0 := pgtPrep s s_pgt pgt fake
    match gmap_table_walk s0 saddr 1 with
    | none => (some (-EAGAIN), freePage s0 s_pgt)
    | some table =>
      if s0.mem table &&& SEGMENT_ENTRY_INVALID = 0 then (some 0, freePage s0 s_pgt)
      else if s0.mem table &&& SEGMENT_ENTRY_ORIGIN ≠ 0 then
        (some (-EAGAIN), freePage s0 s_pgt)
      else
        let v := s_pgt ||| SEGMENT_ENTRY ||| (pgt &&& SEGMENT_ENTRY_PROTECT) |||
          SEGMENT_ENTRY_INVALID
        let s2 := setMem s0 table v
        if fake then (some 0, setMem s2 table (s2.mem table &&& cpl SEGMENT_ENTRY_INVALID))
        else
          let raddr := (saddr &&& SEGMENT_MASK) ||| SHADOW_RMAP_SEGMENT
          let origin := pgt &&& SEGMENT_ENTRY_ORIGIN &&& PAGE_MASK
          match gmap_protect_rmap parent raddr s2 attempts origin PAGE_SIZE with
          | (none, s3) => (none, s3)
          | (some rc, s3) =>
            if rc = 0 then
              match gmap_table_walk s3 saddr 1 with
              | none => (some (-EAGAIN), s3)
              | some t2 =>
                if s3.mem t2 &&& SEGMENT_ENTRY_ORIGIN ≠ s_pgt then (some (-EAGAIN), s3)
                else (some 0, setMem s3 t2 (s3.mem t2 &&& cpl SEGMENT_ENTRY_INVALID))
            else (some rc, gmap_unshadow_pgt s3 raddr)

/-- gmap_table_walk only reads table memory and control fields, so the
allocation-ledger update of allocPage leaves it unchanged. -/
lemma gmap_table_walk_allocPage (s : GmapS) (pg g l : Nat) :
    gmap_table_walk (allocPage s pg) g l = gmap_table_walk s g l := rfl

/-- C3: each shadow-level creation operation is idempotent — when the walk
finds the target slot already holding a non-invalid entry (as after a
successful first call with the same arguments), the call returns 0 as a
no-op: the entry and all other table memory are left unchanged, no second
table is installed, and the freshly allocated page of the call is freed
(for gmap_shadow_pgt the only writes are the pgste stamps on that freed
page). -/
theorem gmap_shadow_established_noop (s parent : GmapS) (saddr rt pg : Nat)
    (fake : Bool) (att : List PteAttempt) :
    (∀ p, gmap_table_walk s saddr 4 = some p → s.mem p &&& REGION_ENTRY_INVALID = 0 →
      gmap_shadow_r2t s parent saddr rt fake (some pg) att =
        (some 0, freePage (allocPage s pg) pg)) ∧
    (∀ p, gmap_table_walk s saddr 3 = some p → s.mem p &&& REGION_ENTRY_INVALID = 0 →
      gmap_shadow_r3t s parent saddr rt fake (some pg) att =
        (some 0, freePage (allocPage s pg) pg)) ∧
    (∀ p, gmap_table_walk s saddr 2 = some p → s.mem p &&& REGION_ENTRY_INVALID = 0 →
      gmap_shadow_sgt s parent saddr rt fake (some pg) att =
        (some 0, freePage (allocPage s pg) pg)) ∧
    (∀ p, gmap_table_walk (pgtPrep s pg rt fake) saddr 1 = some p →
      (pgtPrep s pg rt fake).mem p &&& SEGMENT_ENTRY_INVALID = 0 →
      gmap_shadow_pgt s parent saddr rt fake (some pg) att =
        (some 0, freePage (pgtPrep s pg rt fake) pg)) := by
  refine ⟨?_, ?_, ?_, ?_⟩
  · intro p hw hinv
    have hw0 : gmap_table_walk (allocPage s pg) saddr 4 = some p := by
      rw [gmap_table_walk_allocPage]; exact hw
    have hinv0 : (allocPage s pg).mem p &&& REGION_ENTRY_INVALID = 0 := hinv
    unfold gmap_shadow_r2t
    dsimp only
    rw [hw0]
    dsimp only
    rw [if_pos hinv0]
  · intro p hw hinv
    have hw0 : gmap_table_walk (allocPage s pg) saddr 3 = some p := by
      rw [gmap_table_walk_allocPage]; exact hw
    have hinv0 : (allocPage s pg).mem p &&& REGION_ENTRY_INVALID = 0 := hinv
    unfold gmap_shadow_r3t
    dsimp only
    rw [hw0]
    dsimp only
    rw [if_pos hinv0]
  · intro p hw hinv
    have hw0 : gmap_table_walk (allocPage s pg) saddr 2 = some p := by
      rw [gmap_table_walk_allocPage]; exact hw
    have hinv0 : (allocPage s pg).mem p &&& REGION_ENTRY_INVALID = 0 := hinv
    unfold gmap_shadow_sgt
    dsimp only
    rw [hw0]
    dsimp only
    rw [if_pos hinv0]
  · intro p hw hinv
    unfold gmap_shadow_pgt
    dsimp only
    rw [hw]
    dsimp only
    rw [if_pos hinv]

/-- A shadow space with a region-1 rooted hierarchy whose tables read as all
zero, so every slot already holds a non-invalid entry. -/
def sC34 : GmapS :=
  { s0 with
    is_shadow := true
    asce := ASCE_TYPE_REGION1 ||| ASCE_TABLE_LENGTH ||| ASCE_USER_BITS ||| 0x1000
    table := 0x1000 }

/-- Witness for gmap_shadow_established_noop: on sC34 the r2t and pgt
creation calls are no-ops that free the fresh page. -/
theorem gmap_shadow_established_noop_witness :
    gmap_shadow_r2t sC34 s0 0 0 false (some 0x2000) [] =
      (some 0, freePage (allocPage sC34 0x2000) 0x2000) ∧
    gmap_shadow_pgt sC34 s0 0 0 false (some 0x2000) [] =
      (some 0, freePage (pgtPrep sC34 0x2000 0 false) 0x2000) :=
  ⟨(gmap_shadow_established_noop sC34 s0 0 0 0x2000 false []).1 0x1000
      (by decide) (by decide),
   (gmap_shadow_established_noop sC34 s0 0 0 0x2000 false []).2.2.2 0
      (by decide) (by decide)⟩

/-! ### Walk footprint and stability (for the C4 unwind analysis) -/

/-- The table-memory addresses read by walkSeg. -/
def walkSegReads (t gaddr level : Nat) : List Nat :=
  if level = 1 then []
  else [t + 8 * ((gaddr &&& SEGMENT_INDEX) >>> SEGMENT_SHIFT)]

/-- The table-memory addresses read by walkR3. -/
def walkR3Reads (s : GmapS) (t gaddr level : Nat) : List Nat :=
  let p := t + 8 * ((gaddr &&& REGION3_INDEX) >>> REGION3_SHIFT)
  if level = 2 then []
  else if s.mem p &&& REGION_ENTRY_INVALID ≠ 0 then [p]
  else p :: walkSegReads (s.mem p &&& REGION_ENTRY_ORIGIN) gaddr level

/-- The table-memory addresses read by walkR2. -/
def walkR2Reads (s : GmapS) (t gaddr level : Nat) : List Nat :=
  let p := t + 8 * ((gaddr &&& REGION2_INDEX) >>> REGION2_SHIFT)
  if level = 3 then []
  else if s.mem p &&& REGION_ENTRY_INVALID ≠ 0 then [p]
  else p :: walkR3Reads s (s.mem p &&& REGION_ENTRY_ORIGIN) gaddr level

/-- The table-memory addresses read by walkR1. -/
def walkR1Reads (s : GmapS) (t gaddr level : Nat) : List Nat :=
  let p := t + 8 * ((gaddr &&& REGION1_INDEX) >>> REGION1_SHIFT)
  if level = 4 then []
  else if s.mem p &&& REGION_ENTRY_INVALID ≠ 0 then [p]
  else p :: walkR2Reads s (s.mem p &&& REGION_ENTRY_ORIGIN) gaddr level

/-- The table-memory addresses read by gmap_table_walk. -/
def gmapWalkReads (s : GmapS) (gaddr0 level : Nat) : List Nat :=
  let gaddr := t64 gaddr0
  let asce_type := s.asce &&& ASCE_TYPE_MASK
  if s.is_shadow && s.removed then []
  else if level > (asce_type >>> 2) + 1 then []
  else if asce_type ≠ ASCE_TYPE_REGION1 ∧
      gaddr &&& (U64 - 2 ^ (31 + (asce_type >>> 2) * 11)) ≠ 0 then []
  else if asce_type = ASCE_TYPE_REGION1 then walkR1Reads s s.table gaddr level
  else if asce_type = ASCE_TYPE_REGION2 then walkR2Reads s s.table gaddr level
  else if asce_type = ASCE_TYPE_REGION3 then walkR3Reads s s.table gaddr level
  else walkSegReads s.table gaddr level

/-- walkSeg is unchanged when memory agrees on its read footprint. -/
lemma walkSeg_stable (s s' : GmapS) (t gaddr level : Nat)
    (h : ∀ a ∈ walkSegReads t gaddr level, s'.mem a = s.mem a) :
    walkSeg s' t gaddr level = walkSeg s t gaddr level := by
  by_cases hl : level = 1
  · simp [walkSeg, hl]
  · have hp : s'.mem (t + 8 * ((gaddr &&& SEGMENT_INDEX) >>> SEGMENT_SHIFT)) =
        s.mem (t + 8 * ((gaddr &&& SEGMENT_INDEX) >>> SEGMENT_SHIFT)) := by
      apply h
      simp [walkSegReads, hl]
    simp only [walkSeg, if_neg hl, hp]

/-- walkR3 is unchanged when memory agrees on its read footprint. -/
lemma walkR3_stable (s s' : GmapS) (t gaddr level : Nat)
    (h : ∀ a ∈ walkR3Reads s t gaddr level, s'.mem a = s.mem a) :
    walkR3 s' t gaddr level = walkR3 s t gaddr level := by
  by_cases hl : level = 2
  · simp [walkR3, hl]
  · have hp : s'.mem (t + 8 * ((gaddr &&& REGION3_INDEX) >>> REGION3_SHIFT)) =
        s.mem (t + 8 * ((gaddr &&& REGION3_INDEX) >>> REGION3_SHIFT)) := by
      apply h
      by_cases hi : s.mem (t + 8 * ((gaddr &&& REGION3_INDEX) >>> REGION3_SHIFT)) &&&
          REGION_ENTRY_INVALID ≠ 0 <;>
        simp [walkR3Reads, hl, hi]
    simp only [walkR3, if_neg hl, hp]
    by_cases hi : s.mem (t + 8 * ((gaddr &&& REGION3_INDEX) >>> REGION3_SHIFT)) &&&
        REGION_ENTRY_INVALID ≠ 0
    · simp [hi]
    · simp only [hi, if_false]
      apply walkSeg_stable
      intro a ha
      apply h
      simp only [walkR3Reads, if_neg hl, if_neg hi]
      exact List.mem_cons_of_mem _ ha

/-- walkR2 is unchanged when memory agrees on its read footprint. -/
lemma walkR2_stable (s s' : GmapS) (t gaddr level : Nat)
    (h : ∀ a ∈ walkR2Reads s t gaddr level, s'.mem a = s.mem a) :
    walkR2 s' t gaddr level = walkR2 s t gaddr level := by
  by_cases hl : level = 3
  · simp [walkR2, hl]
  · have hp : s'.mem (t + 8 * ((gaddr &&& REGION2_INDEX) >>> REGION2_SHIFT)) =
        s.mem (t + 8 * ((gaddr &&& REGION2_INDEX) >>> REGION2_SHIFT)) := by
      apply h
      by_cases hi : s.mem (t + 8 * ((gaddr &&& REGION2_INDEX) >>> REGION2_SHIFT)) &&&
          REGION_ENTRY_INVALID ≠ 0 <;>
        simp [walkR2Reads, hl, hi]
    simp only [walkR2, if_neg hl, hp]
    by_cases hi : s.mem (t + 8 * ((gaddr &&& REGION2_INDEX) >>> REGION2_SHIFT)) &&&
        REGION_ENTRY_INVALID ≠ 0
    · simp [hi]
    · simp only [hi, if_false]
      apply walkR3_stable
      intro a ha
      apply h
      simp only [walkR2Reads, if_neg hl, if_neg hi]
      exact List.mem_cons_of_mem _ ha

/-- walkR1 is unchanged when memory agrees on its read footprint. -/
lemma walkR1_stable (s s' : GmapS) (t gaddr level : Nat)
    (h : ∀ a ∈ walkR1Reads s t gaddr level, s'.mem a = s.mem a) :
    walkR1 s' t gaddr level = walkR1 s t gaddr level := by
  by_cases hl : level = 4
  · simp [walkR1, hl]
  · have hp : s'.mem (t + 8 * ((gaddr &&& REGION1_INDEX) >>> REGION1_SHIFT)) =
        s.mem (t + 8 * ((gaddr &&& REGION1_INDEX) >>> REGION1_SHIFT)) := by
      apply h
      by_cases hi : s.mem (t + 8 * ((gaddr &&& REGION1_INDEX) >>> REGION1_SHIFT)) &&&
          REGION_ENTRY_INVALID ≠ 0 <;>
        simp [walkR1Reads, hl, hi]
    simp only [walkR1, if_neg hl, hp]
    by_cases hi : s.mem (t + 8 * ((gaddr &&& REGION1_INDEX) >>> REGION1_SHIFT)) &&&
        REGION_ENTRY_INVALID ≠ 0
    · simp [hi]
    · simp only [hi, if_false]
      apply walkR2_stable
      intro a ha
      apply h
      simp only [walkR1Reads, if_neg hl, if_neg hi]
      exact List.mem_cons_of_mem _ ha

/-- gmap_table_walk is unchanged by memory writes outside its read
footprint, as long as the control fields match. -/
lemma gmap_table_walk_stable (s s' : GmapS) (g L : Nat)
    (ha : s'.asce = s.asce) (ht : s'.table = s.table)
    (hi : s'.is_shadow = s.is_shadow) (hr : s'.removed = s.removed)
    (hm : ∀ a ∈ gmapWalkReads s g L, s'.mem a = s.mem a) :
    gmap_table_walk s' g L = gmap_table_walk s g L := by
  unfold gmap_table_walk
  rw [ha, ht, hi, hr]
  dsimp only
  by_cases h1 : (s.is_shadow && s.removed) = true
  · rw [if_pos h1, if_pos h1]
  · rw [if_neg h1, if_neg h1]
    by_cases h2 : ((s.asce &&& ASCE_TYPE_MASK) >>> 2) + 1 < L
    · rw [if_pos h2, if_pos h2]
    · rw [if_neg h2, if_neg h2]
      by_cases h3 : s.asce &&& ASCE_TYPE_MASK ≠ ASCE_TYPE_REGION1 ∧
          t64 g &&& (U64 - 2 ^ (31 + ((s.asce &&& ASCE_TYPE_MASK) >>> 2) * 11)) ≠ 0
      · rw [if_pos h3, if_pos h3]
      · rw [if_neg h3, if_neg h3]
        have hm' : ∀ a ∈ (if s.asce &&& ASCE_TYPE_MASK = ASCE_TYPE_REGION1 then
              walkR1Reads s s.table (t64 g) L
            else if s.asce &&& ASCE_TYPE_MASK = ASCE_TYPE_REGION2 then
              walkR2Reads s s.table (t64 g) L
            else if s.asce &&& ASCE_TYPE_MASK = ASCE_TYPE_REGION3 then
              walkR3Reads s s.table (t64 g) L
            else walkSegReads s.table (t64 g) L), s'.mem a = s.mem a := by
          intro a haa
          apply hm
          unfold gmapWalkReads
          dsimp only
          rw [if_neg h1, if_neg h2, if_neg h3]
          exact haa
        by_cases h4 : s.asce &&& ASCE_TYPE_MASK = ASCE_TYPE_REGION1
        · rw [if_pos h4, if_pos h4]
          rw [if_pos h4] at hm'
          exact walkR1_stable s s' s.table (t64 g) L hm'
        · rw [if_neg h4, if_neg h4]
          rw [if_neg h4] at hm'
          by_cases h5 : s.asce &&& ASCE_TYPE_MASK = ASCE_TYPE_REGION2
          · rw [if_pos h5, if_pos h5]
            rw [if_pos h5] at hm'
            exact walkR2_stable s s' s.table (t64 g) L hm'
          · rw [if_neg h5, if_neg h5]
            rw [if_neg h5] at hm'
            by_cases h6 : s.asce &&& ASCE_TYPE_MASK = ASCE_TYPE_REGION3
            · rw [if_pos h6, if_pos h6]
              rw [if_pos h6] at hm'
              exact walkR3_stable s s' s.table (t64 g) L hm'
            · rw [if_neg h6, if_neg h6]
              rw [if_neg h6] at hm'
              exact walkSeg_stable s s' s.table (t64 g) L hm'

/-- walkSeg at segment level depends on the guest address only through its
segment-index bits. -/
lemma walkSeg_gcongr (s : GmapS) (t g g' : Nat)
    (h20 : g' &&& SEGMENT_INDEX = g &&& SEGMENT_INDEX) :
    walkSeg s t g' 1 = walkSeg s t g 1 ∧
    walkSegReads t g' 1 = walkSegReads t g 1 := by
  constructor <;> simp [walkSeg, walkSegReads, h20]

/-- walkR3 at levels 1-2 depends on the guest address only through its
region-3 and segment index bits. -/
lemma walkR3_gcongr (s : GmapS) (t g g' level : Nat) (hl1 : 1 ≤ level)
    (hl2 : level ≤ 2)
    (h31 : g' &&& REGION3_INDEX = g &&& REGION3_INDEX)
    (h20 : level ≤ 1 → g' &&& SEGMENT_INDEX = g &&& SEGMENT_INDEX) :
    walkR3 s t g' level = walkR3 s t g level ∧
    walkR3Reads s t g' level = walkR3Reads s t g level := by
  by_cases hl : level = 2
  · constructor <;> simp [walkR3, walkR3Reads, hl, h31]
  · have hone : level = 1 := by omega
    subst hone
    have h20' := h20 (by omega)
    constructor
    · unfold walkR3
      rw [h31]
      by_cases hi : s.mem (t + 8 * ((g &&& REGION3_INDEX) >>> REGION3_SHIFT)) &&&
          REGION_ENTRY_INVALID ≠ 0
      · simp [hi]
      · simp only [if_neg (by decide : ¬(1 = 2)), hi, if_false]
        exact (walkSeg_gcongr s _ g g' h20').1
    · unfold walkR3Reads
      rw [h31]
      by_cases hi : s.mem (t + 8 * ((g &&& REGION3_INDEX) >>> REGION3_SHIFT)) &&&
          REGION_ENTRY_INVALID ≠ 0
      · simp [hi]
      · simp only [if_neg (by decide : ¬(1 = 2)), hi, if_false]
        rw [(walkSeg_gcongr s _ g g' h20').2]

/-- walkR2 at levels 1-3 depends on the guest address only through its
region-2, region-3 and segment index bits. -/
lemma walkR2_gcongr (s : GmapS) (t g g' level : Nat) (hl1 : 1 ≤ level)
    (hl2 : level ≤ 3)
    (h42 : g' &&& REGION2_INDEX = g &&& REGION2_INDEX)
    (h31 : level ≤ 2 → g' &&& REGION3_INDEX = g &&& REGION3_INDEX)
    (h20 : level ≤ 1 → g' &&& SEGMENT_INDEX = g &&& SEGMENT_INDEX) :
    walkR2 s t g' level = walkR2 s t g level ∧
    walkR2Reads s t g' level = walkR2Reads s t g level := by
  by_cases hl : level = 3
  · constructor <;> simp [walkR2, walkR2Reads, hl, h42]
  · have hle : level ≤ 2 := by omega
    have h31' := h31 hle
    constructor
    · unfold walkR2
      rw [h42]
      by_cases hi : s.mem (t + 8 * ((g &&& REGION2_INDEX) >>> REGION2_SHIFT)) &&&
          REGION_ENTRY_INVALID ≠ 0
      · simp [hi]
      · simp only [if_neg hl, hi, if_false]
        exact (walkR3_gcongr s _ g g' level hl1 hle h31' h20).1
    · unfold walkR2Reads
      rw [h42]
      by_cases hi : s.mem (t + 8 * ((g &&& REGION2_INDEX) >>> REGION2_SHIFT)) &&&
          REGION_ENTRY_INVALID ≠ 0
      · simp [hi]
      · simp only [if_neg hl, hi, if_false]
        rw [(walkR3_gcongr s _ g g' level hl1 hle h31' h20).2]

/-- walkR1 at levels 1-4 depends on the guest address only through its
index bits at the levels it traverses. -/
lemma walkR1_gcongr (s : GmapS) (t g g' level : Nat) (hl1 : 1 ≤ level)
    (hl2 : level ≤ 4)
    (h53 : g' &&& REGION1_INDEX = g &&& REGION1_INDEX)
    (h42 : level ≤ 3 → g' &&& REGION2_INDEX = g &&& REGION2_INDEX)
    (h31 : level ≤ 2 → g' &&& REGION3_INDEX = g &&& REGION3_INDEX)
    (h20 : level ≤ 1 → g' &&& SEGMENT_INDEX = g &&& SEGMENT_INDEX) :
    walkR1 s t g' level = walkR1 s t g level ∧
    walkR1Reads s t g' level = walkR1Reads s t g level := by
  by_cases hl : level = 4
  · constructor <;> simp [walkR1, walkR1Reads, hl, h53]
  · have hle : level ≤ 3 := by omega
    have h42' := h42 hle
    constructor
    · unfold walkR1
      rw [h53]
      by_cases hi : s.mem (t + 8 * ((g &&& REGION1_INDEX) >>> REGION1_SHIFT)) &&&
          REGION_ENTRY_INVALID ≠ 0
      · simp [hi]
      · simp only [if_neg hl, hi, if_false]
        exact (walkR2_gcongr s _ g g' level hl1 hle h42' h31 h20).1
    · unfold walkR1Reads
      rw [h53]
      by_cases hi : s.mem (t + 8 * ((g &&& REGION1_INDEX) >>> REGION1_SHIFT)) &&&
          REGION_ENTRY_INVALID ≠ 0
      · simp [hi]
      · simp only [if_neg hl, hi, if_false]
        rw [(walkR2_gcongr s _ g g' level hl1 hle h42' h31 h20).2]

/-- gmap_table_walk at levels 1-4 depends on the guest address only through
its index bits at the traversed levels and the range-check bits above the
root-covered range. -/
lemma gmap_table_walk_gcongr (s : GmapS) (g g' L : Nat) (hL : 1 ≤ L)
    (h53 : t64 g' &&& REGION1_INDEX = t64 g &&& REGION1_INDEX)
    (h42 : L ≤ 3 → t64 g' &&& REGION2_INDEX = t64 g &&& REGION2_INDEX)
    (h31 : L ≤ 2 → t64 g' &&& REGION3_INDEX = t64 g &&& REGION3_INDEX)
    (h20 : L ≤ 1 → t64 g' &&& SEGMENT_INDEX = t64 g &&& SEGMENT_INDEX)
    (hr31 : L ≤ 1 → t64 g' &&& (U64 - 2 ^ 31) = t64 g &&& (U64 - 2 ^ 31))
    (hr42 : L ≤ 2 → t64 g' &&& (U64 - 2 ^ 42) = t64 g &&& (U64 - 2 ^ 42))
    (hr53 : L ≤ 3 → t64 g' &&& (U64 - 2 ^ 53) = t64 g &&& (U64 - 2 ^ 53)) :
    gmap_table_walk s g' L = gmap_table_walk s g L ∧
    gmapWalkReads s g' L = gmapWalkReads s g L := by
  unfold gmap_table_walk gmapWalkReads
  dsimp only
  by_cases h1 : (s.is_shadow && s.removed) = true
  · rw [if_pos h1, if_pos h1, if_pos h1, if_pos h1]
    exact ⟨rfl, rfl⟩
  · rw [if_neg h1, if_neg h1, if_neg h1, if_neg h1]
    by_cases h2 : ((s.asce &&& ASCE_TYPE_MASK) >>> 2) + 1 < L
    · rw [if_pos h2, if_pos h2, if_pos h2, if_pos h2]
      exact ⟨rfl, rfl⟩
    · rw [if_neg h2, if_neg h2, if_neg h2, if_neg h2]
      rcases asce_type_cases s with ha | ha | ha | ha
      · -- segment-type asce: L = 1
        rw [ha] at h2 ⊢
        have hL1 : L ≤ 1 := by
          simpa using Nat.not_lt.mp h2
        have hrng : t64 g' &&& (U64 - 2 ^ (31 + ((0 : Nat) >>> 2) * 11)) =
            t64 g &&& (U64 - 2 ^ (31 + ((0 : Nat) >>> 2) * 11)) := by
          have h0 : (31 + ((0 : Nat) >>> 2) * 11) = 31 := by decide
          rw [h0]
          exact hr31 hL1
        rw [hrng]
        have hseg := walkSeg_gcongr s s.table (t64 g) (t64 g') (h20 hL1)
        have hL1' : L = 1 := by omega
        subst hL1'
        by_cases h3 : (0 : Nat) ≠ ASCE_TYPE_REGION1 ∧
            t64 g &&& (U64 - 2 ^ (31 + ((0 : Nat) >>> 2) * 11)) ≠ 0
        · rw [if_pos h3, if_pos h3, if_pos h3, if_pos h3]
          exact ⟨rfl, rfl⟩
        · rw [if_neg h3, if_neg h3, if_neg h3, if_neg h3]
          rw [if_neg (by decide : ¬((0 : Nat) = ASCE_TYPE_REGION1)),
            if_neg (by decide : ¬((0 : Nat) = ASCE_TYPE_REGION1)),
            if_neg (by decide : ¬((0 : Nat) = ASCE_TYPE_REGION1)),
            if_neg (by decide : ¬((0 : Nat) = ASCE_TYPE_REGION1)),
            if_neg (by decide : ¬((0 : Nat) = ASCE_TYPE_REGION2)),
            if_neg (by decide : ¬((0 : Nat) = ASCE_TYPE_REGION2)),
            if_neg (by decide : ¬((0 : Nat) = ASCE_TYPE_REGION2)),
            if_neg (by decide : ¬((0 : Nat) = ASCE_TYPE_REGION2)),
            if_neg (by decide : ¬((0 : Nat) = ASCE_TYPE_REGION3)),
            if_neg (by decide : ¬((0 : Nat) = ASCE_TYPE_REGION3)),
            if_neg (by decide : ¬((0 : Nat) = ASCE_TYPE_REGION3)),
            if_neg (by decide : ¬((0 : Nat) = ASCE_TYPE_REGION3))]
          exact ⟨hseg.1, hseg.2⟩
      · -- region-3 type asce: L ≤ 2
        rw [ha] at h2 ⊢
        have hL2 : L ≤ 2 := by
          simpa using Nat.not_lt.mp h2
        have hrng : t64 g' &&& (U64 - 2 ^ (31 + ((4 : Nat) >>> 2) * 11)) =
            t64 g &&& (U64 - 2 ^ (31 + ((4 : Nat) >>> 2) * 11)) := by
          have h0 : (31 + ((4 : Nat) >>> 2) * 11) = 42 := by decide
          rw [h0]
          exact hr42 hL2
        rw [hrng]
        have hr3 := walkR3_gcongr s s.table (t64 g) (t64 g') L hL hL2
          (h31 hL2) (fun hle => h20 hle)
        by_cases h3 : (4 : Nat) ≠ ASCE_TYPE_REGION1 ∧
            t64 g &&& (U64 - 2 ^ (31 + ((4 : Nat) >>> 2) * 11)) ≠ 0
        · rw [if_pos h3, if_pos h3, if_pos h3, if_pos h3]
          exact ⟨rfl, rfl⟩
        · rw [if_neg h3, if_neg h3, if_neg h3, if_neg h3]
          rw [if_neg (by decide : ¬((4 : Nat) = ASCE_TYPE_REGION1)),
            if_neg (by decide : ¬((4 : Nat) = ASCE_TYPE_REGION1)),
            if_neg (by decide : ¬((4 : Nat) = ASCE_TYPE_REGION1)),
            if_neg (by decide : ¬((4 : Nat) = ASCE_TYPE_REGION1)),
            if_neg (by decide : ¬((4 : Nat) = ASCE_TYPE_REGION2)),
            if_neg (by decide : ¬((4 : Nat) = ASCE_TYPE_REGION2)),
            if_neg (by decide : ¬((4 : Nat) = ASCE_TYPE_REGION2)),
            if_neg (by decide : ¬((4 : Nat) = ASCE_TYPE_REGION2)),
            if_pos (by decide : (4 : Nat) = ASCE_TYPE_REGION3),
            if_pos (by decide : (4 : Nat) = ASCE_TYPE_REGION3),
            if_pos (by decide : (4 : Nat) = ASCE_TYPE_REGION3),
            if_pos (by decide : (4 : Nat) = ASCE_TYPE_REGION3)]
          exact ⟨hr3.1, hr3.2⟩
      · -- region-2 type asce: L ≤ 3
        rw [ha] at h2 ⊢
        have hL3 : L ≤ 3 := by
          simpa using Nat.not_lt.mp h2
        have hrng : t64 g' &&& (U64 - 2 ^ (31 + ((8 : Nat) >>> 2) * 11)) =
            t64 g &&& (U64 - 2 ^ (31 + ((8 : Nat) >>> 2) * 11)) := by
          have h0 : (31 + ((8 : Nat) >>> 2) * 11) = 53 := by decide
          rw [h0]
          exact hr53 hL3
        rw [hrng]
        have hr2 := walkR2_gcongr s s.table (t64 g) (t64 g') L hL hL3
          (h42 hL3) (fun hle => h31 hle) (fun hle => h20 hle)
        by_cases h3 : (8 : Nat) ≠ ASCE_TYPE_REGION1 ∧
            t64 g &&& (U64 - 2 ^ (31 + ((8 : Nat) >>> 2) * 11)) ≠ 0
        · rw [if_pos h3, if_pos h3, if_pos h3, if_pos h3]
          exact ⟨rfl, rfl⟩
        · rw [if_neg h3, if_neg h3, if_neg h3, if_neg h3]
          rw [if_neg (by decide : ¬((8 : Nat) = ASCE_TYPE_REGION1)),
            if_neg (by decide : ¬((8 : Nat) = ASCE_TYPE_REGION1)),
            if_neg (by decide : ¬((8 : Nat) = ASCE_TYPE_REGION1)),
            if_neg (by decide : ¬((8 : Nat) = ASCE_TYPE_REGION1)),
            if_pos (by decide : (8 : Nat) = ASCE_TYPE_REGION2),
            if_pos (by decide : (8 : Nat) = ASCE_TYPE_REGION2),
            if_pos (by decide : (8 : Nat) = ASCE_TYPE_REGION2),
            if_pos (by decide : (8 : Nat) = ASCE_TYPE_REGION2)]
          exact ⟨hr2.1, hr2.2⟩
      · -- region-1 type asce: L ≤ 4, no range check
        rw [ha] at h2 ⊢
        have hL4 : L ≤ 4 := by
          simpa using Nat.not_lt.mp h2
        have hr1 := walkR1_gcongr s s.table (t64 g) (t64 g') L hL hL4 h53
          (fun hle => h42 hle) (fun hle => h31 hle) (fun hle => h20 hle)
        rw [if_neg (fun h => h.1 (by decide) :
              ¬((12 : Nat) ≠ ASCE_TYPE_REGION1 ∧
              t64 g' &&& (U64 - 2 ^ (31 + ((12 : Nat) >>> 2) * 11)) ≠ 0)),
          if_neg (fun h => h.1 (by decide) :
              ¬((12 : Nat) ≠ ASCE_TYPE_REGION1 ∧
              t64 g &&& (U64 - 2 ^ (31 + ((12 : Nat) >>> 2) * 11)) ≠ 0)),
          if_neg (fun h => h.1 (by decide) :
              ¬((12 : Nat) ≠ ASCE_TYPE_REGION1 ∧
              t64 g' &&& (U64 - 2 ^ (31 + ((12 : Nat) >>> 2) * 11)) ≠ 0)),
          if_neg (fun h => h.1 (by decide) :
              ¬((12 : Nat) ≠ ASCE_TYPE_REGION1 ∧
              t64 g &&& (U64 - 2 ^ (31 + ((12 : Nat) >>> 2) * 11)) ≠ 0)),
          if_pos (by decide : (12 : Nat) = ASCE_TYPE_REGION1),
          if_pos (by decide : (12 : Nat) = ASCE_TYPE_REGION1),
          if_pos (by decide : (12 : Nat) = ASCE_TYPE_REGION1),
          if_pos (by decide : (12 : Nat) = ASCE_TYPE_REGION1)]
        exact ⟨hr1.1, hr1.2⟩

/-- Masking an address built from high bits of x plus a low tag with a mask
that only has bits at or above the tag boundary gives the same result as
masking x itself. -/
lemma tag_mask_congr (x tag b M : Nat) (htag : tag < 2 ^ b) (hb : b ≤ 64)
    (hM : M < U64) (hMlow : ∀ i, i < b → M.testBit i = false) :
    t64 ((x &&& (U64 - 2 ^ b)) ||| tag) &&& M = t64 x &&& M := by
  apply Nat.eq_of_testBit_eq
  intro i
  rw [Nat.testBit_and, Nat.testBit_and]
  by_cases hib : i < b
  · rw [hMlow i hib]
    simp
  · congr 1
    unfold t64 U64
    rw [Nat.testBit_mod_two_pow, Nat.testBit_mod_two_pow]
    by_cases hi64 : i < 64
    · simp only [hi64, decide_True, Bool.true_and]
      rw [Nat.testBit_lor, Nat.testBit_and]
      have htagbit : tag.testBit i = false :=
        Nat.testBit_lt_two_pow (lt_of_lt_of_le htag
          (Nat.pow_le_pow_right (by norm_num) (Nat.le_of_not_lt hib)))
      have hhim : (2 ^ 64 - 2 ^ b : Nat).testBit i = true := by
        have hMeq : (2 ^ 64 - 2 ^ b : Nat) = (2 ^ (64 - b) - 1) <<< b := by
          rw [Nat.shiftLeft_eq, Nat.sub_mul, one_mul, ← Nat.pow_add]
          congr 2
          omega
        rw [hMeq, Nat.testBit_shiftLeft, Nat.testBit_two_pow_sub_one]
        have h1 : b ≤ i := Nat.le_of_not_lt hib
        have h2 : i - b < 64 - b := by omega
        simp [h1, h2]
      rw [htagbit, hhim]
      simp
    · simp [hi64]

/-- gmap_insert_rmap changes only the host_to_rmap tree. -/
lemma gmap_insert_rmap_frame (s : GmapS) (vmaddr raddr : Nat) :
    (gmap_insert_rmap s vmaddr raddr).mem = s.mem ∧
    (gmap_insert_rmap s vmaddr raddr).asce = s.asce ∧
    (gmap_insert_rmap s vmaddr raddr).table = s.table ∧
    (gmap_insert_rmap s vmaddr raddr).is_shadow = s.is_shadow ∧
    (gmap_insert_rmap s vmaddr raddr).removed = s.removed ∧
    (gmap_insert_rmap s vmaddr raddr).live = s.live ∧
    (gmap_insert_rmap s vmaddr raddr).edat_level = s.edat_level := by
  unfold gmap_insert_rmap
  split
  · split
    · exact ⟨rfl, rfl, rfl, rfl, rfl, rfl, rfl⟩
    · exact ⟨rfl, rfl, rfl, rfl, rfl, rfl, rfl⟩
  · exact ⟨rfl, rfl, rfl, rfl, rfl, rfl, rfl⟩

/-- Unfolding equation: gmap_protect_rmap at length 0. -/
lemma gmap_protect_rmap_zero (parent : GmapS) (raddr : Nat) (s : GmapS)
    (att : List PteAttempt) (paddr : Nat) :
    gmap_protect_rmap parent raddr s att paddr 0 = (some 0, s) := by
  cases att <;> rfl

/-- Unfolding equation: gmap_protect_rmap with an exhausted attempt stream. -/
lemma gmap_protect_rmap_nil (parent : GmapS) (raddr : Nat) (s : GmapS)
    (paddr n : Nat) :
    gmap_protect_rmap parent raddr s [] paddr (n + 1) = (none, s) := rfl

/-- Unfolding equation: one iteration of gmap_protect_rmap. -/
lemma gmap_protect_rmap_cons (parent : GmapS) (raddr : Nat) (s : GmapS)
    (a : PteAttempt) (rest : List PteAttempt) (paddr n : Nat) :
    gmap_protect_rmap parent raddr s (a :: rest) paddr (n + 1) =
      (if IS_ERR_VALUE (gmap_translate parent paddr) then
        (some ((gmap_translate parent paddr : Int) - (U64 : Int)), s)
      else if !a.alloc_ok then (some (-ENOMEM), s)
      else if !a.preload_ok then (some (-ENOMEM), s)
      else if a.walk_ok then
        if a.prot_rc = 0 then
          gmap_protect_rmap parent raddr
            (gmap_insert_rmap s (gmap_translate parent paddr) raddr) rest
            (paddr + PAGE_SIZE) (n + 1 - PAGE_SIZE)
        else if a.fixup_rc ≠ 0 then (some a.fixup_rc, s)
        else gmap_protect_rmap parent raddr s rest paddr (n + 1)
      else
        if a.fixup_rc ≠ 0 then (some a.fixup_rc, s)
        else gmap_protect_rmap parent raddr s rest paddr (n + 1)) := rfl

/-- gmap_protect_rmap changes only the host_to_rmap tree: table memory,
control fields and the allocation ledger pass through. -/
lemma gmap_protect_rmap_frame (parent : GmapS) (raddr : Nat) :
    ∀ (att : List PteAttempt) (s : GmapS) (paddr len : Nat),
      (gmap_protect_rmap parent raddr s att paddr len).2.mem = s.mem ∧
      (gmap_protect_rmap parent raddr s att paddr len).2.asce = s.asce ∧
      (gmap_protect_rmap parent raddr s att paddr len).2.table = s.table ∧
      (gmap_protect_rmap parent raddr s att paddr len).2.is_shadow = s.is_shadow ∧
      (gmap_protect_rmap parent raddr s att paddr len).2.removed = s.removed ∧
      (gmap_protect_rmap parent raddr s att paddr len).2.live = s.live ∧
      (gmap_protect_rmap parent raddr s att paddr len).2.edat_level = s.edat_level := by
  intro att
  induction att with
  | nil =>
    intro s paddr len
    cases len with
    | zero =>
      rw [gmap_protect_rmap_zero]
      exact ⟨rfl, rfl, rfl, rfl, rfl, rfl, rfl⟩
    | succ n =>
      rw [gmap_protect_rmap_nil]
      exact ⟨rfl, rfl, rfl, rfl, rfl, rfl, rfl⟩
  | cons a rest ih =>
    intro s paddr len
    cases len with
    | zero =>
      rw [gmap_protect_rmap_zero]
      exact ⟨rfl, rfl, rfl, rfl, rfl, rfl, rfl⟩
    | succ n =>
      rw [gmap_protect_rmap_cons]
      split
      · exact ⟨rfl, rfl, rfl, rfl, rfl, rfl, rfl⟩
      · split
        · exact ⟨rfl, rfl, rfl, rfl, rfl, rfl, rfl⟩
        · split
          · exact ⟨rfl, rfl, rfl, rfl, rfl, rfl, rfl⟩
          · split
            · split
              · obtain ⟨m1, m2, m3, m4, m5, m6, m7⟩ :=
                  ih (gmap_insert_rmap s (gmap_translate parent paddr) raddr)
                    (paddr + PAGE_SIZE) (n + 1 - PAGE_SIZE)
                obtain ⟨i1, i2, i3, i4, i5, i6, i7⟩ :=
                  gmap_insert_rmap_frame s (gmap_translate parent paddr) raddr
                exact ⟨m1.trans i1, m2.trans i2, m3.trans i3, m4.trans i4,
                  m5.trans i5, m6.trans i6, m7.trans i7⟩
              · split
                · exact ⟨rfl, rfl, rfl, rfl, rfl, rfl, rfl⟩
                · exact ih s paddr (n + 1)
            · split
              · exact ⟨rfl, rfl, rfl, rfl, rfl, rfl, rfl⟩
              · exact ih s paddr (n + 1)

/-- An entry-wise fold that leaves the state unchanged at every step is the
identity. -/
lemma foldl_fix {α : Type} (f : GmapS → α → GmapS) (l : List α) (s : GmapS)
    (h : ∀ x ∈ l, f s x = s) : l.foldl f s = s := by
  induction l with
  | nil => rfl
  | cons a rest ih =>
    rw [List.foldl_cons, h a (List.mem_cons_self a rest), ih]
    intro x hx
    exact h x (List.mem_cons_of_mem _ hx)

/-- Reading inside the range initialized by crst_table_init. -/
lemma crstInit_mem_in (s : GmapS) (t v x : Nat) (h : t ≤ x ∧ x < t + 8 * CRST_ENTRIES) :
    (crstInit s t v).mem x = t64 v := by
  unfold crstInit
  simp [h]

/-- Masking the high bits back out of an installed entry (aligned origin ORed
with low control bits) recovers the origin. -/
lemma or_tag_and_himask (pg tag b : Nat) (hal : pg % 2 ^ b = 0) (hpg : pg < 2 ^ 64)
    (htag : tag < 2 ^ b) (hb : b ≤ 64) :
    t64 (pg ||| tag) &&& (2 ^ 64 - 2 ^ b) = pg := by
  obtain ⟨q, hq⟩ := Nat.dvd_of_mod_eq_zero hal
  have h264 : (2 : Nat) ^ 64 = 2 ^ b * 2 ^ (64 - b) := by
    rw [← pow_add]
    congr 1
    omega
  have hqlt : q < 2 ^ (64 - b) := by
    by_contra hcon
    push_neg at hcon
    have : 2 ^ b * 2 ^ (64 - b) ≤ 2 ^ b * q := Nat.mul_le_mul_left _ hcon
    omega
  have hlt : pg + tag < 2 ^ 64 := by
    have h1 : pg + tag < 2 ^ b * (q + 1) := by
      rw [hq, Nat.mul_add, Nat.mul_one]
      omega
    have h2 : 2 ^ b * (q + 1) ≤ 2 ^ b * 2 ^ (64 - b) := Nat.mul_le_mul_left _ (by omega)
    omega
  have hor : pg ||| tag = pg + tag := lor_eq_add_of_aligned hal htag
  rw [hor, t64_eq_of_lt hlt, land_himask _ b hlt hb]
  have hdiv : (pg + tag) / 2 ^ b = q := by
    rw [hq, Nat.mul_add_div (Nat.pos_pow_of_pos b (by norm_num)),
      Nat.div_eq_of_lt htag]
    omega
  rw [hdiv, hq, Nat.mul_comm]

/-- Error unwind of gmap_shadow_r2t: with a reachable, non-Building target
slot and a sane fresh page, the call either succeeds, runs out of modeled
protect attempts, or returns an error with the slot not in the Building
state and the fresh page freed. -/
lemma gmap_shadow_r2t_unwind (s parent : GmapS) (saddr rt pg p : Nat)
    (fake : Bool) (att : List PteAttempt)
    (hw : gmap_table_walk s saddr 4 = some p)
    (hnb : s.mem p &&& REGION_ENTRY_INVALID = 0 ∨ s.mem p &&& REGION_ENTRY_ORIGIN = 0)
    (hpr : p < pg ∨ pg + 8 * CRST_ENTRIES ≤ p)
    (hreads : ∀ a ∈ gmapWalkReads s saddr 4, a ≠ p ∧ (a < pg ∨ pg + 8 * CRST_ENTRIES ≤ a))
    (hpg0 : pg ≠ 0) (hal : pg % PAGE_SIZE = 0) (hpgU : pg < U64) :
    (gmap_shadow_r2t s parent saddr rt fake (some pg) att).1 = some 0 ∨
    (gmap_shadow_r2t s parent saddr rt fake (some pg) att).1 = none ∨
    (((gmap_shadow_r2t s parent saddr rt fake (some pg) att).2.mem p &&&
        REGION_ENTRY_INVALID = 0 ∨
      (gmap_shadow_r2t s parent saddr rt fake (some pg) att).2.mem p &&&
        REGION_ENTRY_ORIGIN = 0) ∧
     (gmap_shadow_r2t s parent saddr rt fake (some pg) att).2.live pg = false) := by
  have hw0 : gmap_table_walk (allocPage s pg) saddr 4 = some p := by
    rw [gmap_table_walk_allocPage]; exact hw
  have hS2out : ∀ v x, x ≠ p → (x < pg ∨ pg + 8 * CRST_ENTRIES ≤ x) →
      (setMem (crstInit (allocPage s pg) pg REGION2_ENTRY_EMPTY) p v).mem x = s.mem x := by
    intro v x hxp hxr
    rw [setMem_mem_other _ _ _ _ hxp, crstInit_mem_out]
    · rfl
    · intro hcc
      rcases hxr with h | h <;> omega
  have hS2in : ∀ v i, i < CRST_ENTRIES → pg + 8 * i ≠ p →
      (setMem (crstInit (allocPage s pg) pg REGION2_ENTRY_EMPTY) p v).mem (pg + 8 * i) =
        t64 REGION2_ENTRY_EMPTY := by
    intro v i hi hne
    rw [setMem_mem_other _ _ _ _ hne, crstInit_mem_in]
    constructor <;> omega
  have hVorigin : ∀ (c : Prop) (inst : Decidable c),
      t64 (if c then pg ||| REGION_ENTRY_LENGTH ||| REGION_ENTRY_TYPE_R1 |||
          REGION_ENTRY_INVALID ||| (rt &&& REGION_ENTRY_PROTECT)
        else pg ||| REGION_ENTRY_LENGTH ||| REGION_ENTRY_TYPE_R1 |||
          REGION_ENTRY_INVALID) &&& REGION_ENTRY_ORIGIN = pg := by
    intro c inst
    split
    · simp only [Nat.lor_assoc]
      exact or_tag_and_himask pg _ 12 hal hpgU
        (Nat.or_lt_two_pow (by decide) (Nat.or_lt_two_pow (by decide)
          (Nat.or_lt_two_pow (by decide)
            (lt_of_le_of_lt Nat.and_le_right (by decide))))) (by norm_num)
    · simp only [Nat.lor_assoc]
      exact or_tag_and_himask pg _ 12 hal hpgU (by decide) (by norm_num)
  unfold gmap_shadow_r2t
  dsimp only
  rw [hw0]
  dsimp only
  by_cases hc1 : (allocPage s pg).mem p &&& REGION_ENTRY_INVALID = 0
  · rw [if_pos hc1]
    left
    rfl
  · rw [if_neg hc1]
    have hc2 : ¬((allocPage s pg).mem p &&& REGION_ENTRY_ORIGIN ≠ 0) := by
      rcases hnb with hnb1 | hnb2
      · exact absurd hnb1 hc1
      · intro hcon
        exact hcon hnb2
    rw [if_neg hc2]
    by_cases hf : fake = true
    · rw [if_pos hf]
      left
      rfl
    · rw [if_neg hf]
      split
      · right
        left
        rfl
      · rename_i prc s3 heq
        have h2 : (gmap_protect_rmap parent ((saddr &&& REGION1_MASK) ||| SHADOW_RMAP_REGION1)
            (setMem (crstInit (allocPage s pg) pg REGION2_ENTRY_EMPTY) p
              (if 1 ≤ (crstInit (allocPage s pg) pg REGION2_ENTRY_EMPTY).edat_level then
                pg ||| REGION_ENTRY_LENGTH ||| REGION_ENTRY_TYPE_R1 |||
                  REGION_ENTRY_INVALID ||| (rt &&& REGION_ENTRY_PROTECT)
              else pg ||| REGION_ENTRY_LENGTH ||| REGION_ENTRY_TYPE_R1 |||
                REGION_ENTRY_INVALID))
            att ((rt &&& REGION_ENTRY_ORIGIN) + ((rt &&& REGION_ENTRY_OFFSET) >>> 6) * PAGE_SIZE)
            (((rt &&& REGION_ENTRY_LENGTH) + 1) * PAGE_SIZE -
              ((rt &&& REGION_ENTRY_OFFSET) >>> 6) * PAGE_SIZE)).2 = s3 := by
          rw [heq]
        have hasce : s3.asce = s.asce := by
          rw [← h2, (gmap_protect_rmap_frame _ _ _ _ _ _).2.1]
          rfl
        have htbl : s3.table = s.table := by
          rw [← h2, (gmap_protect_rmap_frame _ _ _ _ _ _).2.2.1]
          rfl
        have hish : s3.is_shadow = s.is_shadow := by
          rw [← h2, (gmap_protect_rmap_frame _ _ _ _ _ _).2.2.2.1]
          rfl
        have hrem : s3.removed = s.removed := by
          rw [← h2, (gmap_protect_rmap_frame _ _ _ _ _ _).2.2.2.2.1]
          rfl
        have hmemo : ∀ x, x ≠ p → (x < pg ∨ pg + 8 * CRST_ENTRIES ≤ x) →
            s3.mem x = s.mem x := by
          intro x hxp hxr
          rw [← h2, (gmap_protect_rmap_frame _ _ _ _ _ _).1]
          exact hS2out _ x hxp hxr
        have hmemp : s3.mem p &&& REGION_ENTRY_ORIGIN = pg := by
          rw [← h2, (gmap_protect_rmap_frame _ _ _ _ _ _).1, setMem_mem_self]
          exact hVorigin _ _
        have hmemin : ∀ i, i < CRST_ENTRIES → pg + 8 * i ≠ p →
            s3.mem (pg + 8 * i) = t64 REGION2_ENTRY_EMPTY := by
          intro i hi hne
          rw [← h2, (gmap_protect_rmap_frame _ _ _ _ _ _).1]
          exact hS2in _ i hi hne
        have hreadsagree : ∀ a ∈ gmapWalkReads s saddr 4, s3.mem a = s.mem a := by
          intro a ha
          obtain ⟨hap, har⟩ := hreads a ha
          exact hmemo a hap har
        have hwalk3 : gmap_table_walk s3 saddr 4 = some p := by
          rw [gmap_table_walk_stable s s3 saddr 4 hasce htbl hish hrem hreadsagree, hw]
        by_cases hprc : prc = 0
        · rw [if_pos hprc]
          rw [hwalk3]
          dsimp only
          rw [if_neg (show ¬(s3.mem p &&& REGION_ENTRY_ORIGIN ≠ pg) from
            fun hcon => hcon hmemp)]
          left
          rfl
        · rw [if_neg hprc]
          have hgc := gmap_table_walk_gcongr s saddr
            ((saddr &&& REGION1_MASK) ||| SHADOW_RMAP_REGION1) 4 (by norm_num)
            (tag_mask_congr saddr SHADOW_RMAP_REGION1 53 REGION1_INDEX (by decide)
              (by norm_num) (by decide) (by decide))
            (fun h => absurd h (by norm_num))
            (fun h => absurd h (by norm_num))
            (fun h => absurd h (by norm_num))
            (fun h => absurd h (by norm_num))
            (fun h => absurd h (by norm_num))
            (fun h => absurd h (by norm_num))
          have hwalkra : gmap_table_walk s3
              ((saddr &&& REGION1_MASK) ||| SHADOW_RMAP_REGION1) 4 = some p := by
            rw [gmap_table_walk_stable s s3
              ((saddr &&& REGION1_MASK) ||| SHADOW_RMAP_REGION1) 4 hasce htbl hish hrem
              (by
                intro a ha
                rw [hgc.2] at ha
                exact hreadsagree a ha), hgc.1, hw]
          have hne0 : ¬(s3.mem p &&& REGION_ENTRY_ORIGIN = 0) := by
            rw [hmemp]
            exact hpg0
          have hr2tv : (notifyRange s3 ((saddr &&& REGION1_MASK) ||| SHADOW_RMAP_REGION1)
              (t64 (((saddr &&& REGION1_MASK) ||| SHADOW_RMAP_REGION1) + REGION1_SIZE - 1))).mem
                p &&& REGION_ENTRY_ORIGIN = pg := by
            rw [notifyRange_mem]
            exact hmemp
          have hfold : gmap_unshadow_r2t_table
              (setMem (notifyRange s3 ((saddr &&& REGION1_MASK) ||| SHADOW_RMAP_REGION1)
                (t64 (((saddr &&& REGION1_MASK) ||| SHADOW_RMAP_REGION1) + REGION1_SIZE - 1)))
                p REGION1_ENTRY_EMPTY)
              ((saddr &&& REGION1_MASK) ||| SHADOW_RMAP_REGION1) pg =
              setMem (notifyRange s3 ((saddr &&& REGION1_MASK) ||| SHADOW_RMAP_REGION1)
                (t64 (((saddr &&& REGION1_MASK) ||| SHADOW_RMAP_REGION1) + REGION1_SIZE - 1)))
                p REGION1_ENTRY_EMPTY := by
            unfold gmap_unshadow_r2t_table
            apply foldl_fix
            intro i hi
            have hii : i < CRST_ENTRIES := List.mem_range.mp hi
            have hne : pg + 8 * i ≠ p := by
              rcases hpr with h | h <;> omega
            have hval : (setMem (notifyRange s3
                ((saddr &&& REGION1_MASK) ||| SHADOW_RMAP_REGION1)
                (t64 (((saddr &&& REGION1_MASK) ||| SHADOW_RMAP_REGION1) + REGION1_SIZE - 1)))
                p REGION1_ENTRY_EMPTY).mem (pg + 8 * i) = t64 REGION2_ENTRY_EMPTY := by
              rw [setMem_mem_other _ _ _ _ hne, notifyRange_mem]
              exact hmemin i hii hne
            dsimp only
            rw [hval, if_pos (by decide)]
          have hfinal : gmap_unshadow_r2t s3
              ((saddr &&& REGION1_MASK) ||| SHADOW_RMAP_REGION1) =
              freePage (setMem (notifyRange s3
                ((saddr &&& REGION1_MASK) ||| SHADOW_RMAP_REGION1)
                (t64 (((saddr &&& REGION1_MASK) ||| SHADOW_RMAP_REGION1) + REGION1_SIZE - 1)))
                p REGION1_ENTRY_EMPTY) pg := by
            unfold gmap_unshadow_r2t
            rw [hwalkra]
            dsimp only
            rw [if_neg hne0, hr2tv, hfold]
          right
          right
          rw [hfinal]
          constructor
          · right
            rw [freePage_mem, setMem_mem_self]
            decide
          · unfold freePage
            simp

/-- Error unwind of gmap_shadow_r3t: with a reachable, non-Building target
slot and a sane fresh page, the call either succeeds, runs out of modeled
protect attempts, or returns an error with the slot not in the Building
state and the fresh page freed. -/
lemma gmap_shadow_r3t_unwind (s parent : GmapS) (saddr rt pg p : Nat)
    (fake : Bool) (att : List PteAttempt)
    (hw : gmap_table_walk s saddr 3 = some p)
    (hnb : s.mem p &&& REGION_ENTRY_INVALID = 0 ∨ s.mem p &&& REGION_ENTRY_ORIGIN = 0)
    (hpr : p < pg ∨ pg + 8 * CRST_ENTRIES ≤ p)
    (hreads : ∀ a ∈ gmapWalkReads s saddr 3, a ≠ p ∧ (a < pg ∨ pg + 8 * CRST_ENTRIES ≤ a))
    (hpg0 : pg ≠ 0) (hal : pg % PAGE_SIZE = 0) (hpgU : pg < U64) :
    (gmap_shadow_r3t s parent saddr rt fake (some pg) att).1 = some 0 ∨
    (gmap_shadow_r3t s parent saddr rt fake (some pg) att).1 = none ∨
    (((gmap_shadow_r3t s parent saddr rt fake (some pg) att).2.mem p &&&
        REGION_ENTRY_INVALID = 0 ∨
      (gmap_shadow_r3t s parent saddr rt fake (some pg) att).2.mem p &&&
        REGION_ENTRY_ORIGIN = 0) ∧
     (gmap_shadow_r3t s parent saddr rt fake (some pg) att).2.live pg = false) := by
  have hw0 : gmap_table_walk (allocPage s pg) saddr 3 = some p := by
    rw [gmap_table_walk_allocPage]; exact hw
  have hS2out : ∀ v x, x ≠ p → (x < pg ∨ pg + 8 * CRST_ENTRIES ≤ x) →
      (setMem (crstInit (allocPage s pg) pg REGION3_ENTRY_EMPTY) p v).mem x = s.mem x := by
    intro v x hxp hxr
    rw [setMem_mem_other _ _ _ _ hxp, crstInit_mem_out]
    · rfl
    · intro hcc
      rcases hxr with h | h <;> omega
  have hS2in : ∀ v i, i < CRST_ENTRIES → pg + 8 * i ≠ p →
      (setMem (crstInit (allocPage s pg) pg REGION3_ENTRY_EMPTY) p v).mem (pg + 8 * i) =
        t64 REGION3_ENTRY_EMPTY := by
    intro v i hi hne
    rw [setMem_mem_other _ _ _ _ hne, crstInit_mem_in]
    constructor <;> omega
  have hVorigin : ∀ (c : Prop) (inst : Decidable c),
      t64 (if c then pg ||| REGION_ENTRY_LENGTH ||| REGION_ENTRY_TYPE_R2 |||
          REGION_ENTRY_INVALID ||| (rt &&& REGION_ENTRY_PROTECT)
        else pg ||| REGION_ENTRY_LENGTH ||| REGION_ENTRY_TYPE_R2 |||
          REGION_ENTRY_INVALID) &&& REGION_ENTRY_ORIGIN = pg := by
    intro c inst
    split
    · simp only [Nat.lor_assoc]
      exact or_tag_and_himask pg _ 12 hal hpgU
        (Nat.or_lt_two_pow (by decide) (Nat.or_lt_two_pow (by decide)
          (Nat.or_lt_two_pow (by decide)
            (lt_of_le_of_lt Nat.and_le_right (by decide))))) (by norm_num)
    · simp only [Nat.lor_assoc]
      exact or_tag_and_himask pg _ 12 hal hpgU (by decide) (by norm_num)
  unfold gmap_shadow_r3t
  dsimp only
  rw [hw0]
  dsimp only
  by_cases hc1 : (allocPage s pg).mem p &&& REGION_ENTRY_INVALID = 0
  · rw [if_pos hc1]
    left
    rfl
  · rw [if_neg hc1]
    have hc2 : ¬((allocPage s pg).mem p &&& REGION_ENTRY_ORIGIN ≠ 0) := by
      rcases hnb with hnb1 | hnb2
      · exact absurd hnb1 hc1
      · intro hcon
        exact hcon hnb2
    rw [if_neg hc2]
    by_cases hf : fake = true
    · rw [if_pos hf]
      left
      rfl
    · rw [if_neg hf]
      split
      · right
        left
        rfl
      · rename_i prc s3 heq
        have h2 : (gmap_protect_rmap parent ((saddr &&& REGION2_MASK) ||| SHADOW_RMAP_REGION2)
            (setMem (crstInit (allocPage s pg) pg REGION3_ENTRY_EMPTY) p
              (if 1 ≤ (crstInit (allocPage s pg) pg REGION3_ENTRY_EMPTY).edat_level then
                pg ||| REGION_ENTRY_LENGTH ||| REGION_ENTRY_TYPE_R2 |||
                  REGION_ENTRY_INVALID ||| (rt &&& REGION_ENTRY_PROTECT)
              else pg ||| REGION_ENTRY_LENGTH ||| REGION_ENTRY_TYPE_R2 |||
                REGION_ENTRY_INVALID))
            att ((rt &&& REGION_ENTRY_ORIGIN) + ((rt &&& REGION_ENTRY_OFFSET) >>> 6) * PAGE_SIZE)
            (((rt &&& REGION_ENTRY_LENGTH) + 1) * PAGE_SIZE -
              ((rt &&& REGION_ENTRY_OFFSET) >>> 6) * PAGE_SIZE)).2 = s3 := by
          rw [heq]
        have hasce : s3.asce = s.asce := by
          rw [← h2, (gmap_protect_rmap_frame _ _ _ _ _ _).2.1]
          rfl
        have htbl : s3.table = s.table := by
          rw [← h2, (gmap_protect_rmap_frame _ _ _ _ _ _).2.2.1]
          rfl
        have hish : s3.is_shadow = s.is_shadow := by
          rw [← h2, (gmap_protect_rmap_frame _ _ _ _ _ _).2.2.2.1]
          rfl
        have hrem : s3.removed = s.removed := by
          rw [← h2, (gmap_protect_rmap_frame _ _ _ _ _ _).2.2.2.2.1]
          rfl
        have hmemo : ∀ x, x ≠ p → (x < pg ∨ pg + 8 * CRST_ENTRIES ≤ x) →
            s3.mem x = s.mem x := by
          intro x hxp hxr
          rw [← h2, (gmap_protect_rmap_frame _ _ _ _ _ _).1]
          exact hS2out _ x hxp hxr
        have hmemp : s3.mem p &&& REGION_ENTRY_ORIGIN = pg := by
          rw [← h2, (gmap_protect_rmap_frame _ _ _ _ _ _).1, setMem_mem_self]
          exact hVorigin _ _
        have hmemin : ∀ i, i < CRST_ENTRIES → pg + 8 * i ≠ p →
            s3.mem (pg + 8 * i) = t64 REGION3_ENTRY_EMPTY := by
          intro i hi hne
          rw [← h2, (gmap_protect_rmap_frame _ _ _ _ _ _).1]
          exact hS2in _ i hi hne
        have hreadsagree : ∀ a ∈ gmapWalkReads s saddr 3, s3.mem a = s.mem a := by
          intro a ha
          obtain ⟨hap, har⟩ := hreads a ha
          exact hmemo a hap har
        have hwalk3 : gmap_table_walk s3 saddr 3 = some p := by
          rw [gmap_table_walk_stable s s3 saddr 3 hasce htbl hish hrem hreadsagree, hw]
        by_cases hprc : prc = 0
        · rw [if_pos hprc]
          rw [hwalk3]
          dsimp only
          rw [if_neg (show ¬(s3.mem p &&& REGION_ENTRY_ORIGIN ≠ pg) from
            fun hcon => hcon hmemp)]
          left
          rfl
        · rw [if_neg hprc]
          have hgc := gmap_table_walk_gcongr s saddr
            ((saddr &&& REGION2_MASK) ||| SHADOW_RMAP_REGION2) 3 (by norm_num)
            (tag_mask_congr saddr SHADOW_RMAP_REGION2 42 REGION1_INDEX (by decide)
              (by norm_num) (by decide) (by decide))
            (fun _ => tag_mask_congr saddr SHADOW_RMAP_REGION2 42 REGION2_INDEX (by decide)
              (by norm_num) (by decide) (by decide))
            (fun h => absurd h (by norm_num))
            (fun h => absurd h (by norm_num))
            (fun h => absurd h (by norm_num))
            (fun h => absurd h (by norm_num))
            (fun _ => tag_mask_congr saddr SHADOW_RMAP_REGION2 42 (U64 - 2 ^ 53) (by decide)
              (by norm_num) (by decide) (by decide))
          have hwalkra : gmap_table_walk s3
              ((saddr &&& REGION2_MASK) ||| SHADOW_RMAP_REGION2) 3 = some p := by
            rw [gmap_table_walk_stable s s3
              ((saddr &&& REGION2_MASK) ||| SHADOW_RMAP_REGION2) 3 hasce htbl hish hrem
              (by
                intro a ha
                rw [hgc.2] at ha
                exact hreadsagree a ha), hgc.1, hw]
          have hne0 : ¬(s3.mem p &&& REGION_ENTRY_ORIGIN = 0) := by
            rw [hmemp]
            exact hpg0
          have hr2tv : (notifyRange s3 ((saddr &&& REGION2_MASK) ||| SHADOW_RMAP_REGION2)
              (t64 (((saddr &&& REGION2_MASK) ||| SHADOW_RMAP_REGION2) + REGION2_SIZE - 1))).mem
                p &&& REGION_ENTRY_ORIGIN = pg := by
            rw [notifyRange_mem]
            exact hmemp
          have hfold : gmap_unshadow_r3t_table
              (setMem (notifyRange s3 ((saddr &&& REGION2_MASK) ||| SHADOW_RMAP_REGION2)
                (t64 (((saddr &&& REGION2_MASK) ||| SHADOW_RMAP_REGION2) + REGION2_SIZE - 1)))
                p REGION2_ENTRY_EMPTY)
              ((saddr &&& REGION2_MASK) ||| SHADOW_RMAP_REGION2) pg =
              setMem (notifyRange s3 ((saddr &&& REGION2_MASK) ||| SHADOW_RMAP_REGION2)
                (t64 (((saddr &&& REGION2_MASK) ||| SHADOW_RMAP_REGION2) + REGION2_SIZE - 1)))
                p REGION2_ENTRY_EMPTY := by
            unfold gmap_unshadow_r3t_table
            apply foldl_fix
            intro i hi
            have hii : i < CRST_ENTRIES := List.mem_range.mp hi
            have hne : pg + 8 * i ≠ p := by
              rcases hpr with h | h <;> omega
            have hval : (setMem (notifyRange s3
                ((saddr &&& REGION2_MASK) ||| SHADOW_RMAP_REGION2)
                (t64 (((saddr &&& REGION2_MASK) ||| SHADOW_RMAP_REGION2) + REGION2_SIZE - 1)))
                p REGION2_ENTRY_EMPTY).mem (pg + 8 * i) = t64 REGION3_ENTRY_EMPTY := by
              rw [setMem_mem_other _ _ _ _ hne, notifyRange_mem]
              exact hmemin i hii hne
            dsimp only
            rw [hval, if_pos (by decide)]
          have hfinal : gmap_unshadow_r3t s3
              ((saddr &&& REGION2_MASK) ||| SHADOW_RMAP_REGION2) =
              freePage (setMem (notifyRange s3
                ((saddr &&& REGION2_MASK) ||| SHADOW_RMAP_REGION2)
                (t64 (((saddr &&& REGION2_MASK) ||| SHADOW_RMAP_REGION2) + REGION2_SIZE - 1)))
                p REGION2_ENTRY_EMPTY) pg := by
            unfold gmap_unshadow_r3t
            rw [hwalkra]
            dsimp only
            rw [if_neg hne0, hr2tv, hfold]
          right
          right
          rw [hfinal]
          constructor
          · right
            rw [freePage_mem, setMem_mem_self]
            decide
          · unfold freePage
            simp


/-- Error unwind of gmap_shadow_sgt: with a reachable, non-Building target
slot and a sane fresh page, the call either succeeds, runs out of modeled
protect attempts, or returns an error with the slot not in the Building
state and the fresh page freed. -/
lemma gmap_shadow_sgt_unwind (s parent : GmapS) (saddr rt pg p : Nat)
    (fake : Bool) (att : List PteAttempt)
    (hw : gmap_table_walk s saddr 2 = some p)
    (hnb : s.mem p &&& REGION_ENTRY_INVALID = 0 ∨ s.mem p &&& REGION_ENTRY_ORIGIN = 0)
    (hpr : p < pg ∨ pg + 8 * CRST_ENTRIES ≤ p)
    (hreads : ∀ a ∈ gmapWalkReads s saddr 2, a ≠ p ∧ (a < pg ∨ pg + 8 * CRST_ENTRIES ≤ a))
    (hpg0 : pg ≠ 0) (hal : pg % PAGE_SIZE = 0) (hpgU : pg < U64) :
    (gmap_shadow_sgt s parent saddr rt fake (some pg) att).1 = some 0 ∨
    (gmap_shadow_sgt s parent saddr rt fake (some pg) att).1 = none ∨
    (((gmap_shadow_sgt s parent saddr rt fake (some pg) att).2.mem p &&&
        REGION_ENTRY_INVALID = 0 ∨
      (gmap_shadow_sgt s parent saddr rt fake (some pg) att).2.mem p &&&
        REGION_ENTRY_ORIGIN = 0) ∧
     (gmap_shadow_sgt s parent saddr rt fake (some pg) att).2.live pg = false) := by
  have hw0 : gmap_table_walk (allocPage s pg) saddr 2 = some p := by
    rw [gmap_table_walk_allocPage]; exact hw
  have hS2out : ∀ v x, x ≠ p → (x < pg ∨ pg + 8 * CRST_ENTRIES ≤ x) →
      (setMem (crstInit (allocPage s pg) pg SEGMENT_ENTRY_EMPTY) p v).mem x = s.mem x := by
    intro v x hxp hxr
    rw [setMem_mem_other _ _ _ _ hxp, crstInit_mem_out]
    · rfl
    · intro hcc
      rcases hxr with h | h <;> omega
  have hS2in : ∀ v i, i < CRST_ENTRIES → pg + 8 * i ≠ p →
      (setMem (crstInit (allocPage s pg) pg SEGMENT_ENTRY_EMPTY) p v).mem (pg + 8 * i) =
        t64 SEGMENT_ENTRY_EMPTY := by
    intro v i hi hne
    rw [setMem_mem_other _ _ _ _ hne, crstInit_mem_in]
    constructor <;> omega
  have hVorigin : ∀ (c : Prop) (inst : Decidable c),
      t64 (if c then pg ||| REGION_ENTRY_LENGTH ||| REGION_ENTRY_TYPE_R3 |||
          REGION_ENTRY_INVALID ||| (rt &&& REGION_ENTRY_PROTECT)
        else pg ||| REGION_ENTRY_LENGTH ||| REGION_ENTRY_TYPE_R3 |||
          REGION_ENTRY_INVALID) &&& REGION_ENTRY_ORIGIN = pg := by
    intro c inst
    split
    · simp only [Nat.lor_assoc]
      exact or_tag_and_himask pg _ 12 hal hpgU
        (Nat.or_lt_two_pow (by decide) (Nat.or_lt_two_pow (by decide)
          (Nat.or_lt_two_pow (by decide)
            (lt_of_le_of_lt Nat.and_le_right (by decide))))) (by norm_num)
    · simp only [Nat.lor_assoc]
      exact or_tag_and_himask pg _ 12 hal hpgU (by decide) (by norm_num)
  unfold gmap_shadow_sgt
  dsimp only
  rw [hw0]
  dsimp only
  by_cases hc1 : (allocPage s pg).mem p &&& REGION_ENTRY_INVALID = 0
  · rw [if_pos hc1]
    left
    rfl
  · rw [if_neg hc1]
    have hc2 : ¬((allocPage s pg).mem p &&& REGION_ENTRY_ORIGIN ≠ 0) := by
      rcases hnb with hnb1 | hnb2
      · exact absurd hnb1 hc1
      · intro hcon
        exact hcon hnb2
    rw [if_neg hc2]
    by_cases hf : fake = true
    · rw [if_pos hf]
      left
      rfl
    · rw [if_neg hf]
      split
      · right
        left
        rfl
      · rename_i prc s3 heq
        have h2 : (gmap_protect_rmap parent ((saddr &&& REGION3_MASK) ||| SHADOW_RMAP_REGION3)
            (setMem (crstInit (allocPage s pg) pg SEGMENT_ENTRY_EMPTY) p
              (if 1 ≤ (crstInit (allocPage s pg) pg SEGMENT_ENTRY_EMPTY).edat_level then
                pg ||| REGION_ENTRY_LENGTH ||| REGION_ENTRY_TYPE_R3 |||
                  REGION_ENTRY_INVALID ||| (rt &&& REGION_ENTRY_PROTECT)
              else pg ||| REGION_ENTRY_LENGTH ||| REGION_ENTRY_TYPE_R3 |||
                REGION_ENTRY_INVALID))
            att ((rt &&& REGION_ENTRY_ORIGIN) + ((rt &&& REGION_ENTRY_OFFSET) >>> 6) * PAGE_SIZE)
            (((rt &&& REGION_ENTRY_LENGTH) + 1) * PAGE_SIZE -
              ((rt &&& REGION_ENTRY_OFFSET) >>> 6) * PAGE_SIZE)).2 = s3 := by
          rw [heq]
        have hasce : s3.asce = s.asce := by
          rw [← h2, (gmap_protect_rmap_frame _ _ _ _ _ _).2.1]
          rfl
        have htbl : s3.table = s.table := by
          rw [← h2, (gmap_protect_rmap_frame _ _ _ _ _ _).2.2.1]
          rfl
        have hish : s3.is_shadow = s.is_shadow := by
          rw [← h2, (gmap_protect_rmap_frame _ _ _ _ _ _).2.2.2.1]
          rfl
        have hrem : s3.removed = s.removed := by
          rw [← h2, (gmap_protect_rmap_frame _ _ _ _ _ _).2.2.2.2.1]
          rfl
        have hmemo : ∀ x, x ≠ p → (x < pg ∨ pg + 8 * CRST_ENTRIES ≤ x) →
            s3.mem x = s.mem x := by
          intro x hxp hxr
          rw [← h2, (gmap_protect_rmap_frame _ _ _ _ _ _).1]
          exact hS2out _ x hxp hxr
        have hmemp : s3.mem p &&& REGION_ENTRY_ORIGIN = pg := by
          rw [← h2, (gmap_protect_rmap_frame _ _ _ _ _ _).1, setMem_mem_self]
          exact hVorigin _ _
        have hmemin : ∀ i, i < CRST_ENTRIES → pg + 8 * i ≠ p →
            s3.mem (pg + 8 * i) = t64 SEGMENT_ENTRY_EMPTY := by
          intro i hi hne
          rw [← h2, (gmap_protect_rmap_frame _ _ _ _ _ _).1]
          exact hS2in _ i hi hne
        have hreadsagree : ∀ a ∈ gmapWalkReads s saddr 2, s3.mem a = s.mem a := by
          intro a ha
          obtain ⟨hap, har⟩ := hreads a ha
          exact hmemo a hap har
        have hwalk3 : gmap_table_walk s3 saddr 2 = some p := by
          rw [gmap_table_walk_stable s s3 saddr 2 hasce htbl hish hrem hreadsagree, hw]
        by_cases hprc : prc = 0
        · rw [if_pos hprc]
          rw [hwalk3]
          dsimp only
          rw [if_neg (show ¬(s3.mem p &&& REGION_ENTRY_ORIGIN ≠ pg) from
            fun hcon => hcon hmemp)]
          left
          rfl
        · rw [if_neg hprc]
          have hgc := gmap_table_walk_gcongr s saddr
            ((saddr &&& REGION3_MASK) ||| SHADOW_RMAP_REGION3) 2 (by norm_num)
            (tag_mask_congr saddr SHADOW_RMAP_REGION3 31 REGION1_INDEX (by decide)
              (by norm_num) (by decide) (by decide))
            (fun _ => tag_mask_congr saddr SHADOW_RMAP_REGION3 31 REGION2_INDEX (by decide)
              (by norm_num) (by decide) (by decide))
            (fun _ => tag_mask_congr saddr SHADOW_RMAP_REGION3 31 REGION3_INDEX (by decide)
              (by norm_num) (by decide) (by decide))
            (fun h => absurd h (by norm_num))
            (fun h => absurd h (by norm_num))
            (fun _ => tag_mask_congr saddr SHADOW_RMAP_REGION3 31 (U64 - 2 ^ 42) (by decide)
              (by norm_num) (by decide) (by decide))
            (fun _ => tag_mask_congr saddr SHADOW_RMAP_REGION3 31 (U64 - 2 ^ 53) (by decide)
              (by norm_num) (by decide) (by decide))
          have hwalkra : gmap_table_walk s3
              ((saddr &&& REGION3_MASK) ||| SHADOW_RMAP_REGION3) 2 = some p := by
            rw [gmap_table_walk_stable s s3
              ((saddr &&& REGION3_MASK) ||| SHADOW_RMAP_REGION3) 2 hasce htbl hish hrem
              (by
                intro a ha
                rw [hgc.2] at ha
                exact hreadsagree a ha), hgc.1, hw]
          have hne0 : ¬(s3.mem p &&& REGION_ENTRY_ORIGIN = 0) := by
            rw [hmemp]
            exact hpg0
          have hr2tv : (notifyRange s3 ((saddr &&& REGION3_MASK) ||| SHADOW_RMAP_REGION3)
              (t64 (((saddr &&& REGION3_MASK) ||| SHADOW_RMAP_REGION3) + REGION3_SIZE - 1))).mem
                p &&& REGION_ENTRY_ORIGIN = pg := by
            rw [notifyRange_mem]
            exact hmemp
          have hfold : gmap_unshadow_sgt_table
              (setMem (notifyRange s3 ((saddr &&& REGION3_MASK) ||| SHADOW_RMAP_REGION3)
                (t64 (((saddr &&& REGION3_MASK) ||| SHADOW_RMAP_REGION3) + REGION3_SIZE - 1)))
                p REGION3_ENTRY_EMPTY)
              ((saddr &&& REGION3_MASK) ||| SHADOW_RMAP_REGION3) pg =
              setMem (notifyRange s3 ((saddr &&& REGION3_MASK) ||| SHADOW_RMAP_REGION3)
                (t64 (((saddr &&& REGION3_MASK) ||| SHADOW_RMAP_REGION3) + REGION3_SIZE - 1)))
                p REGION3_ENTRY_EMPTY := by
            unfold gmap_unshadow_sgt_table
            apply foldl_fix
            intro i hi
            have hii : i < CRST_ENTRIES := List.mem_range.mp hi
            have hne : pg + 8 * i ≠ p := by
              rcases hpr with h | h <;> omega
            have hval : (setMem (notifyRange s3
                ((saddr &&& REGION3_MASK) ||| SHADOW_RMAP_REGION3)
                (t64 (((saddr &&& REGION3_MASK) ||| SHADOW_RMAP_REGION3) + REGION3_SIZE - 1)))
                p REGION3_ENTRY_EMPTY).mem (pg + 8 * i) = t64 SEGMENT_ENTRY_EMPTY := by
              rw [setMem_mem_other _ _ _ _ hne, notifyRange_mem]
              exact hmemin i hii hne
            dsimp only
            rw [hval, if_pos (by decide)]
          have hfinal : gmap_unshadow_sgt s3
              ((saddr &&& REGION3_MASK) ||| SHADOW_RMAP_REGION3) =
              freePage (setMem (notifyRange s3
                ((saddr &&& REGION3_MASK) ||| SHADOW_RMAP_REGION3)
                (t64 (((saddr &&& REGION3_MASK) ||| SHADOW_RMAP_REGION3) + REGION3_SIZE - 1)))
                p REGION3_ENTRY_EMPTY) pg := by
            unfold gmap_unshadow_sgt
            rw [hwalkra]
            dsimp only
            rw [if_neg hne0, hr2tv, hfold]
          right
          right
          rw [hfinal]
          constructor
          · right
            rw [freePage_mem, setMem_mem_self]
            decide
          · unfold freePage
            simp


/-- Clearing a shadow page table does not touch memory outside it. -/
lemma gmap_unshadow_pgt_table_mem_out (pgt x : Nat)
    (hx : ∀ i, i < PAGE_ENTRIES → pgt + 8 * i ≠ x) :
    ∀ s, (gmap_unshadow_pgt_table s pgt).mem x = s.mem x := by
  unfold gmap_unshadow_pgt_table
  suffices h : ∀ (l : List Nat), (∀ i ∈ l, pgt + 8 * i ≠ x) → ∀ s : GmapS,
      (l.foldl (fun st i => setMem st (pgt + 8 * i) PAGE_INVALID) s).mem x = s.mem x by
    intro s
    exact h _ (fun i hi => hx i (List.mem_range.mp hi)) s
  intro l
  induction l with
  | nil =>
    intro hl s
    rfl
  | cons a rest ih =>
    intro hl s
    rw [List.foldl_cons, ih (fun i hi => hl i (List.mem_cons_of_mem _ hi)) _]
    exact setMem_mem_other _ _ _ _ (Ne.symm (hl a (List.mem_cons_self a rest)))

/-- Clearing a shadow page table does not touch the allocation ledger. -/
lemma gmap_unshadow_pgt_table_live (s : GmapS) (pgt : Nat) :
    (gmap_unshadow_pgt_table s pgt).live = s.live := by
  unfold gmap_unshadow_pgt_table
  suffices h : ∀ (l : List Nat) (s : GmapS),
      (l.foldl (fun st i => setMem st (pgt + 8 * i) PAGE_INVALID) s).live = s.live by
    exact h _ s
  intro l
  induction l with
  | nil =>
    intro s
    rfl
  | cons a rest ih =>
    intro s
    rw [List.foldl_cons, ih _]
    rfl

/-- The pgste stamps of pgtPrep stay inside the fresh page. -/
lemma pgtPrep_mem_out (s : GmapS) (pg rt x : Nat) (fake : Bool)
    (hx : x < pg ∨ pg + PAGE_SIZE ≤ x) :
    (pgtPrep s pg rt fake).mem x = s.mem x := by
  have h1 : (8 : Nat) * PAGE_ENTRIES + 24 < PAGE_SIZE := by decide
  unfold pgtPrep gmap_pgste_set_pgt_addr
  dsimp only
  rw [setMem_mem_other _ _ _ _ (by rcases hx with h | h <;> omega),
    setMem_mem_other _ _ _ _ (by rcases hx with h | h <;> omega),
    setMem_mem_other _ _ _ _ (by rcases hx with h | h <;> omega),
    setMem_mem_other _ _ _ _ (by rcases hx with h | h <;> omega)]
  rfl

/-- pgtPrep leaves the asce unchanged. -/
lemma pgtPrep_asce (s : GmapS) (pg rt : Nat) (fake : Bool) :
    (pgtPrep s pg rt fake).asce = s.asce := by
  unfold pgtPrep gmap_pgste_set_pgt_addr
  dsimp only
  rw [setMem_asce, setMem_asce, setMem_asce, setMem_asce]
  rfl

/-- pgtPrep leaves the root table pointer unchanged. -/
lemma pgtPrep_table (s : GmapS) (pg rt : Nat) (fake : Bool) :
    (pgtPrep s pg rt fake).table = s.table := by
  unfold pgtPrep gmap_pgste_set_pgt_addr
  dsimp only
  rw [setMem_table, setMem_table, setMem_table, setMem_table]
  rfl

/-- pgtPrep leaves the shadow flag unchanged. -/
lemma pgtPrep_is_shadow (s : GmapS) (pg rt : Nat) (fake : Bool) :
    (pgtPrep s pg rt fake).is_shadow = s.is_shadow := by
  unfold pgtPrep gmap_pgste_set_pgt_addr
  dsimp only
  rw [setMem_is_shadow, setMem_is_shadow, setMem_is_shadow, setMem_is_shadow]
  rfl

/-- pgtPrep leaves the removed flag unchanged. -/
lemma pgtPrep_removed (s : GmapS) (pg rt : Nat) (fake : Bool) :
    (pgtPrep s pg rt fake).removed = s.removed := by
  unfold pgtPrep gmap_pgste_set_pgt_addr
  dsimp only
  rw [setMem_removed, setMem_removed, setMem_removed, setMem_removed]
  rfl

/-- Error unwind of gmap_shadow_pgt: with a reachable, non-Building target
segment slot and a sane fresh page-table page, the call either succeeds,
runs out of modeled protect attempts, or returns an error with the slot not
in the Building state and the fresh page freed. -/
lemma gmap_shadow_pgt_unwind (s parent : GmapS) (saddr rt pg p : Nat)
    (fake : Bool) (att : List PteAttempt)
    (hw : gmap_table_walk s saddr 1 = some p)
    (hnb : s.mem p &&& SEGMENT_ENTRY_INVALID = 0 ∨ s.mem p &&& SEGMENT_ENTRY_ORIGIN = 0)
    (hpr : p < pg ∨ pg + PAGE_SIZE ≤ p)
    (hreads : ∀ a ∈ gmapWalkReads s saddr 1, a ≠ p ∧ (a < pg ∨ pg + PAGE_SIZE ≤ a))
    (hpg0 : pg ≠ 0) (hal : pg % PAGE_SIZE = 0) (hpgU : pg < U64) :
    (gmap_shadow_pgt s parent saddr rt fake (some pg) att).1 = some 0 ∨
    (gmap_shadow_pgt s parent saddr rt fake (some pg) att).1 = none ∨
    (((gmap_shadow_pgt s parent saddr rt fake (some pg) att).2.mem p &&&
        SEGMENT_ENTRY_INVALID = 0 ∨
      (gmap_shadow_pgt s parent saddr rt fake (some pg) att).2.mem p &&&
        SEGMENT_ENTRY_ORIGIN = 0) ∧
     (gmap_shadow_pgt s parent saddr rt fake (some pg) att).2.live pg = false) := by
  have hpgE : (8 : Nat) * PAGE_ENTRIES ≤ PAGE_SIZE := by decide
  have hpp : (pgtPrep s pg rt fake).mem p = s.mem p :=
    pgtPrep_mem_out s pg rt p fake hpr
  have hw0 : gmap_table_walk (pgtPrep s pg rt fake) saddr 1 = some p := by
    rw [gmap_table_walk_stable s (pgtPrep s pg rt fake) saddr 1
      (pgtPrep_asce s pg rt fake) (pgtPrep_table s pg rt fake)
      (pgtPrep_is_shadow s pg rt fake) (pgtPrep_removed s pg rt fake)
      (fun a ha => pgtPrep_mem_out s pg rt a fake (hreads a ha).2)]
    exact hw
  have hS2out : ∀ v x, x ≠ p → (x < pg ∨ pg + PAGE_SIZE ≤ x) →
      (setMem (pgtPrep s pg rt fake) p v).mem x = s.mem x := by
    intro v x hxp hxr
    rw [setMem_mem_other _ _ _ _ hxp]
    exact pgtPrep_mem_out s pg rt x fake hxr
  have hal11 : pg % 2 ^ 11 = 0 := by
    have h4096 : pg % 4096 = 0 := hal
    omega
  have hVorigin : t64 (pg ||| SEGMENT_ENTRY ||| (rt &&& SEGMENT_ENTRY_PROTECT) |||
      SEGMENT_ENTRY_INVALID) &&& SEGMENT_ENTRY_ORIGIN = pg := by
    simp only [Nat.lor_assoc]
    exact or_tag_and_himask pg _ 11 hal11 hpgU
      (Nat.or_lt_two_pow (by decide) (Nat.or_lt_two_pow
        (lt_of_le_of_lt Nat.and_le_right (by decide)) (by decide))) (by norm_num)
  unfold gmap_shadow_pgt
  dsimp only
  rw [hw0]
  dsimp only
  by_cases hc1 : (pgtPrep s pg rt fake).mem p &&& SEGMENT_ENTRY_INVALID = 0
  · rw [if_pos hc1]
    left
    rfl
  · rw [if_neg hc1]
    have hc2 : ¬((pgtPrep s pg rt fake).mem p &&& SEGMENT_ENTRY_ORIGIN ≠ 0) := by
      rcases hnb with hnb1 | hnb2
      · rw [hpp] at hc1
        exact absurd hnb1 hc1
      · intro hcon
        rw [hpp] at hcon
        exact hcon hnb2
    rw [if_neg hc2]
    by_cases hf : fake = true
    · rw [if_pos hf]
      left
      rfl
    · rw [if_neg hf]
      split
      · right
        left
        rfl
      · rename_i prc s3 heq
        have h2 : (gmap_protect_rmap parent ((saddr &&& SEGMENT_MASK) ||| SHADOW_RMAP_SEGMENT)
            (setMem (pgtPrep s pg rt fake) p
              (pg ||| SEGMENT_ENTRY ||| (rt &&& SEGMENT_ENTRY_PROTECT) |||
                SEGMENT_ENTRY_INVALID))
            att (rt &&& SEGMENT_ENTRY_ORIGIN &&& PAGE_MASK) PAGE_SIZE).2 = s3 := by
          rw [heq]
        have hasce : s3.asce = s.asce := by
          rw [← h2, (gmap_protect_rmap_frame _ _ _ _ _ _).2.1]
          rw [setMem_asce, pgtPrep_asce]
        have htbl : s3.table = s.table := by
          rw [← h2, (gmap_protect_rmap_frame _ _ _ _ _ _).2.2.1]
          rw [setMem_table, pgtPrep_table]
        have hish : s3.is_shadow = s.is_shadow := by
          rw [← h2, (gmap_protect_rmap_frame _ _ _ _ _ _).2.2.2.1]
          rw [setMem_is_shadow, pgtPrep_is_shadow]
        have hrem : s3.removed = s.removed := by
          rw [← h2, (gmap_protect_rmap_frame _ _ _ _ _ _).2.2.2.2.1]
          rw [setMem_removed, pgtPrep_removed]
        have hmemo : ∀ x, x ≠ p → (x < pg ∨ pg + PAGE_SIZE ≤ x) →
            s3.mem x = s.mem x := by
          intro x hxp hxr
          rw [← h2, (gmap_protect_rmap_frame _ _ _ _ _ _).1]
          exact hS2out _ x hxp hxr
        have hmemp : s3.mem p &&& SEGMENT_ENTRY_ORIGIN = pg := by
          rw [← h2, (gmap_protect_rmap_frame _ _ _ _ _ _).1, setMem_mem_self]
          exact hVorigin
        have hreadsagree : ∀ a ∈ gmapWalkReads s saddr 1, s3.mem a = s.mem a := by
          intro a ha
          obtain ⟨hap, har⟩ := hreads a ha
          exact hmemo a hap har
        have hwalk3 : gmap_table_walk s3 saddr 1 = some p := by
          rw [gmap_table_walk_stable s s3 saddr 1 hasce htbl hish hrem hreadsagree, hw]
        by_cases hprc : prc = 0
        · rw [if_pos hprc]
          rw [hwalk3]
          dsimp only
          rw [if_neg (show ¬(s3.mem p &&& SEGMENT_ENTRY_ORIGIN ≠ pg) from
            fun hcon => hcon hmemp)]
          left
          rfl
        · rw [if_neg hprc]
          have hgc := gmap_table_walk_gcongr s saddr
            ((saddr &&& SEGMENT_MASK) ||| SHADOW_RMAP_SEGMENT) 1 (by norm_num)
            (tag_mask_congr saddr SHADOW_RMAP_SEGMENT 20 REGION1_INDEX (by decide)
              (by norm_num) (by decide) (by decide))
            (fun _ => tag_mask_congr saddr SHADOW_RMAP_SEGMENT 20 REGION2_INDEX (by decide)
              (by norm_num) (by decide) (by decide))
            (fun _ => tag_mask_congr saddr SHADOW_RMAP_SEGMENT 20 REGION3_INDEX (by decide)
              (by norm_num) (by decide) (by decide))
            (fun _ => tag_mask_congr saddr SHADOW_RMAP_SEGMENT 20 SEGMENT_INDEX (by decide)
              (by norm_num) (by decide) (by decide))
            (fun _ => tag_mask_congr saddr SHADOW_RMAP_SEGMENT 20 (U64 - 2 ^ 31) (by decide)
              (by norm_num) (by decide) (by decide))
            (fun _ => tag_mask_congr saddr SHADOW_RMAP_SEGMENT 20 (U64 - 2 ^ 42) (by decide)
              (by norm_num) (by decide) (by decide))
            (fun _ => tag_mask_congr saddr SHADOW_RMAP_SEGMENT 20 (U64 - 2 ^ 53) (by decide)
              (by norm_num) (by decide) (by decide))
          have hwalkra : gmap_table_walk s3
              ((saddr &&& SEGMENT_MASK) ||| SHADOW_RMAP_SEGMENT) 1 = some p := by
            rw [gmap_table_walk_stable s s3
              ((saddr &&& SEGMENT_MASK) ||| SHADOW_RMAP_SEGMENT) 1 hasce htbl hish hrem
              (by
                intro a ha
                rw [hgc.2] at ha
                exact hreadsagree a ha), hgc.1, hw]
          have hne0 : ¬(s3.mem p &&& SEGMENT_ENTRY_ORIGIN = 0) := by
            rw [hmemp]
            exact hpg0
          have hr2tv : (notifyRange s3 ((saddr &&& SEGMENT_MASK) ||| SHADOW_RMAP_SEGMENT)
              (t64 (((saddr &&& SEGMENT_MASK) ||| SHADOW_RMAP_SEGMENT) + SEGMENT_SIZE - 1))).mem
                p &&& SEGMENT_ENTRY_ORIGIN = pg := by
            rw [notifyRange_mem]
            exact hmemp
          have hfinal : gmap_unshadow_pgt s3
              ((saddr &&& SEGMENT_MASK) ||| SHADOW_RMAP_SEGMENT) =
              freePage (gmap_unshadow_pgt_table
                (setMem (notifyRange s3 ((saddr &&& SEGMENT_MASK) ||| SHADOW_RMAP_SEGMENT)
                  (t64 (((saddr &&& SEGMENT_MASK) ||| SHADOW_RMAP_SEGMENT) + SEGMENT_SIZE - 1)))
                  p SEGMENT_ENTRY_EMPTY) pg) pg := by
            unfold gmap_unshadow_pgt
            rw [hwalkra]
            dsimp only
            rw [if_neg hne0, hr2tv]
          right
          right
          rw [hfinal]
          constructor
          · right
            rw [freePage_mem, gmap_unshadow_pgt_table_mem_out pg p
              (fun i hi => by rcases hpr with h | h <;> omega), setMem_mem_self]
            decide
          · rw [show ∀ X : GmapS, (freePage X pg).live pg = false from fun X => by
              unfold freePage
              simp]

/-- C4: every shadow-level creation operation (gmap_shadow_r2t, r3t, sgt,
pgt) unwinds partially built state before returning an error.  Whenever the
target slot is reachable and not already in the Building state (installed
origin with the invalid bit set), the fresh table page does not alias the
slot or the walk path, and the call returns at all (the modeled protect
attempt stream is not exhausted), then either it returns success or the
final state has the target slot out of the Building state — invalid bit
clear or origin clear — and the freshly allocated page freed. -/
theorem gmap_shadow_error_unwind (s parent : GmapS) (saddr rt pg : Nat)
    (fake : Bool) (att : List PteAttempt)
    (hpg0 : pg ≠ 0) (hal : pg % PAGE_SIZE = 0) (hpgU : pg < U64) :
    (∀ p, gmap_table_walk s saddr 4 = some p →
      (s.mem p &&& REGION_ENTRY_INVALID = 0 ∨ s.mem p &&& REGION_ENTRY_ORIGIN = 0) →
      (p < pg ∨ pg + 8 * CRST_ENTRIES ≤ p) →
      (∀ a ∈ gmapWalkReads s saddr 4, a ≠ p ∧ (a < pg ∨ pg + 8 * CRST_ENTRIES ≤ a)) →
      ((gmap_shadow_r2t s parent saddr rt fake (some pg) att).1 = some 0 ∨
       (gmap_shadow_r2t s parent saddr rt fake (some pg) att).1 = none ∨
       (((gmap_shadow_r2t s parent saddr rt fake (some pg) att).2.mem p &&&
           REGION_ENTRY_INVALID = 0 ∨
         (gmap_shadow_r2t s parent saddr rt fake (some pg) att).2.mem p &&&
           REGION_ENTRY_ORIGIN = 0) ∧
        (gmap_shadow_r2t s parent saddr rt fake (some pg) att).2.live pg = false))) ∧
    (∀ p, gmap_table_walk s saddr 3 = some p →
      (s.mem p &&& REGION_ENTRY_INVALID = 0 ∨ s.mem p &&& REGION_ENTRY_ORIGIN = 0) →
      (p < pg ∨ pg + 8 * CRST_ENTRIES ≤ p) →
      (∀ a ∈ gmapWalkReads s saddr 3, a ≠ p ∧ (a < pg ∨ pg + 8 * CRST_ENTRIES ≤ a)) →
      ((gmap_shadow_r3t s parent saddr rt fake (some pg) att).1 = some 0 ∨
       (gmap_shadow_r3t s parent saddr rt fake (some pg) att).1 = none ∨
       (((gmap_shadow_r3t s parent saddr rt fake (some pg) att).2.mem p &&&
           REGION_ENTRY_INVALID = 0 ∨
         (gmap_shadow_r3t s parent saddr rt fake (some pg) att).2.mem p &&&
           REGION_ENTRY_ORIGIN = 0) ∧
        (gmap_shadow_r3t s parent saddr rt fake (some pg) att).2.live pg = false))) ∧
    (∀ p, gmap_table_walk s saddr 2 = some p →
      (s.mem p &&& REGION_ENTRY_INVALID = 0 ∨ s.mem p &&& REGION_ENTRY_ORIGIN = 0) →
      (p < pg ∨ pg + 8 * CRST_ENTRIES ≤ p) →
      (∀ a ∈ gmapWalkReads s saddr 2, a ≠ p ∧ (a < pg ∨ pg + 8 * CRST_ENTRIES ≤ a)) →
      ((gmap_shadow_sgt s parent saddr rt fake (some pg) att).1 = some 0 ∨
       (gmap_shadow_sgt s parent saddr rt fake (some pg) att).1 = none ∨
       (((gmap_shadow_sgt s parent saddr rt fake (some pg) att).2.mem p &&&
           REGION_ENTRY_INVALID = 0 ∨
         (gmap_shadow_sgt s parent saddr rt fake (some pg) att).2.mem p &&&
           REGION_ENTRY_ORIGIN = 0) ∧
        (gmap_shadow_sgt s parent saddr rt fake (some pg) att).2.live pg = false))) ∧
    (∀ p, gmap_table_walk s saddr 1 = some p →
      (s.mem p &&& SEGMENT_ENTRY_INVALID = 0 ∨ s.mem p &&& SEGMENT_ENTRY_ORIGIN = 0) →
      (p < pg ∨ pg + PAGE_SIZE ≤ p) →
      (∀ a ∈ gmapWalkReads s saddr 1, a ≠ p ∧ (a < pg ∨ pg + PAGE_SIZE ≤ a)) →
      ((gmap_shadow_pgt s parent saddr rt fake (some pg) att).1 = some 0 ∨
       (gmap_shadow_pgt s parent saddr rt fake (some pg) att).1 = none ∨
       (((gmap_shadow_pgt s parent saddr rt fake (some pg) att).2.mem p &&&
           SEGMENT_ENTRY_INVALID = 0 ∨
         (gmap_shadow_pgt s parent saddr rt fake (some pg) att).2.mem p &&&
           SEGMENT_ENTRY_ORIGIN = 0) ∧
        (gmap_shadow_pgt s parent saddr rt fake (some pg) att).2.live pg = false))) :=
  ⟨fun p hw hnb hpr hreads =>
      gmap_shadow_r2t_unwind s parent saddr rt pg p fake att hw hnb hpr hreads hpg0 hal hpgU,
   fun p hw hnb hpr hreads =>
      gmap_shadow_r3t_unwind s parent saddr rt pg p fake att hw hnb hpr hreads hpg0 hal hpgU,
   fun p hw hnb hpr hreads =>
      gmap_shadow_sgt_unwind s parent saddr rt pg p fake att hw hnb hpr hreads hpg0 hal hpgU,
   fun p hw hnb hpr hreads =>
      gmap_shadow_pgt_unwind s parent saddr rt pg p fake att hw hnb hpr hreads hpg0 hal hpgU⟩

/-- Witness for gmap_shadow_error_unwind on the concrete shadow space sC34. -/
theorem gmap_shadow_error_unwind_witness :
    (gmap_shadow_r2t sC34 s0 0 0 false (some 0x2000) []).1 = some 0 ∨
    (gmap_shadow_r2t sC34 s0 0 0 false (some 0x2000) []).1 = none ∨
    (((gmap_shadow_r2t sC34 s0 0 0 false (some 0x2000) []).2.mem 0x1000 &&&
        REGION_ENTRY_INVALID = 0 ∨
      (gmap_shadow_r2t sC34 s0 0 0 false (some 0x2000) []).2.mem 0x1000 &&&
        REGION_ENTRY_ORIGIN = 0) ∧
     (gmap_shadow_r2t sC34 s0 0 0 false (some 0x2000) []).2.live 0x2000 = false) :=
  (gmap_shadow_error_unwind sC34 s0 0 0 0x2000 false []
      (by decide) (by decide) (by decide)).1 0x1000
    (by decide) (by decide) (by decide) (by decide)

end Gmap
